import Mathlib

/-!
# YSFGateway: link-state machine, frame router and supervision timers

A shallow embedding of `YSFGateway/YSFGateway.cpp` (`CYSFGateway::run`,
`CYSFGateway::processWiresX`, `CYSFGateway::processDTMF`).

* The gateway object is the record `CYSFGateway`; every member function becomes a
  function on that record.
* Calls made on the network adapters and on the WiresX collaborator are appended, in
  program order, to the trace `m_out`.
* What the collaborators answer for a frame (header decode, menu-command decision,
  tone-sequence decision, directory content) is carried by the input `RptFrame`.
* A null-pointer dereference or an uncaught exception ends the program: the functions
  concerned return `Option`, `none` standing for the crash.
* The location-beacon collaborator (`m_gps`) and the log are left out: the gateway never
  reads anything back from them.
-/

namespace YSFGateway

/-! ## Collaborators -/

/-- Modelled from the spec: the countdown timer (`Timer.h` is not part of the sources).
The spec gives its data as timeout duration, elapsed accumulator and running flag;
`start` resets the elapsed time and sets running, `stop` clears running, `clock`
accumulates while running, `hasExpired` holds once elapsed is at least the timeout.
The timer counts ticks; its constructor takes the number of ticks per second. -/
structure CTimer where
  m_ticksPerSec : Nat
  m_timeout : Nat
  m_timer : Nat
  m_running : Bool
deriving DecidableEq, Repr

/-- Modelled from the spec: `CTimer(ticksPerSec, secs)`, a stopped timer whose timeout
is `secs` seconds, counted in ticks. -/
def CTimer.new (ticksPerSec secs : Nat) : CTimer :=
  { m_ticksPerSec := ticksPerSec, m_timeout := secs * ticksPerSec, m_timer := 0,
    m_running := false }

/-- Modelled from the spec: `setTimeout(secs)` replaces the timeout duration. -/
def CTimer.setTimeout (t : CTimer) (secs : Nat) : CTimer :=
  { t with m_timeout := secs * t.m_ticksPerSec }

/-- Modelled from the spec: `start` arms the timer with elapsed time zero. -/
def CTimer.start (t : CTimer) : CTimer :=
  { t with m_timer := 0, m_running := true }

/-- Modelled from the spec: `stop` disarms the timer. -/
def CTimer.stop (t : CTimer) : CTimer :=
  { t with m_running := false }

/-- Modelled from the spec: `clock(ms)` is a no-op when disarmed, otherwise adds to the
elapsed time. -/
def CTimer.clock (t : CTimer) (ms : Nat) : CTimer :=
  if t.m_running then { t with m_timer := t.m_timer + ms } else t

/-- Modelled from the spec: `isRunning`. -/
def CTimer.isRunning (t : CTimer) : Bool := t.m_running

/-- Modelled from the spec: `hasExpired`, elapsed at least the timeout. -/
def CTimer.hasExpired (t : CTimer) : Bool := decide (t.m_timeout ≤ t.m_timer)

/-- Link type of the gateway (`m_linkType`). -/
inductive LINK_TYPE where
  | LINK_NONE
  | LINK_YSF
  | LINK_FCS
deriving DecidableEq, Repr

/-- Decision returned by the menu-command decoder and by the tone-sequence decoder. -/
inductive WX_STATUS where
  | WXS_NONE
  | WXS_CONNECT_YSF
  | WXS_CONNECT_FCS
  | WXS_DISCONNECT
deriving DecidableEq, Repr

/-- Reflector record handed out by the directory; the gateway reads `m_address` and
`m_port` (and `m_id` for the log). -/
structure CYSFReflector where
  m_id : List Char
  m_address : Nat
  m_port : Nat
deriving DecidableEq, Repr

/-- Modelled from the spec: the data-type constants of the frame header are declared in a
header that is not part of the sources; this one is the data-frame-mode constant. -/
def YSF_DT_DATA_FR_MODE : Nat := 1

/-- Modelled from the spec: the data-type constant of the voice/data mode the
tone-sequence decoder listens to (declared in the same absent header). -/
def YSF_DT_VD_MODE2 : Nat := 2

/-- Header fields read back from `CYSFFICH` after a successful `decode`. -/
structure CYSFFICH where
  fi : Nat
  dt : Nat
  fn : Nat
  ft : Nat
deriving DecidableEq, Repr

/-- Calls the gateway makes on its collaborators, in program order. -/
inductive Event where
  | ysfSetDestination (address port : Nat)
  | ysfClearDestination
  | ysfWritePoll
  | ysfWriteUnlink
  | ysfWrite (buffer : List Nat)
  | fcsClearDestination
  | fcsWriteUnlink
  | fcsWriteLink (reflector : List Char)
  | fcsWrite (buffer : List Nat)
  | rptWrite (buffer : List Nat)
  | wiresXProcessConnect (reflector : CYSFReflector)
  | wiresXProcessDisconnect
  | dtmfReset
deriving DecidableEq, Repr

/-- Modelled from the spec: the wide-network adapter, as far as the gateway can tell: the
destination endpoint configured by `setDestination` and removed by `clearDestination`
(the spec's destination redirection). The sends (`write`, `writePoll`, `writeUnlink`)
are recorded in the trace of the gateway. -/
structure CNetwork where
  m_destination : Option (Nat × Nat)
deriving DecidableEq, Repr

/-- Modelled from the spec: the FCS adapter, as far as the gateway can tell. The gateway
never calls `setDestination` on it: the adapter is directed to a reflector by
`writeLink(identifier)`, the link message carrying the identifier, and
`clearDestination` removes that destination again (the spec counts a destination per
outbound adapter, cleared exactly when there is no link). The destination is recorded
as the identifier linked to. -/
structure CFCSNetwork where
  m_destination : Option (List Char)
deriving DecidableEq, Repr

/-- Values read from the configuration at the top of `run()`. -/
structure CConf where
  ysfNetworkEnabled : Bool
  fcsNetworkEnabled : Bool
  revert : Bool
  startup : List Char
  inactivityTimeout : Nat

/-- The gateway object: the members of `CYSFGateway` that the link logic uses, the
destination held by each reflector adapter, and the trace of collaborator calls. -/
structure CYSFGateway where
  m_linkType : LINK_TYPE
  m_exclude : Bool
  m_inactivityTimer : CTimer
  m_lostTimer : CTimer
  m_ysfPollTimer : CTimer
  m_ysfNetwork : CNetwork
  m_fcsNetwork : CFCSNetwork
  m_out : List Event
deriving DecidableEq, Repr

/-- One datagram read from the repeater, together with what the collaborators answer
while it is processed. -/
structure RptFrame where
  /-- the bytes of `buffer` after `rptNetwork.read` -/
  buffer : List Nat
  /-- result of `fich.decode(buffer + 35U)`: `none` when the header is not valid -/
  fich : Option CYSFFICH
  /-- what `m_wiresX->process(...)` returns for this frame -/
  wxProcess : WX_STATUS
  /-- what `m_wiresX->getReflector()` returns, the current selection of the menu -/
  wxReflector : CYSFReflector
  /-- what `m_dtmf.decodeVDMode2(...)` returns for this frame -/
  decodeVDMode2 : WX_STATUS
  /-- what `m_dtmf.getReflector()` returns, the decoded digits -/
  dtmfReflector : List Char
  /-- content of the reflector directory, `m_wiresX->getReflector(id)` -/
  directory : List Char → Option CYSFReflector
  /-- the bytes that follow the string literal `"FCS00"` in memory -/
  rodata : List Char

/-! ## Adapter and collaborator calls -/

/-- Append one call to the trace. -/
def CYSFGateway.emit (s : CYSFGateway) (e : Event) : CYSFGateway :=
  { s with m_out := s.m_out ++ [e] }

/-- Call `m_ysfNetwork->setDestination(address, port)`. -/
def CYSFGateway.ysfSetDestination (s : CYSFGateway) (r : CYSFReflector) : CYSFGateway :=
  { s with m_ysfNetwork := { m_destination := some (r.m_address, r.m_port) },
           m_out := s.m_out ++ [Event.ysfSetDestination r.m_address r.m_port] }

/-- Call `m_ysfNetwork->clearDestination()`. -/
def CYSFGateway.ysfClearDestination (s : CYSFGateway) : CYSFGateway :=
  { s with m_ysfNetwork := { m_destination := none },
           m_out := s.m_out ++ [Event.ysfClearDestination] }

/-- Call `m_fcsNetwork->clearDestination()`. -/
def CYSFGateway.fcsClearDestination (s : CYSFGateway) : CYSFGateway :=
  { s with m_fcsNetwork := { m_destination := none },
           m_out := s.m_out ++ [Event.fcsClearDestination] }

/-- Call `m_ysfNetwork->writePoll()`. -/
def CYSFGateway.ysfWritePoll (s : CYSFGateway) : CYSFGateway :=
  s.emit Event.ysfWritePoll

/-- Call `m_ysfNetwork->writeUnlink()`. -/
def CYSFGateway.ysfWriteUnlink (s : CYSFGateway) : CYSFGateway :=
  s.emit Event.ysfWriteUnlink

/-- Call `m_fcsNetwork->writeUnlink()`. -/
def CYSFGateway.fcsWriteUnlink (s : CYSFGateway) : CYSFGateway :=
  s.emit Event.fcsWriteUnlink

/-- Call `m_fcsNetwork->writeLink(id)`: the link message is sent and the adapter is
from then on directed to the reflector named `id`. -/
def CYSFGateway.fcsWriteLink (s : CYSFGateway) (id : List Char) : CYSFGateway :=
  { s with m_fcsNetwork := { m_destination := some id },
           m_out := s.m_out ++ [Event.fcsWriteLink id] }

/-- The constructor `CYSFGateway::CYSFGateway`, with both adapters as `run()` creates
them (no destination yet). -/
def CYSFGateway.new : CYSFGateway :=
  { m_linkType := LINK_TYPE.LINK_NONE,
    m_exclude := false,
    m_inactivityTimer := CTimer.new 1000 0,
    m_lostTimer := CTimer.new 1000 120,
    m_ysfPollTimer := CTimer.new 1000 5,
    m_ysfNetwork := { m_destination := none },
    m_fcsNetwork := { m_destination := none },
    m_out := [] }

/-- Whether `m_wiresX` is non-null: it is assigned once, inside
`if (ysfNetworkEnabled)`. -/
def m_wiresX (cfg : CConf) : Bool := cfg.ysfNetworkEnabled

/-! ## The FCS identifier of `processDTMF` -/

/-- Storage of the string literal `"FCS00"` (five characters and the terminating NUL)
followed by the bytes `rodata` that come after it in memory. -/
def fcsImage (rodata : List Char) : List Char :=
  ['F', 'C', 'S', '0', '0', Char.ofNat 0] ++ rodata

/-- Conversion of a `const char*` to `std::string`: the characters from offset `off` of
the image up to the first NUL (nothing when the offset lies past the image). -/
def cString (image : List Char) (off : Nat) : List Char :=
  (image.drop off).takeWhile (fun c => c != Char.ofNat 0)

/-- The identifier built at the top of the `WXS_CONNECT_FCS` branch from
`id = m_dtmf.getReflector()`.

In `"FCS00" + id.at(0U) + ...` the left operand is a `const char*` and `id.at(0U)` a
`char`, so the first `+` is pointer arithmetic: it moves the pointer by the character
code. With two digits the moved pointer is then converted to a `std::string`, to which
`"0"` and the second digit are appended; with three, all three `+` are pointer
arithmetic and the final pointer is converted by the assignment. The decoded digits
are ASCII characters, so the amount added is the character code. `at` throws
`std::out_of_range` past the end of the string, which nothing catches (`none`). -/
def fcsReflector (rodata : List Char) (id : List Char) : Option (List Char) :=
  if id.length = 2 then
    match id[0]?, id[1]? with
    | some c0, some c1 => some (cString (fcsImage rodata) (0 + c0.toNat) ++ ['0'] ++ [c1])
    | _, _ => none
  else
    match id[0]?, id[1]?, id[2]? with
    | some c0, some c1, some c2 =>
      some (cString (fcsImage rodata) (0 + c0.toNat + c1.toNat + c2.toNat))
    | _, _, _ => none

/-! ## Command handling -/

/-- The body of `CYSFGateway::processWiresX` after `m_wiresX->process(...)` has returned
`status`; `reflector` is what `m_wiresX->getReflector()` returns. -/
def processWiresX (s : CYSFGateway) (status : WX_STATUS) (reflector : CYSFReflector) :
    CYSFGateway :=
  match status with
  | WX_STATUS.WXS_CONNECT_YSF =>
    let s := if s.m_linkType = LINK_TYPE.LINK_YSF then
      s.ysfWriteUnlink.ysfWriteUnlink.ysfWriteUnlink else s
    let s := if s.m_linkType = LINK_TYPE.LINK_FCS then
      s.fcsWriteUnlink.fcsWriteUnlink.fcsWriteUnlink.fcsClearDestination else s
    let s := (s.ysfSetDestination reflector).ysfWritePoll.ysfWritePoll.ysfWritePoll
    { s with m_inactivityTimer := s.m_inactivityTimer.start,
             m_lostTimer := s.m_lostTimer.start,
             m_ysfPollTimer := s.m_ysfPollTimer.start,
             m_linkType := LINK_TYPE.LINK_YSF }
  | WX_STATUS.WXS_DISCONNECT =>
    let s := if s.m_linkType = LINK_TYPE.LINK_YSF then
      let s := s.ysfWriteUnlink.ysfWriteUnlink.ysfWriteUnlink.ysfClearDestination
      { s with m_inactivityTimer := s.m_inactivityTimer.stop,
               m_lostTimer := s.m_lostTimer.stop,
               m_ysfPollTimer := s.m_ysfPollTimer.stop,
               m_linkType := LINK_TYPE.LINK_NONE }
      else s
    if s.m_linkType = LINK_TYPE.LINK_FCS then
      let s := s.fcsWriteUnlink.fcsWriteUnlink.fcsWriteUnlink.fcsClearDestination
      { s with m_inactivityTimer := s.m_inactivityTimer.stop,
               m_lostTimer := s.m_lostTimer.stop,
               m_linkType := LINK_TYPE.LINK_NONE }
    else s
  | _ => s

/-- The second `switch` of `CYSFGateway::processDTMF`, on the decision `status`; `id` is
what `m_dtmf.getReflector()` returns. The `WXS_CONNECT_YSF` branch calls
`m_wiresX->getReflector(id)` before any test of `m_wiresX`: with a null `m_wiresX` the
program ends there (`none`). -/
def processDTMFStatus (cfg : CConf) (s : CYSFGateway) (status : WX_STATUS)
    (id : List Char) (directory : List Char → Option CYSFReflector)
    (rodata : List Char) : Option CYSFGateway :=
  match status with
  | WX_STATUS.WXS_CONNECT_YSF =>
    if m_wiresX cfg then
      match directory id with
      | some reflector =>
        let s := if m_wiresX cfg then s.emit (Event.wiresXProcessConnect reflector) else s
        let s := if s.m_linkType = LINK_TYPE.LINK_YSF then
          s.ysfWriteUnlink.ysfWriteUnlink.ysfWriteUnlink else s
        let s := if s.m_linkType = LINK_TYPE.LINK_FCS then
          s.fcsWriteUnlink.fcsWriteUnlink.fcsWriteUnlink.fcsClearDestination else s
        let s := (s.ysfSetDestination reflector).ysfWritePoll.ysfWritePoll.ysfWritePoll
        some { s with m_inactivityTimer := s.m_inactivityTimer.start,
                      m_lostTimer := s.m_lostTimer.start,
                      m_ysfPollTimer := s.m_ysfPollTimer.start,
                      m_linkType := LINK_TYPE.LINK_YSF }
      | none => some s
    else none
  | WX_STATUS.WXS_CONNECT_FCS =>
    match fcsReflector rodata id with
    | none => none
    | some id =>
      let s := if s.m_linkType = LINK_TYPE.LINK_YSF then
        let s := s.ysfWriteUnlink.ysfWriteUnlink.ysfWriteUnlink.ysfClearDestination
        { s with m_ysfPollTimer := s.m_ysfPollTimer.stop }
        else s
      let s := if s.m_linkType = LINK_TYPE.LINK_FCS then
        s.fcsWriteUnlink.fcsWriteUnlink.fcsWriteUnlink else s
      let s := ((s.fcsWriteLink id).fcsWriteLink id).fcsWriteLink id
      some { s with m_inactivityTimer := s.m_inactivityTimer.start,
                    m_lostTimer := s.m_lostTimer.start,
                    m_linkType := LINK_TYPE.LINK_FCS }
  | WX_STATUS.WXS_DISCONNECT =>
    let s := if s.m_linkType = LINK_TYPE.LINK_YSF then
      let s := if m_wiresX cfg then s.emit Event.wiresXProcessDisconnect else s
      let s := s.ysfWriteUnlink.ysfWriteUnlink.ysfWriteUnlink.ysfClearDestination
      { s with m_inactivityTimer := s.m_inactivityTimer.stop,
               m_lostTimer := s.m_lostTimer.stop,
               m_ysfPollTimer := s.m_ysfPollTimer.stop,
               m_linkType := LINK_TYPE.LINK_NONE }
      else s
    if s.m_linkType = LINK_TYPE.LINK_FCS then
      let s := s.fcsWriteUnlink.fcsWriteUnlink.fcsWriteUnlink.fcsClearDestination
      some { s with m_inactivityTimer := s.m_inactivityTimer.stop,
                    m_lostTimer := s.m_lostTimer.stop,
                    m_linkType := LINK_TYPE.LINK_NONE }
    else some s
  | WX_STATUS.WXS_NONE => some s

/-- The function `CYSFGateway::processDTMF`: the tone-sequence decoder is asked only
for frames of data type `YSF_DT_VD_MODE2`; otherwise the decision is `WXS_NONE`. -/
def processDTMF (cfg : CConf) (s : CYSFGateway) (f : RptFrame) (dt : Nat) :
    Option CYSFGateway :=
  let status := if dt = YSF_DT_VD_MODE2 then f.decodeVDMode2 else WX_STATUS.WXS_NONE
  processDTMFStatus cfg s status f.dtmfReflector f.directory f.rodata

/-! ## The main loop of `run()` -/

/-- The test `::memcmp(buffer + 0U, "YSFD", 4U) == 0`. -/
def isYSFD (buffer : List Nat) : Bool :=
  buffer.take 4 == [0x59, 0x53, 0x46, 0x44]

/-- The test `(buffer[34U] & 0x01U) == 0x01U`. -/
def isEOT (buffer : List Nat) : Bool :=
  buffer.getD 34 0 % 2 == 1

/-- Start of `run()` up to the main loop, when the configuration is read and the three
adapters open (otherwise `run()` returns before the loop): the inactivity timeout is set
from the configuration (an `unsigned int` product) and, with the wide network enabled
and a startup reflector configured, the automatic connection is made when the directory
knows it. -/
def runStartup (cfg : CConf) (directory : List Char → Option CYSFReflector) :
    CYSFGateway :=
  let s := CYSFGateway.new
  let s := { s with m_inactivityTimer :=
    s.m_inactivityTimer.setTimeout (cfg.inactivityTimeout * 60 % 2 ^ 32) }
  if cfg.ysfNetworkEnabled then
    if cfg.startup ≠ [] then
      match directory cfg.startup with
      | some reflector =>
        let s := (s.ysfSetDestination reflector).ysfWritePoll.ysfWritePoll.ysfWritePoll
        let s := if ¬ cfg.revert then
          { s with m_inactivityTimer := s.m_inactivityTimer.start } else s
        { s with m_lostTimer := s.m_lostTimer.start,
                 m_ysfPollTimer := s.m_ysfPollTimer.start,
                 m_linkType := LINK_TYPE.LINK_YSF }
      | none => s
    else s
  else s

/-- First part of the body of `while (rptNetwork.read(buffer) > 0U)`: header decode and
command processing (`if (valid) ...`). -/
def rptCommands (cfg : CConf) (s : CYSFGateway) (f : RptFrame) : Option CYSFGateway :=
  match f.fich with
  | some fich =>
    let s := { s with m_exclude := decide (fich.dt = YSF_DT_DATA_FR_MODE) }
    let s := if m_wiresX cfg then processWiresX s f.wxProcess f.wxReflector else s
    processDTMF cfg s f fich.dt
  | none => some s

/-- Second part of the body of `while (rptNetwork.read(buffer) > 0U)`: forwarding to
the linked reflector network and the end-of-transmission reset. -/
def rptForward (cfg : CConf) (s : CYSFGateway) (buffer : List Nat) : CYSFGateway :=
  let s := if cfg.ysfNetworkEnabled = true ∧ s.m_linkType = LINK_TYPE.LINK_YSF ∧
      s.m_exclude = false then
      let s := s.emit (Event.ysfWrite buffer)
      if isYSFD buffer then { s with m_inactivityTimer := s.m_inactivityTimer.start }
      else s
    else s
  let s := if cfg.fcsNetworkEnabled = true ∧ s.m_linkType = LINK_TYPE.LINK_FCS ∧
      s.m_exclude = false then
      if isYSFD buffer then
        let s := s.emit (Event.fcsWrite buffer)
        { s with m_inactivityTimer := s.m_inactivityTimer.start }
      else s
    else s
  if isEOT buffer then { s.emit Event.dtmfReset with m_exclude := false } else s

/-- Body of `while (rptNetwork.read(buffer) > 0U)` for one frame. -/
def rptRead (cfg : CConf) (s : CYSFGateway) (f : RptFrame) : Option CYSFGateway :=
  (rptCommands cfg s f).map (fun s => rptForward cfg s f.buffer)

/-- Body of `while (m_ysfNetwork->read(buffer) > 0U)` for one frame. -/
def ysfRead (cfg : CConf) (s : CYSFGateway) (buffer : List Nat) : CYSFGateway :=
  if cfg.ysfNetworkEnabled = true ∧ s.m_linkType = LINK_TYPE.LINK_YSF then
    let s := if isYSFD buffer then s.emit (Event.rptWrite buffer) else s
    { s with m_lostTimer := s.m_lostTimer.start }
  else s

/-- Body of `while (m_fcsNetwork->read(buffer) > 0U)` for one frame. -/
def fcsRead (cfg : CConf) (s : CYSFGateway) (buffer : List Nat) : CYSFGateway :=
  if cfg.fcsNetworkEnabled = true ∧ s.m_linkType = LINK_TYPE.LINK_FCS then
    let s := s.emit (Event.rptWrite buffer)
    { s with m_lostTimer := s.m_lostTimer.start }
  else s

/-- The inactivity block of the timer step: `m_inactivityTimer.clock(ms)` and the `if`
that follows it. `directory` is the content of the reflector directory at that time. -/
def clockInactivity (cfg : CConf) (s : CYSFGateway) (ms : Nat)
    (directory : List Char → Option CYSFReflector) : CYSFGateway :=
  let s := { s with m_inactivityTimer := s.m_inactivityTimer.clock ms }
  if s.m_inactivityTimer.isRunning = true ∧ s.m_inactivityTimer.hasExpired = true then
    let s := if s.m_linkType = LINK_TYPE.LINK_YSF then
      let reflector : Option CYSFReflector :=
        if cfg.revert = true ∧ cfg.startup ≠ [] ∧ m_wiresX cfg = true then
          directory cfg.startup
        else none
      match reflector with
      | some reflector =>
        let s := if m_wiresX cfg then s.emit (Event.wiresXProcessConnect reflector) else s
        let s := s.ysfWriteUnlink.ysfWriteUnlink.ysfWriteUnlink
        let s := (s.ysfSetDestination reflector).ysfWritePoll.ysfWritePoll.ysfWritePoll
        { s with m_lostTimer := s.m_lostTimer.start,
                 m_ysfPollTimer := s.m_ysfPollTimer.start }
      | none =>
        let s := if m_wiresX cfg then s.emit Event.wiresXProcessDisconnect else s
        let s := s.ysfWriteUnlink.ysfWriteUnlink.ysfWriteUnlink.ysfClearDestination
        { s with m_lostTimer := s.m_lostTimer.stop,
                 m_ysfPollTimer := s.m_ysfPollTimer.stop,
                 m_linkType := LINK_TYPE.LINK_NONE }
      else s
    { s with m_inactivityTimer := s.m_inactivityTimer.stop }
  else s

/-- The lost-link block of the timer step: `m_lostTimer.clock(ms)` and the `if` that
follows it (both adapters exist once the loop runs). -/
def clockLost (cfg : CConf) (s : CYSFGateway) (ms : Nat) : CYSFGateway :=
  let s := { s with m_lostTimer := s.m_lostTimer.clock ms }
  if s.m_lostTimer.isRunning = true ∧ s.m_lostTimer.hasExpired = true then
    let s := if m_wiresX cfg then s.emit Event.wiresXProcessDisconnect else s
    let s := s.fcsClearDestination
    let s := s.ysfClearDestination
    { s with m_inactivityTimer := s.m_inactivityTimer.stop,
             m_lostTimer := s.m_lostTimer.stop,
             m_ysfPollTimer := s.m_ysfPollTimer.stop,
             m_linkType := LINK_TYPE.LINK_NONE }
  else s

/-- The poll-retry block of the timer step: `m_ysfPollTimer.clock(ms)` and the `if`
that follows it. -/
def clockPoll (s : CYSFGateway) (ms : Nat) : CYSFGateway :=
  let s := { s with m_ysfPollTimer := s.m_ysfPollTimer.clock ms }
  if s.m_ysfPollTimer.isRunning = true ∧ s.m_ysfPollTimer.hasExpired = true then
    let s := s.ysfWritePoll
    { s with m_ysfPollTimer := s.m_ysfPollTimer.start }
  else s

/-- The timer step of one loop iteration, `ms` being the measured elapsed time: the
three blocks in program order. -/
def clock (cfg : CConf) (s : CYSFGateway) (ms : Nat)
    (directory : List Char → Option CYSFReflector) : CYSFGateway :=
  clockPoll (clockLost cfg (clockInactivity cfg s ms directory) ms) ms

/-- What the main loop can meet: a frame from the repeater, from the wide network, from
the FCS network, or the timer step with its elapsed time. -/
inductive Input where
  | rpt (f : RptFrame)
  | ysf (buffer : List Nat)
  | fcs (buffer : List Nat)
  | tick (ms : Nat) (directory : List Char → Option CYSFReflector)

/-- One step of the main loop. -/
def step (cfg : CConf) (s : CYSFGateway) : Input → Option CYSFGateway
  | Input.rpt f => rptRead cfg s f
  | Input.ysf buffer => some (ysfRead cfg s buffer)
  | Input.fcs buffer => some (fcsRead cfg s buffer)
  | Input.tick ms directory => some (clock cfg s ms directory)

/-- A sequence of steps of the main loop; `none` once the program has crashed. -/
def steps (cfg : CConf) (s : CYSFGateway) : List Input → Option CYSFGateway
  | [] => some s
  | i :: is => (step cfg s i).bind (fun s => steps cfg s is)

/-- States the gateway can be in: those reached from the state at the start of the main
loop by some sequence of inputs. -/
def Reachable (cfg : CConf) (s : CYSFGateway) : Prop :=
  ∃ directory inputs, steps cfg (runStartup cfg directory) inputs = some s

/-! ## Link invariant -/

/-- The link invariant kept by every step of the gateway: the FCS adapter holds a
destination exactly while linked to FCS, the wide-network adapter holds one exactly
while linked to the wide network, the lost-link timer runs exactly while linked, the
poll-retry timer runs exactly while linked to the wide network, and the inactivity timer
runs only while linked. -/
structure Inv (s : CYSFGateway) : Prop where
  fcsDest : s.m_fcsNetwork.m_destination.isSome = decide (s.m_linkType = LINK_TYPE.LINK_FCS)
  ysfDest : s.m_ysfNetwork.m_destination.isSome = decide (s.m_linkType = LINK_TYPE.LINK_YSF)
  lost : s.m_lostTimer.m_running = decide (s.m_linkType ≠ LINK_TYPE.LINK_NONE)
  poll : s.m_ysfPollTimer.m_running = decide (s.m_linkType = LINK_TYPE.LINK_YSF)
  inactivity : s.m_inactivityTimer.m_running = true → s.m_linkType ≠ LINK_TYPE.LINK_NONE


/-! ## Example data and observations on the trace -/

/-- A reflector of the directory used in the examples. -/
def exReflector : CYSFReflector :=
  { m_id := ['0', '0', '0', '0', '1'], m_address := 10, m_port := 42000 }

/-- A second reflector of the example directory. -/
def exReflector2 : CYSFReflector :=
  { m_id := ['0', '0', '0', '0', '2'], m_address := 11, m_port := 42001 }

/-- Example directory: knows the identifiers `00001` and `00002` only. -/
def exDirectory : List Char → Option CYSFReflector := fun id =>
  if id = ['0', '0', '0', '0', '1'] then some exReflector
  else if id = ['0', '0', '0', '0', '2'] then some exReflector2
  else none

/-- Example configuration: both networks enabled, no startup reflector, no revert, an
inactivity timeout of one minute (60 seconds). -/
def exConf : CConf :=
  { ysfNetworkEnabled := true, fcsNetworkEnabled := true, revert := false, startup := [],
    inactivityTimeout := 1 }

/-- Example configuration with automatic connection to `00001` at startup. -/
def exConfStartup : CConf :=
  { ysfNetworkEnabled := true, fcsNetworkEnabled := true, revert := false,
    startup := ['0', '0', '0', '0', '1'], inactivityTimeout := 1 }

/-- A live voice frame (`YSFD` marker, data type `YSF_DT_VD_MODE2`, no end of
transmission) for which the tone-sequence decoder returns `status` with digits `id`, and
the menu-command decoder nothing. -/
def exFrame (status : WX_STATUS) (id : List Char) : RptFrame :=
  { buffer := [0x59, 0x53, 0x46, 0x44],
    fich := some { fi := 1, dt := 2, fn := 0, ft := 0 },
    wxProcess := WX_STATUS.WXS_NONE,
    wxReflector := exReflector,
    decodeVDMode2 := status,
    dtmfReflector := id,
    directory := exDirectory,
    rodata := [] }

/-- Unlink sends made by a connect to the wide network, by previous link type. -/
def unlinkBeforeWide : LINK_TYPE → List Event
  | LINK_TYPE.LINK_NONE => []
  | LINK_TYPE.LINK_YSF => [Event.ysfWriteUnlink, Event.ysfWriteUnlink, Event.ysfWriteUnlink]
  | LINK_TYPE.LINK_FCS =>
    [Event.fcsWriteUnlink, Event.fcsWriteUnlink, Event.fcsWriteUnlink, Event.fcsClearDestination]

/-- Unlink sends made by a connect to the FCS network, by previous link type. -/
def unlinkBeforeFCS : LINK_TYPE → List Event
  | LINK_TYPE.LINK_NONE => []
  | LINK_TYPE.LINK_YSF =>
    [Event.ysfWriteUnlink, Event.ysfWriteUnlink, Event.ysfWriteUnlink, Event.ysfClearDestination]
  | LINK_TYPE.LINK_FCS => [Event.fcsWriteUnlink, Event.fcsWriteUnlink, Event.fcsWriteUnlink]

/-- The destination change and the three polls of a connect to the wide network. -/
def pollsAfterDestination (r : CYSFReflector) : List Event :=
  [Event.ysfSetDestination r.m_address r.m_port, Event.ysfWritePoll, Event.ysfWritePoll,
    Event.ysfWritePoll]

/-- Example configuration with automatic connection to `00001` and revert enabled. -/
def exConfRevert : CConf :=
  { ysfNetworkEnabled := true, fcsNetworkEnabled := true, revert := true,
    startup := ['0', '0', '0', '0', '1'], inactivityTimeout := 1 }

/-- Whether a call is a frame written to one of the two reflector adapters
(`m_ysfNetwork->write` or `m_fcsNetwork->write`). -/
def Event.isReflectorWrite : Event → Bool
  | Event.ysfWrite _ => true
  | Event.fcsWrite _ => true
  | _ => false

/-- The frames written to the reflector adapters, in order. -/
def reflectorWrites (out : List Event) : List Event :=
  out.filter Event.isReflectorWrite

/-- Whether a call is an unlink message sent to one of the two reflector networks. -/
def Event.isUnlink : Event → Bool
  | Event.ysfWriteUnlink => true
  | Event.fcsWriteUnlink => true
  | _ => false

/-- The unlink messages sent, in order. -/
def unlinks (out : List Event) : List Event :=
  out.filter Event.isUnlink

/-- Successive timer steps of the main loop with no frame in between; each comes with
its elapsed time and the directory content at that time. -/
def clocks (cfg : CConf) (s : CYSFGateway) :
    List (Nat × (List Char → Option CYSFReflector)) → CYSFGateway
  | [] => s
  | t :: ts => clocks cfg (clock cfg s t.1 t.2) ts

/-- Total elapsed time of a list of timer steps. -/
def elapsed (ts : List (Nat × (List Char → Option CYSFReflector))) : Nat :=
  (ts.map Prod.fst).sum

/-- The trace of the lost-link transition. -/
def lostLinkCalls (cfg : CConf) : List Event :=
  (if m_wiresX cfg then [Event.wiresXProcessDisconnect] else []) ++
    [Event.fcsClearDestination, Event.ysfClearDestination]

/-- The state reached from `exConf` by one frame carrying a tone-sequence FCS connect for
the digits `123`: linked to FCS (to the identifier computed with nothing readable after
the literal, the empty string), inactivity and lost-link timers just started. -/
def exLinkedFCS : CYSFGateway :=
  { m_linkType := LINK_TYPE.LINK_FCS,
    m_exclude := false,
    m_inactivityTimer :=
      { m_ticksPerSec := 1000, m_timeout := 60000, m_timer := 0, m_running := true },
    m_lostTimer :=
      { m_ticksPerSec := 1000, m_timeout := 120000, m_timer := 0, m_running := true },
    m_ysfPollTimer :=
      { m_ticksPerSec := 1000, m_timeout := 5000, m_timer := 0, m_running := false },
    m_ysfNetwork := { m_destination := none },
    m_fcsNetwork := { m_destination := some [] },
    m_out := [Event.fcsWriteLink [], Event.fcsWriteLink [], Event.fcsWriteLink [],
      Event.fcsWrite [0x59, 0x53, 0x46, 0x44]] }

/-- A state with no link: link type `LINK_NONE`, both destinations cleared, the three
timers stopped. -/
def Unlinked (s : CYSFGateway) : Prop :=
  s.m_linkType = LINK_TYPE.LINK_NONE ∧
  s.m_ysfNetwork.m_destination = none ∧ s.m_fcsNetwork.m_destination = none ∧
  s.m_inactivityTimer.isRunning = false ∧ s.m_lostTimer.isRunning = false ∧
  s.m_ysfPollTimer.isRunning = false

/-- The trace of the inactivity disconnect. -/
def inactivityDisconnectCalls (cfg : CConf) : List Event :=
  (if m_wiresX cfg then [Event.wiresXProcessDisconnect] else []) ++
    [Event.ysfWriteUnlink, Event.ysfWriteUnlink, Event.ysfWriteUnlink,
      Event.ysfClearDestination]

/-- The state reached with `exConfStartup` (automatic connection, no revert, inactivity
timeout 60 seconds) when the repeater keeps talking while the reflector stays silent for
119 seconds: linked to the wide network, inactivity timer just restarted, lost-link
timer at 119 of its 120 seconds. -/
def exSilentWide : CYSFGateway :=
  { m_linkType := LINK_TYPE.LINK_YSF,
    m_exclude := false,
    m_inactivityTimer :=
      { m_ticksPerSec := 1000, m_timeout := 60000, m_timer := 0, m_running := true },
    m_lostTimer :=
      { m_ticksPerSec := 1000, m_timeout := 120000, m_timer := 119000, m_running := true },
    m_ysfPollTimer :=
      { m_ticksPerSec := 1000, m_timeout := 5000, m_timer := 1000, m_running := true },
    m_ysfNetwork := { m_destination := some (10, 42000) },
    m_fcsNetwork := { m_destination := none },
    m_out := [Event.ysfSetDestination 10 42000, Event.ysfWritePoll, Event.ysfWritePoll,
      Event.ysfWritePoll, Event.ysfWritePoll, Event.ysfWrite [0x59, 0x53, 0x46, 0x44],
      Event.ysfWritePoll, Event.ysfWrite [0x59, 0x53, 0x46, 0x44],
      Event.ysfWrite [0x59, 0x53, 0x46, 0x44]] }

/-- The timeouts of the three timers as the constructor and the start of `run()` set
them: lost-link 120 seconds, poll-retry 5 seconds, inactivity as configured (all in
milliseconds, the unit of `clock`). -/
def Timeouts (cfg : CConf) (s : CYSFGateway) : Prop :=
  s.m_inactivityTimer.m_timeout = cfg.inactivityTimeout * 60 % 2 ^ 32 * 1000 ∧
  s.m_lostTimer.m_timeout = 120 * 1000 ∧
  s.m_ysfPollTimer.m_timeout = 5 * 1000

/-- Whether a call is a poll message sent to the wide network. -/
def Event.isPoll : Event → Bool
  | Event.ysfWritePoll => true
  | _ => false

/-- The poll messages sent, in order. -/
def polls (out : List Event) : List Event :=
  out.filter Event.isPoll

/-- Example configuration with the wide network disabled (no menu-command/directory
collaborator) and the FCS network enabled. -/
def exConfFcsOnly : CConf :=
  { ysfNetworkEnabled := false, fcsNetworkEnabled := true, revert := false, startup := [],
    inactivityTimeout := 1 }

/-- A link to the wide network exists only when the wide network is enabled (the
menu-command/directory collaborator then exists). -/
def WideEnabled (cfg : CConf) (s : CYSFGateway) : Prop :=
  s.m_linkType = LINK_TYPE.LINK_YSF → m_wiresX cfg = true

/-- The trace of the inactivity revert to the startup reflector `r`. -/
def revertCalls (r : CYSFReflector) : List Event :=
  [Event.wiresXProcessConnect r, Event.ysfWriteUnlink, Event.ysfWriteUnlink,
    Event.ysfWriteUnlink, Event.ysfSetDestination r.m_address r.m_port, Event.ysfWritePoll,
    Event.ysfWritePoll, Event.ysfWritePoll]

/-- The state reached with `exConfRevert` (automatic connection to `00001`, revert
enabled) after a frame carrying a menu-command connect to `00002`: linked to the wide
network, the three timers just started. -/
def exRevertLinked : CYSFGateway :=
  { m_linkType := LINK_TYPE.LINK_YSF,
    m_exclude := false,
    m_inactivityTimer :=
      { m_ticksPerSec := 1000, m_timeout := 60000, m_timer := 0, m_running := true },
    m_lostTimer :=
      { m_ticksPerSec := 1000, m_timeout := 120000, m_timer := 0, m_running := true },
    m_ysfPollTimer :=
      { m_ticksPerSec := 1000, m_timeout := 5000, m_timer := 0, m_running := true },
    m_ysfNetwork := { m_destination := some (11, 42001) },
    m_fcsNetwork := { m_destination := none },
    m_out := [Event.ysfSetDestination 10 42000, Event.ysfWritePoll, Event.ysfWritePoll,
      Event.ysfWritePoll, Event.ysfWriteUnlink, Event.ysfWriteUnlink, Event.ysfWriteUnlink,
      Event.ysfSetDestination 11 42001, Event.ysfWritePoll, Event.ysfWritePoll,
      Event.ysfWritePoll, Event.ysfWrite [0x59, 0x53, 0x46, 0x44]] }

/-- Example configuration with the wide network enabled and the FCS network disabled. -/
def exConfWideOnly : CConf :=
  { ysfNetworkEnabled := true, fcsNetworkEnabled := false, revert := false, startup := [],
    inactivityTimeout := 1 }

/-- A voice frame like `exFrame WX_STATUS.WXS_NONE []` whose first four bytes are not
the marker `YSFD`. -/
def exUnmarkedFrame : RptFrame :=
  { exFrame WX_STATUS.WXS_NONE [] with buffer := [0x59, 0x53, 0x46, 0x50] }

/-- The unlink sends of a disconnect, by link type: three to the linked network. -/
def unlinkActive : LINK_TYPE → List Event
  | LINK_TYPE.LINK_NONE => []
  | LINK_TYPE.LINK_YSF => [Event.ysfWriteUnlink, Event.ysfWriteUnlink, Event.ysfWriteUnlink]
  | LINK_TYPE.LINK_FCS => [Event.fcsWriteUnlink, Event.fcsWriteUnlink, Event.fcsWriteUnlink]

/-- The exclusion flag in force when a frame reaches the forwarding tests: recomputed
from the data type when the header decodes, otherwise the flag left by the previous
frame. -/
def excludeFor (s : CYSFGateway) (f : RptFrame) : Bool :=
  match f.fich with
  | some fich => decide (fich.dt = YSF_DT_DATA_FR_MODE)
  | none => s.m_exclude

/-- A data-frame-mode frame like `exFrame WX_STATUS.WXS_NONE []` (header decodes with
data type `YSF_DT_DATA_FR_MODE`, marker `YSFD`, no end of transmission). -/
def exDataFrame : RptFrame :=
  { exFrame WX_STATUS.WXS_NONE [] with fich := some { fi := 1, dt := 1, fn := 0, ft := 0 } }

/-- A frame like `exFrame WX_STATUS.WXS_CONNECT_FCS ['1', '2', '3']` whose header does
not decode; the menu-command decoder would answer disconnect for it. -/
def exUndecodableFrame : RptFrame :=
  { exFrame WX_STATUS.WXS_CONNECT_FCS ['1', '2', '3'] with
    fich := none, wxProcess := WX_STATUS.WXS_DISCONNECT }

/-- Whether a call is made on the menu-command/directory collaborator `m_wiresX`. -/
def Event.isWiresX : Event → Bool
  | Event.wiresXProcessConnect _ => true
  | Event.wiresXProcessDisconnect => true
  | _ => false

/-- The calls made on the menu-command/directory collaborator, in order. -/
def wiresXCalls (out : List Event) : List Event :=
  out.filter Event.isWiresX

/-- Whether a repeater frame carries a connect command the gateway acts on: the header
decodes and either the menu-command decoder (present when the wide network is enabled)
answers connect, or the frame is of data type `YSF_DT_VD_MODE2` and the tone-sequence
decoder answers an FCS connect, or a wide-network connect for an identifier the
directory knows. -/
def connectCommand (cfg : CConf) (f : RptFrame) : Bool :=
  match f.fich with
  | none => false
  | some fich =>
    (m_wiresX cfg && decide (f.wxProcess = WX_STATUS.WXS_CONNECT_YSF)) ||
    (decide (fich.dt = YSF_DT_VD_MODE2) &&
      (decide (f.decodeVDMode2 = WX_STATUS.WXS_CONNECT_FCS) ||
        (decide (f.decodeVDMode2 = WX_STATUS.WXS_CONNECT_YSF) &&
          (f.directory f.dtmfReflector).isSome)))

/-- Total elapsed time of the timer steps among the inputs. -/
def ticked : List Input → Nat
  | [] => 0
  | Input.tick ms _ :: is => ms + ticked is
  | _ :: is => ticked is

/-- Whether the inputs perform no connect command: no repeater frame among them carries
one. -/
def noConnectCommand (cfg : CConf) : List Input → Bool
  | [] => true
  | Input.rpt f :: is => !connectCommand cfg f && noConnectCommand cfg is
  | _ :: is => noConnectCommand cfg is

/-- Whether the inputs contain a timer step. -/
def hasTick : List Input → Bool
  | [] => false
  | Input.tick _ _ :: _ => true
  | _ :: is => hasTick is

/-- A data-frame-mode frame (hence one that is not forwarded) for which the menu-command
decoder answers connect, the menu selection being the reflector `00002`. -/
def exConnectDataFrame : RptFrame :=
  { exDataFrame with wxProcess := WX_STATUS.WXS_CONNECT_YSF, wxReflector := exReflector2 }

/-- A minute of the main loop in which nothing is forwarded: a timer step of 30 seconds,
a frame from the wide network, a data-frame-mode frame from the repeater without any
command, and another timer step of 30 seconds. -/
def exQuietMinute : List Input :=
  [Input.tick 30000 exDirectory, Input.ysf [0x59, 0x53, 0x46, 0x44], Input.rpt exDataFrame,
    Input.tick 30000 exDirectory]

/-! ## The link invariant holds in every reachable state -/

theorem Inv_iff (s : CYSFGateway) : Inv s ↔
    (s.m_fcsNetwork.m_destination.isSome = decide (s.m_linkType = LINK_TYPE.LINK_FCS) ∧
     s.m_ysfNetwork.m_destination.isSome = decide (s.m_linkType = LINK_TYPE.LINK_YSF) ∧
     s.m_lostTimer.m_running = decide (s.m_linkType ≠ LINK_TYPE.LINK_NONE) ∧
     s.m_ysfPollTimer.m_running = decide (s.m_linkType = LINK_TYPE.LINK_YSF) ∧
     (s.m_inactivityTimer.m_running = true → s.m_linkType ≠ LINK_TYPE.LINK_NONE)) :=
  ⟨fun h => ⟨h.1, h.2, h.3, h.4, h.5⟩,
   fun h => ⟨h.1, h.2.1, h.2.2.1, h.2.2.2.1, h.2.2.2.2⟩⟩

theorem inv_fcs_cleared (s : CYSFGateway) (hi : Inv s)
    (h : s.m_linkType ≠ LINK_TYPE.LINK_FCS) : s.m_fcsNetwork.m_destination = none := by
  have h1 := hi.fcsDest
  rw [decide_eq_false h] at h1
  cases hd : s.m_fcsNetwork.m_destination with
  | none => rfl
  | some x => rw [hd] at h1; cases h1

theorem inv_runStartup (cfg : CConf) (directory : List Char → Option CYSFReflector) :
    Inv (runStartup cfg directory) := by
  rw [Inv_iff]
  unfold runStartup
  cases hE : cfg.ysfNetworkEnabled <;> simp [CYSFGateway.new, CTimer.new, CTimer.setTimeout]
  by_cases hS : cfg.startup = [] <;> simp [hS, CTimer.new]
  cases hD : directory cfg.startup <;> simp [CTimer.new]
  cases hR : cfg.revert <;>
    simp [CYSFGateway.ysfSetDestination, CYSFGateway.ysfWritePoll, CYSFGateway.emit,
      CTimer.start, CTimer.new]

theorem inv_processWiresX (s : CYSFGateway) (status : WX_STATUS) (r : CYSFReflector)
    (h : Inv s) : Inv (processWiresX s status r) := by
  rw [Inv_iff] at h ⊢
  obtain ⟨link, ex, ti, tl, tp, ny, nf, out⟩ := s
  cases status <;> cases link <;>
    simp_all [processWiresX, CYSFGateway.ysfSetDestination, CYSFGateway.ysfWritePoll,
      CYSFGateway.ysfWriteUnlink, CYSFGateway.fcsWriteUnlink, CYSFGateway.fcsClearDestination,
      CYSFGateway.ysfClearDestination, CYSFGateway.emit, CTimer.start, CTimer.stop]

theorem inv_processDTMFStatus (cfg : CConf) (s s' : CYSFGateway) (status : WX_STATUS)
    (id : List Char) (directory : List Char → Option CYSFReflector) (rodata : List Char)
    (h : Inv s) (hs : processDTMFStatus cfg s status id directory rodata = some s') :
    Inv s' := by
  rw [Inv_iff] at h ⊢
  obtain ⟨link, ex, ti, tl, tp, ny, nf, out⟩ := s
  cases status
  · simp [processDTMFStatus] at hs; subst hs; exact h
  · cases hw : m_wiresX cfg <;> simp [processDTMFStatus, hw] at hs
    cases hd : directory id <;> simp [hd] at hs
    · subst hs; exact h
    · subst hs
      cases link <;>
        simp_all [CYSFGateway.ysfSetDestination, CYSFGateway.ysfWritePoll,
          CYSFGateway.ysfWriteUnlink, CYSFGateway.fcsWriteUnlink,
          CYSFGateway.fcsClearDestination, CYSFGateway.emit, CTimer.start]
  · cases hf : fcsReflector rodata id <;> simp [processDTMFStatus, hf] at hs
    subst hs
    cases link <;>
      simp_all [CYSFGateway.fcsWriteLink, CYSFGateway.ysfWriteUnlink,
        CYSFGateway.fcsWriteUnlink, CYSFGateway.ysfClearDestination, CYSFGateway.emit,
        CTimer.start, CTimer.stop]
  · cases hw : m_wiresX cfg <;> cases link <;>
      simp [processDTMFStatus, hw, CYSFGateway.ysfWriteUnlink,
        CYSFGateway.fcsWriteUnlink, CYSFGateway.ysfClearDestination,
        CYSFGateway.fcsClearDestination, CYSFGateway.emit, CTimer.stop] at hs <;>
      subst hs <;> simp_all

theorem inv_rptCommands (cfg : CConf) (s s' : CYSFGateway) (f : RptFrame)
    (h : Inv s) (hs : rptCommands cfg s f = some s') : Inv s' := by
  unfold rptCommands at hs
  cases hf : f.fich with
  | none => simp [hf] at hs; subst hs; exact h
  | some fich =>
    simp only [hf] at hs
    have h1 : Inv { s with m_exclude := decide (fich.dt = YSF_DT_DATA_FR_MODE) } := by
      rw [Inv_iff] at h ⊢; exact h
    have h2 : Inv (if m_wiresX cfg = true then
        processWiresX { s with m_exclude := decide (fich.dt = YSF_DT_DATA_FR_MODE) }
          f.wxProcess f.wxReflector
        else { s with m_exclude := decide (fich.dt = YSF_DT_DATA_FR_MODE) }) := by
      split
      · exact inv_processWiresX _ _ _ h1
      · exact h1
    exact inv_processDTMFStatus cfg _ s' _ _ _ _ h2 hs

theorem inv_rptForward (cfg : CConf) (s : CYSFGateway) (buffer : List Nat) (h : Inv s) :
    Inv (rptForward cfg s buffer) := by
  rw [Inv_iff] at h ⊢
  obtain ⟨link, ex, ti, tl, tp, ny, nf, out⟩ := s
  unfold rptForward
  cases link <;> cases ex <;> cases cfg.ysfNetworkEnabled <;> cases cfg.fcsNetworkEnabled <;>
    cases isYSFD buffer <;> cases isEOT buffer <;>
    simp_all [CYSFGateway.emit, CTimer.start]

theorem inv_ysfRead (cfg : CConf) (s : CYSFGateway) (buffer : List Nat) (h : Inv s) :
    Inv (ysfRead cfg s buffer) := by
  rw [Inv_iff] at h ⊢
  obtain ⟨link, ex, ti, tl, tp, ny, nf, out⟩ := s
  unfold ysfRead
  cases link <;> cases cfg.ysfNetworkEnabled <;> cases isYSFD buffer <;>
    simp_all [CYSFGateway.emit, CTimer.start]

theorem inv_fcsRead (cfg : CConf) (s : CYSFGateway) (buffer : List Nat) (h : Inv s) :
    Inv (fcsRead cfg s buffer) := by
  rw [Inv_iff] at h ⊢
  obtain ⟨link, ex, ti, tl, tp, ny, nf, out⟩ := s
  unfold fcsRead
  cases link <;> cases cfg.fcsNetworkEnabled <;>
    simp_all [CYSFGateway.emit, CTimer.start]

theorem inv_clockInactivity (cfg : CConf) (s : CYSFGateway) (ms : Nat)
    (directory : List Char → Option CYSFReflector) (h : Inv s) :
    Inv (clockInactivity cfg s ms directory) := by
  rw [Inv_iff] at h ⊢
  obtain ⟨link, ex, ti, tl, tp, ny, nf, out⟩ := s
  unfold clockInactivity
  simp only
  split
  · cases link
    · simp_all [CTimer.stop]
    · simp only [if_true]
      split <;> (cases m_wiresX cfg <;>
        simp_all [CYSFGateway.ysfSetDestination, CYSFGateway.ysfWritePoll,
          CYSFGateway.ysfWriteUnlink, CYSFGateway.ysfClearDestination, CYSFGateway.emit,
          CTimer.start, CTimer.stop])
    · simp_all [CTimer.stop]
  · rename_i hne
    obtain ⟨tps, tto, tt, tr⟩ := ti
    cases tr <;> simp_all [CTimer.clock]

theorem inv_clockLost (cfg : CConf) (s : CYSFGateway) (ms : Nat) (h : Inv s) :
    Inv (clockLost cfg s ms) := by
  rw [Inv_iff] at h ⊢
  obtain ⟨link, ex, ti, ⟨lps, lto, lt, lr⟩, tp, ny, nf, out⟩ := s
  unfold clockLost
  simp only
  split
  · cases m_wiresX cfg <;>
      simp [CYSFGateway.fcsClearDestination, CYSFGateway.ysfClearDestination,
        CYSFGateway.emit, CTimer.stop]
  · cases lr <;> simp only [CTimer.clock] <;> simpa using h

theorem inv_clockPoll (s : CYSFGateway) (ms : Nat) (h : Inv s) :
    Inv (clockPoll s ms) := by
  rw [Inv_iff] at h ⊢
  obtain ⟨link, ex, ti, tl, ⟨pps, pto, pt, pr⟩, ny, nf, out⟩ := s
  unfold clockPoll
  simp only
  split
  · rename_i hc
    cases pr <;>
      simp_all [CYSFGateway.ysfWritePoll, CYSFGateway.emit, CTimer.start, CTimer.clock,
        CTimer.isRunning]
  · cases pr <;> simp_all [CTimer.clock]

theorem inv_step (cfg : CConf) (s s' : CYSFGateway) (i : Input) (h : Inv s)
    (hs : step cfg s i = some s') : Inv s' := by
  cases i with
  | rpt f =>
    simp only [step, rptRead, Option.map_eq_some'] at hs
    obtain ⟨s1, h1, h2⟩ := hs
    subst h2
    exact inv_rptForward cfg s1 f.buffer (inv_rptCommands cfg s s1 f h h1)
  | ysf buffer =>
    simp only [step, Option.some.injEq] at hs; subst hs; exact inv_ysfRead cfg s buffer h
  | fcs buffer =>
    simp only [step, Option.some.injEq] at hs; subst hs; exact inv_fcsRead cfg s buffer h
  | tick ms directory =>
    simp only [step, Option.some.injEq] at hs; subst hs
    exact inv_clockPoll _ ms (inv_clockLost cfg _ ms (inv_clockInactivity cfg s ms directory h))

theorem inv_steps (cfg : CConf) (inputs : List Input) :
    ∀ s s' : CYSFGateway, Inv s → steps cfg s inputs = some s' → Inv s' := by
  induction inputs with
  | nil => intro s s' h hs; simp only [steps, Option.some.injEq] at hs; subst hs; exact h
  | cons i is ih =>
    intro s s' h hs
    simp only [steps, Option.bind_eq_some] at hs
    obtain ⟨s1, h1, h2⟩ := hs
    exact ih s1 s' (inv_step cfg s s1 i h h1) h2

theorem inv_reachable (cfg : CConf) (s : CYSFGateway) (h : Reachable cfg s) : Inv s := by
  obtain ⟨directory, inputs, hs⟩ := h
  exact inv_steps cfg inputs _ s (inv_runStartup cfg directory) hs


/-! ## Timeouts in reachable states, and reachability of successors -/

theorem timeouts_runStartup (cfg : CConf) (directory : List Char → Option CYSFReflector) :
    Timeouts cfg (runStartup cfg directory) := by
  unfold runStartup Timeouts
  cases hE : cfg.ysfNetworkEnabled <;> simp [CYSFGateway.new, CTimer.new, CTimer.setTimeout]
  by_cases hS : cfg.startup = [] <;> simp [hS, CTimer.new]
  cases hD : directory cfg.startup <;> simp [CTimer.new]
  cases hR : cfg.revert <;>
    simp [CYSFGateway.ysfSetDestination, CYSFGateway.ysfWritePoll, CYSFGateway.emit,
      CTimer.start, CTimer.new]

theorem timeouts_processWiresX (cfg : CConf) (s : CYSFGateway) (status : WX_STATUS)
    (r : CYSFReflector) (h : Timeouts cfg s) : Timeouts cfg (processWiresX s status r) := by
  unfold Timeouts at h ⊢
  obtain ⟨link, ex, ti, tl, tp, ny, nf, out⟩ := s
  cases status <;> cases link <;>
    simp_all [processWiresX, CYSFGateway.ysfSetDestination, CYSFGateway.ysfWritePoll,
      CYSFGateway.ysfWriteUnlink, CYSFGateway.fcsWriteUnlink, CYSFGateway.fcsClearDestination,
      CYSFGateway.ysfClearDestination, CYSFGateway.emit, CTimer.start, CTimer.stop]

theorem timeouts_processDTMFStatus (cfg : CConf) (s s' : CYSFGateway) (status : WX_STATUS)
    (id : List Char) (directory : List Char → Option CYSFReflector) (rodata : List Char)
    (h : Timeouts cfg s)
    (hs : processDTMFStatus cfg s status id directory rodata = some s') :
    Timeouts cfg s' := by
  unfold Timeouts at h ⊢
  obtain ⟨link, ex, ti, tl, tp, ny, nf, out⟩ := s
  cases status
  · simp [processDTMFStatus] at hs; subst hs; exact h
  · cases hw : m_wiresX cfg <;> simp [processDTMFStatus, hw] at hs
    cases hd : directory id <;> simp [hd] at hs
    · subst hs; exact h
    · subst hs
      cases link <;>
        simp_all [CYSFGateway.ysfSetDestination, CYSFGateway.ysfWritePoll,
          CYSFGateway.ysfWriteUnlink, CYSFGateway.fcsWriteUnlink,
          CYSFGateway.fcsClearDestination, CYSFGateway.emit, CTimer.start]
  · cases hf : fcsReflector rodata id <;> simp [processDTMFStatus, hf] at hs
    subst hs
    cases link <;>
      simp_all [CYSFGateway.fcsWriteLink, CYSFGateway.ysfWriteUnlink,
        CYSFGateway.fcsWriteUnlink, CYSFGateway.ysfClearDestination, CYSFGateway.emit,
        CTimer.start, CTimer.stop]
  · cases hw : m_wiresX cfg <;> cases link <;>
      simp [processDTMFStatus, hw, CYSFGateway.ysfWriteUnlink,
        CYSFGateway.fcsWriteUnlink, CYSFGateway.ysfClearDestination,
        CYSFGateway.fcsClearDestination, CYSFGateway.emit, CTimer.stop] at hs <;>
      subst hs <;> simp_all

theorem timeouts_rptCommands (cfg : CConf) (s s' : CYSFGateway) (f : RptFrame)
    (h : Timeouts cfg s) (hs : rptCommands cfg s f = some s') : Timeouts cfg s' := by
  unfold rptCommands at hs
  cases hf : f.fich with
  | none => simp [hf] at hs; subst hs; exact h
  | some fich =>
    simp only [hf] at hs
    have h1 : Timeouts cfg { s with m_exclude := decide (fich.dt = YSF_DT_DATA_FR_MODE) } := h
    have h2 : Timeouts cfg (if m_wiresX cfg = true then
        processWiresX { s with m_exclude := decide (fich.dt = YSF_DT_DATA_FR_MODE) }
          f.wxProcess f.wxReflector
        else { s with m_exclude := decide (fich.dt = YSF_DT_DATA_FR_MODE) }) := by
      split
      · exact timeouts_processWiresX cfg _ _ _ h1
      · exact h1
    exact timeouts_processDTMFStatus cfg _ s' _ _ _ _ h2 hs

theorem timeouts_rptForward (cfg : CConf) (s : CYSFGateway) (buffer : List Nat)
    (h : Timeouts cfg s) : Timeouts cfg (rptForward cfg s buffer) := by
  unfold Timeouts at h ⊢
  obtain ⟨link, ex, ti, tl, tp, ny, nf, out⟩ := s
  unfold rptForward
  cases link <;> cases ex <;> cases cfg.ysfNetworkEnabled <;> cases cfg.fcsNetworkEnabled <;>
    cases isYSFD buffer <;> cases isEOT buffer <;>
    simp_all [CYSFGateway.emit, CTimer.start]

theorem timeouts_ysfRead (cfg : CConf) (s : CYSFGateway) (buffer : List Nat)
    (h : Timeouts cfg s) : Timeouts cfg (ysfRead cfg s buffer) := by
  unfold Timeouts at h ⊢
  unfold ysfRead
  split
  · split <;> simpa [CYSFGateway.emit, CTimer.start] using h
  · exact h

theorem timeouts_fcsRead (cfg : CConf) (s : CYSFGateway) (buffer : List Nat)
    (h : Timeouts cfg s) : Timeouts cfg (fcsRead cfg s buffer) := by
  unfold Timeouts at h ⊢
  unfold fcsRead
  split
  · simpa [CYSFGateway.emit, CTimer.start] using h
  · exact h

theorem timeouts_clockInactivity (cfg : CConf) (s : CYSFGateway) (ms : Nat)
    (directory : List Char → Option CYSFReflector) (h : Timeouts cfg s) :
    Timeouts cfg (clockInactivity cfg s ms directory) := by
  unfold Timeouts at h ⊢
  obtain ⟨link, ex, ⟨ips, ito, it, ir⟩, tl, tp, ny, nf, out⟩ := s
  unfold clockInactivity
  simp only
  split
  · cases link
    · simp_all [CTimer.stop, CTimer.clock]
      split <;> simp [h.1]
    · simp only [if_true]
      split <;> (cases m_wiresX cfg <;> cases ir <;>
        simp_all [CYSFGateway.ysfSetDestination, CYSFGateway.ysfWritePoll,
          CYSFGateway.ysfWriteUnlink, CYSFGateway.ysfClearDestination, CYSFGateway.emit,
          CTimer.start, CTimer.stop, CTimer.clock])
    · simp_all [CTimer.stop, CTimer.clock]
      split <;> simp [h.1]
  · cases ir <;> simp_all [CTimer.clock]

theorem timeouts_clockLost (cfg : CConf) (s : CYSFGateway) (ms : Nat) (h : Timeouts cfg s) :
    Timeouts cfg (clockLost cfg s ms) := by
  unfold Timeouts at h ⊢
  obtain ⟨link, ex, ti, ⟨lps, lto, lt, lr⟩, tp, ny, nf, out⟩ := s
  unfold clockLost
  simp only
  split
  · cases m_wiresX cfg <;> cases lr <;>
      simp_all [CYSFGateway.fcsClearDestination, CYSFGateway.ysfClearDestination,
        CYSFGateway.emit, CTimer.stop, CTimer.clock]
  · cases lr <;> simp_all [CTimer.clock]

theorem timeouts_clockPoll (cfg : CConf) (s : CYSFGateway) (ms : Nat) (h : Timeouts cfg s) :
    Timeouts cfg (clockPoll s ms) := by
  unfold Timeouts at h ⊢
  obtain ⟨link, ex, ti, tl, ⟨pps, pto, pt, pr⟩, ny, nf, out⟩ := s
  unfold clockPoll
  simp only
  split
  · cases pr <;>
      simp_all [CYSFGateway.ysfWritePoll, CYSFGateway.emit, CTimer.start, CTimer.clock]
  · cases pr <;> simp_all [CTimer.clock]

theorem timeouts_step (cfg : CConf) (s s' : CYSFGateway) (i : Input) (h : Timeouts cfg s)
    (hs : step cfg s i = some s') : Timeouts cfg s' := by
  cases i with
  | rpt f =>
    simp only [step, rptRead, Option.map_eq_some'] at hs
    obtain ⟨s1, h1, h2⟩ := hs
    subst h2
    exact timeouts_rptForward cfg s1 f.buffer (timeouts_rptCommands cfg s s1 f h h1)
  | ysf buffer =>
    simp only [step, Option.some.injEq] at hs; subst hs; exact timeouts_ysfRead cfg s buffer h
  | fcs buffer =>
    simp only [step, Option.some.injEq] at hs; subst hs; exact timeouts_fcsRead cfg s buffer h
  | tick ms directory =>
    simp only [step, Option.some.injEq] at hs; subst hs
    exact timeouts_clockPoll cfg _ ms
      (timeouts_clockLost cfg _ ms (timeouts_clockInactivity cfg s ms directory h))

theorem timeouts_steps (cfg : CConf) (inputs : List Input) :
    ∀ s s' : CYSFGateway, Timeouts cfg s → steps cfg s inputs = some s' →
      Timeouts cfg s' := by
  induction inputs with
  | nil => intro s s' h hs; simp only [steps, Option.some.injEq] at hs; subst hs; exact h
  | cons i is ih =>
    intro s s' h hs
    simp only [steps, Option.bind_eq_some] at hs
    obtain ⟨s1, h1, h2⟩ := hs
    exact ih s1 s' (timeouts_step cfg s s1 i h h1) h2

theorem timeouts_reachable (cfg : CConf) (s : CYSFGateway) (h : Reachable cfg s) :
    Timeouts cfg s := by
  obtain ⟨directory, inputs, hs⟩ := h
  exact timeouts_steps cfg inputs _ s (timeouts_runStartup cfg directory) hs

theorem steps_append (cfg : CConf) (xs ys : List Input) :
    ∀ s : CYSFGateway,
      steps cfg s (xs ++ ys) = (steps cfg s xs).bind (fun s => steps cfg s ys) := by
  induction xs with
  | nil => intro s; rfl
  | cons x xs ih =>
    intro s
    simp only [List.cons_append, steps]
    cases step cfg s x with
    | none => rfl
    | some s1 => simpa using ih s1

theorem reachable_step (cfg : CConf) (s s' : CYSFGateway) (i : Input)
    (h : Reachable cfg s) (hs : step cfg s i = some s') : Reachable cfg s' := by
  obtain ⟨directory, inputs, hr⟩ := h
  refine ⟨directory, inputs ++ [i], ?_⟩
  rw [steps_append, hr]
  simp [steps, hs]

/-! ## A wide-network link needs the wide network enabled -/

theorem wide_runStartup (cfg : CConf) (directory : List Char → Option CYSFReflector) :
    WideEnabled cfg (runStartup cfg directory) := by
  unfold WideEnabled runStartup m_wiresX
  cases hE : cfg.ysfNetworkEnabled <;> simp [CYSFGateway.new]

theorem wide_processDTMFStatus (cfg : CConf) (s s' : CYSFGateway) (status : WX_STATUS)
    (id : List Char) (directory : List Char → Option CYSFReflector) (rodata : List Char)
    (h : WideEnabled cfg s)
    (hs : processDTMFStatus cfg s status id directory rodata = some s') :
    WideEnabled cfg s' := by
  unfold WideEnabled at h ⊢
  obtain ⟨link, ex, ti, tl, tp, ny, nf, out⟩ := s
  cases status
  · simp [processDTMFStatus] at hs; subst hs; exact h
  · cases hw : m_wiresX cfg <;> simp [processDTMFStatus, hw] at hs
    intro _; rfl
  · cases hf : fcsReflector rodata id <;> simp [processDTMFStatus, hf] at hs
    subst hs
    intro hc; cases hc
  · cases hw : m_wiresX cfg <;> cases link <;>
      simp [processDTMFStatus, hw, CYSFGateway.ysfWriteUnlink,
        CYSFGateway.fcsWriteUnlink, CYSFGateway.ysfClearDestination,
        CYSFGateway.fcsClearDestination, CYSFGateway.emit, CTimer.stop] at hs <;>
      subst hs <;> simp_all

theorem wide_rptCommands (cfg : CConf) (s s' : CYSFGateway) (f : RptFrame)
    (h : WideEnabled cfg s) (hs : rptCommands cfg s f = some s') : WideEnabled cfg s' := by
  unfold rptCommands at hs
  cases hf : f.fich with
  | none => simp [hf] at hs; subst hs; exact h
  | some fich =>
    simp only [hf] at hs
    have h2 : WideEnabled cfg (if m_wiresX cfg = true then
        processWiresX { s with m_exclude := decide (fich.dt = YSF_DT_DATA_FR_MODE) }
          f.wxProcess f.wxReflector
        else { s with m_exclude := decide (fich.dt = YSF_DT_DATA_FR_MODE) }) := by
      split
      · rename_i hw; intro _; exact hw
      · exact h
    exact wide_processDTMFStatus cfg _ s' _ _ _ _ h2 hs

theorem rptForward_linkType (cfg : CConf) (s : CYSFGateway) (buffer : List Nat) :
    (rptForward cfg s buffer).m_linkType = s.m_linkType := by
  unfold rptForward
  simp only
  split_ifs <;> rfl

theorem ysfRead_linkType (cfg : CConf) (s : CYSFGateway) (buffer : List Nat) :
    (ysfRead cfg s buffer).m_linkType = s.m_linkType := by
  unfold ysfRead
  split_ifs <;> rfl

theorem fcsRead_linkType (cfg : CConf) (s : CYSFGateway) (buffer : List Nat) :
    (fcsRead cfg s buffer).m_linkType = s.m_linkType := by
  unfold fcsRead
  split_ifs <;> rfl

theorem clockInactivity_linkType (cfg : CConf) (s : CYSFGateway) (ms : Nat)
    (directory : List Char → Option CYSFReflector) :
    (clockInactivity cfg s ms directory).m_linkType = LINK_TYPE.LINK_YSF →
      s.m_linkType = LINK_TYPE.LINK_YSF := by
  obtain ⟨link, ex, ti, tl, tp, ny, nf, out⟩ := s
  unfold clockInactivity
  simp only
  split
  · cases link
    · simp
    · simp
    · simp
  · simp

theorem clockLost_linkType (cfg : CConf) (s : CYSFGateway) (ms : Nat) :
    (clockLost cfg s ms).m_linkType = LINK_TYPE.LINK_YSF →
      s.m_linkType = LINK_TYPE.LINK_YSF := by
  unfold clockLost
  simp only
  split
  · intro h; cases h
  · exact id

theorem clockPoll_linkType (s : CYSFGateway) (ms : Nat) :
    (clockPoll s ms).m_linkType = s.m_linkType := by
  unfold clockPoll
  simp only
  split <;> rfl

theorem wide_step (cfg : CConf) (s s' : CYSFGateway) (i : Input) (h : WideEnabled cfg s)
    (hs : step cfg s i = some s') : WideEnabled cfg s' := by
  cases i with
  | rpt f =>
    simp only [step, rptRead, Option.map_eq_some'] at hs
    obtain ⟨s1, h1, h2⟩ := hs
    subst h2
    intro hl
    rw [rptForward_linkType] at hl
    exact wide_rptCommands cfg s s1 f h h1 hl
  | ysf buffer =>
    simp only [step, Option.some.injEq] at hs; subst hs
    intro hl; rw [ysfRead_linkType] at hl; exact h hl
  | fcs buffer =>
    simp only [step, Option.some.injEq] at hs; subst hs
    intro hl; rw [fcsRead_linkType] at hl; exact h hl
  | tick ms directory =>
    simp only [step, Option.some.injEq] at hs; subst hs
    intro hl
    rw [clock, clockPoll_linkType] at hl
    exact h (clockInactivity_linkType cfg s ms directory (clockLost_linkType cfg _ ms hl))

theorem wide_steps (cfg : CConf) (inputs : List Input) :
    ∀ s s' : CYSFGateway, WideEnabled cfg s → steps cfg s inputs = some s' →
      WideEnabled cfg s' := by
  induction inputs with
  | nil => intro s s' h hs; simp only [steps, Option.some.injEq] at hs; subst hs; exact h
  | cons i is ih =>
    intro s s' h hs
    simp only [steps, Option.bind_eq_some] at hs
    obtain ⟨s1, h1, h2⟩ := hs
    exact ih s1 s' (wide_step cfg s s1 i h h1) h2

theorem wide_reachable (cfg : CConf) (s : CYSFGateway) (h : Reachable cfg s) :
    WideEnabled cfg s := by
  obtain ⟨directory, inputs, hs⟩ := h
  exact wide_steps cfg inputs _ s (wide_runStartup cfg directory) hs

/-! ## C1: link type, destinations and timers -/

/-- C1. In every reachable state (after the automatic connection at startup or not,
and whatever frames and timer steps followed): the link type is `LINK_NONE` if and only
if both outbound destinations, wide-network and FCS, are cleared; and both are cleared
if and only if the inactivity, lost-link and poll-retry timers are all stopped. -/
theorem link_none_iff_cleared_iff_stopped (cfg : CConf) (s : CYSFGateway)
    (h : Reachable cfg s) :
    (s.m_linkType = LINK_TYPE.LINK_NONE ↔
      (s.m_ysfNetwork.m_destination = none ∧ s.m_fcsNetwork.m_destination = none)) ∧
    ((s.m_ysfNetwork.m_destination = none ∧ s.m_fcsNetwork.m_destination = none) ↔
      (s.m_inactivityTimer.isRunning = false ∧ s.m_lostTimer.isRunning = false ∧
        s.m_ysfPollTimer.isRunning = false)) := by
  have hi := (Inv_iff s).1 (inv_reachable cfg s h)
  obtain ⟨link, ex, ti, tl, tp, ⟨ny⟩, ⟨nf⟩, out⟩ := s
  cases link <;> cases ny <;> cases nf <;> simp_all [CTimer.isRunning]

/-- Witness for `link_none_iff_cleared_iff_stopped`: the state linked to FCS reached by
one tone-sequence FCS connect. -/
theorem link_none_iff_cleared_iff_stopped_witness :
    (exLinkedFCS.m_linkType = LINK_TYPE.LINK_NONE ↔
      (exLinkedFCS.m_ysfNetwork.m_destination = none ∧
        exLinkedFCS.m_fcsNetwork.m_destination = none)) ∧
    ((exLinkedFCS.m_ysfNetwork.m_destination = none ∧
        exLinkedFCS.m_fcsNetwork.m_destination = none) ↔
      (exLinkedFCS.m_inactivityTimer.isRunning = false ∧
        exLinkedFCS.m_lostTimer.isRunning = false ∧
        exLinkedFCS.m_ysfPollTimer.isRunning = false)) :=
  link_none_iff_cleared_iff_stopped exConf exLinkedFCS
    ⟨exDirectory, [Input.rpt (exFrame WX_STATUS.WXS_CONNECT_FCS ['1', '2', '3'])],
      by decide⟩

/-! ## C2: control messages of the connect transitions -/

/-- C2. Every transition into a linked state sends exactly: three unlinks to the network
linked before (none when unlinked), then the destination change, then three polls (wide
network) or three links (FCS), and no other message to a network. Each transition is
stated under the conditions of its own branch only: the startup auto-connect (wide
network enabled, startup reflector named and found), the menu-command connect, the
tone-sequence connect to the wide network (wide network enabled, reflector found; it
first informs the directory collaborator), the tone-sequence connect to FCS (identifier
readable), and the inactivity revert (wide network and revert enabled, startup reflector
named and found, inactivity timer of a wide-network link expiring). -/
theorem connect_control_sends (cfg : CConf) (s t : CYSFGateway) (r rs : CYSFReflector)
    (id code fid rodata : List Char) (directory : List Char → Option CYSFReflector)
    (ms : Nat) :
    (cfg.ysfNetworkEnabled = true → cfg.startup ≠ [] → directory cfg.startup = some rs →
      (runStartup cfg directory).m_linkType = LINK_TYPE.LINK_YSF ∧
      (runStartup cfg directory).m_out = pollsAfterDestination rs) ∧
    ((processWiresX s WX_STATUS.WXS_CONNECT_YSF r).m_linkType = LINK_TYPE.LINK_YSF ∧
      (processWiresX s WX_STATUS.WXS_CONNECT_YSF r).m_out =
        s.m_out ++ unlinkBeforeWide s.m_linkType ++ pollsAfterDestination r) ∧
    (m_wiresX cfg = true → directory id = some r →
      ∃ s', processDTMFStatus cfg s WX_STATUS.WXS_CONNECT_YSF id directory rodata = some s' ∧
        s'.m_linkType = LINK_TYPE.LINK_YSF ∧
        s'.m_out = s.m_out ++ [Event.wiresXProcessConnect r] ++
          unlinkBeforeWide s.m_linkType ++ pollsAfterDestination r) ∧
    (fcsReflector rodata code = some fid →
      ∃ s', processDTMFStatus cfg s WX_STATUS.WXS_CONNECT_FCS code directory rodata = some s' ∧
        s'.m_linkType = LINK_TYPE.LINK_FCS ∧
        s'.m_out = s.m_out ++ unlinkBeforeFCS s.m_linkType ++
          [Event.fcsWriteLink fid, Event.fcsWriteLink fid, Event.fcsWriteLink fid]) ∧
    (m_wiresX cfg = true → cfg.revert = true → cfg.startup ≠ [] →
      directory cfg.startup = some rs →
      t.m_linkType = LINK_TYPE.LINK_YSF → t.m_inactivityTimer.m_running = true →
      t.m_inactivityTimer.m_timeout ≤ t.m_inactivityTimer.m_timer + ms →
      (clockInactivity cfg t ms directory).m_linkType = LINK_TYPE.LINK_YSF ∧
      (clockInactivity cfg t ms directory).m_out =
        t.m_out ++ [Event.wiresXProcessConnect rs] ++ unlinkBeforeWide LINK_TYPE.LINK_YSF ++
          pollsAfterDestination rs) := by
  refine ⟨?_, ?_, ?_, ?_, ?_⟩
  · intro hw hs hds
    cases hR : cfg.revert <;>
      simp [runStartup, hw, hs, hds, hR, pollsAfterDestination, CYSFGateway.new,
        CYSFGateway.ysfSetDestination, CYSFGateway.ysfWritePoll, CYSFGateway.emit]
  · obtain ⟨link, ex, ti, tl, tp, ny, nf, out⟩ := s
    cases link <;>
      simp [processWiresX, unlinkBeforeWide, pollsAfterDestination,
        CYSFGateway.ysfSetDestination, CYSFGateway.ysfWritePoll, CYSFGateway.ysfWriteUnlink,
        CYSFGateway.fcsWriteUnlink, CYSFGateway.fcsClearDestination, CYSFGateway.emit]
  · intro hw hd
    obtain ⟨link, ex, ti, tl, tp, ny, nf, out⟩ := s
    cases link <;>
      simp [processDTMFStatus, hw, hd, unlinkBeforeWide, pollsAfterDestination,
        CYSFGateway.ysfSetDestination, CYSFGateway.ysfWritePoll, CYSFGateway.ysfWriteUnlink,
        CYSFGateway.fcsWriteUnlink, CYSFGateway.fcsClearDestination, CYSFGateway.emit]
  · intro hf
    obtain ⟨link, ex, ti, tl, tp, ny, nf, out⟩ := s
    cases link <;>
      simp [processDTMFStatus, hf, unlinkBeforeFCS, CYSFGateway.fcsWriteLink,
        CYSFGateway.ysfWriteUnlink, CYSFGateway.fcsWriteUnlink,
        CYSFGateway.ysfClearDestination, CYSFGateway.emit]
  · intro hw hrev hs hds ht hrun hexp
    obtain ⟨link, ex, ⟨ips, ito, it, ir⟩, tl, tp, ny, nf, out⟩ := t
    simp only at ht hrun hexp
    subst ht hrun
    simp [clockInactivity, CTimer.clock, CTimer.isRunning, CTimer.hasExpired, hexp, hrev, hs,
      hw, hds, unlinkBeforeWide, pollsAfterDestination, CYSFGateway.ysfSetDestination,
      CYSFGateway.ysfWritePoll, CYSFGateway.ysfWriteUnlink, CYSFGateway.emit]

/-- Witness for `connect_control_sends`: the startup auto-connect and the revert with
revert enabled, and the tone-sequence connects issued while linked to the wide network. -/
theorem connect_control_sends_witness :
    ((runStartup exConfRevert exDirectory).m_linkType = LINK_TYPE.LINK_YSF ∧
      (runStartup exConfRevert exDirectory).m_out = pollsAfterDestination exReflector) ∧
    ((processWiresX (runStartup exConfRevert exDirectory) WX_STATUS.WXS_CONNECT_YSF
        exReflector2).m_linkType = LINK_TYPE.LINK_YSF ∧
      (processWiresX (runStartup exConfRevert exDirectory) WX_STATUS.WXS_CONNECT_YSF
        exReflector2).m_out =
        (runStartup exConfRevert exDirectory).m_out ++
          unlinkBeforeWide (runStartup exConfRevert exDirectory).m_linkType ++
          pollsAfterDestination exReflector2) ∧
    (∃ s', processDTMFStatus exConfRevert (runStartup exConfRevert exDirectory)
        WX_STATUS.WXS_CONNECT_YSF ['0', '0', '0', '0', '2'] exDirectory [] = some s' ∧
      s'.m_linkType = LINK_TYPE.LINK_YSF ∧
      s'.m_out = (runStartup exConfRevert exDirectory).m_out ++
        [Event.wiresXProcessConnect exReflector2] ++
        unlinkBeforeWide (runStartup exConfRevert exDirectory).m_linkType ++
        pollsAfterDestination exReflector2) ∧
    (∃ s', processDTMFStatus exConfRevert (runStartup exConfRevert exDirectory)
        WX_STATUS.WXS_CONNECT_FCS ['1', '2', '3'] exDirectory [] = some s' ∧
      s'.m_linkType = LINK_TYPE.LINK_FCS ∧
      s'.m_out = (runStartup exConfRevert exDirectory).m_out ++
        unlinkBeforeFCS (runStartup exConfRevert exDirectory).m_linkType ++
        [Event.fcsWriteLink [], Event.fcsWriteLink [], Event.fcsWriteLink []]) ∧
    ((clockInactivity exConfRevert
        (processWiresX (runStartup exConfRevert exDirectory) WX_STATUS.WXS_CONNECT_YSF
          exReflector2) 60000 exDirectory).m_linkType = LINK_TYPE.LINK_YSF ∧
      (clockInactivity exConfRevert
        (processWiresX (runStartup exConfRevert exDirectory) WX_STATUS.WXS_CONNECT_YSF
          exReflector2) 60000 exDirectory).m_out =
        (processWiresX (runStartup exConfRevert exDirectory) WX_STATUS.WXS_CONNECT_YSF
          exReflector2).m_out ++ [Event.wiresXProcessConnect exReflector] ++
          unlinkBeforeWide LINK_TYPE.LINK_YSF ++ pollsAfterDestination exReflector) :=
  have h := connect_control_sends exConfRevert (runStartup exConfRevert exDirectory)
    (processWiresX (runStartup exConfRevert exDirectory) WX_STATUS.WXS_CONNECT_YSF
      exReflector2) exReflector2 exReflector ['0', '0', '0', '0', '2'] ['1', '2', '3'] []
    [] exDirectory 60000
  ⟨h.1 rfl (by decide) rfl, h.2.1, h.2.2.1 rfl rfl, h.2.2.2.1 rfl,
    h.2.2.2.2 rfl rfl (by decide) rfl rfl rfl (by decide)⟩

/-! ## C3: data-frame-mode frames are not relayed -/

theorem processWiresX_exclude (s : CYSFGateway) (status : WX_STATUS) (r : CYSFReflector) :
    (processWiresX s status r).m_exclude = s.m_exclude ∧
    reflectorWrites (processWiresX s status r).m_out = reflectorWrites s.m_out := by
  obtain ⟨link, ex, ti, tl, tp, ny, nf, out⟩ := s
  cases status <;> cases link <;>
    simp [processWiresX, reflectorWrites, Event.isReflectorWrite,
      CYSFGateway.ysfSetDestination, CYSFGateway.ysfWritePoll,
      CYSFGateway.ysfWriteUnlink, CYSFGateway.fcsWriteUnlink, CYSFGateway.fcsClearDestination,
      CYSFGateway.ysfClearDestination, CYSFGateway.emit, List.filter_cons]

/-- C3. A repeater frame whose header decodes with data type `YSF_DT_DATA_FR_MODE` is
processed without a crash and is written to neither the wide-network adapter nor the
FCS adapter, in every gateway state and whatever the two command decoders return. -/
theorem data_frame_not_relayed (cfg : CConf) (s : CYSFGateway) (f : RptFrame)
    (fich : CYSFFICH) (hf : f.fich = some fich) (hdt : fich.dt = YSF_DT_DATA_FR_MODE) :
    ∃ s', rptRead cfg s f = some s' ∧ reflectorWrites s'.m_out = reflectorWrites s.m_out := by
  have hne : ¬ (YSF_DT_DATA_FR_MODE = YSF_DT_VD_MODE2) := by decide
  simp only [rptRead, rptCommands, hf, processDTMF, hdt, hne, if_false, processDTMFStatus,
    Option.map_some', Option.some.injEq, exists_eq_left', decide_True]
  have h1 := processWiresX_exclude { s with m_exclude := true } f.wxProcess f.wxReflector
  generalize hq : (if m_wiresX cfg = true then
      processWiresX { s with m_exclude := true } f.wxProcess f.wxReflector
      else { s with m_exclude := true }) = q
  have hq1 : q.m_exclude = true ∧ reflectorWrites q.m_out = reflectorWrites s.m_out := by
    subst hq; split
    · exact h1
    · exact ⟨rfl, rfl⟩
  obtain ⟨link, ex, ti, tl, tp, ny, nf, out⟩ := q
  simp only at hq1
  obtain ⟨he, ho⟩ := hq1
  subst he
  rw [← ho]
  by_cases he : isEOT f.buffer = true <;>
    simp [rptForward, reflectorWrites, Event.isReflectorWrite, CYSFGateway.emit, he]

/-- Witness for `data_frame_not_relayed`: a data-frame-mode frame met while linked to the
wide network. -/
theorem data_frame_not_relayed_witness :
    ∃ s', rptRead exConfStartup (runStartup exConfStartup exDirectory)
        { exFrame WX_STATUS.WXS_NONE [] with fich := some { fi := 1, dt := 1, fn := 0, ft := 0 } }
        = some s' ∧
      reflectorWrites s'.m_out = reflectorWrites (runStartup exConfStartup exDirectory).m_out :=
  data_frame_not_relayed exConfStartup (runStartup exConfStartup exDirectory)
    { exFrame WX_STATUS.WXS_NONE [] with fich := some { fi := 1, dt := 1, fn := 0, ft := 0 } }
    { fi := 1, dt := 1, fn := 0, ft := 0 } rfl rfl

/-! ## C4: the lost-link timeout -/

theorem clockLost_fires (cfg : CConf) (s : CYSFGateway) (ms : Nat)
    (hrun : s.m_lostTimer.m_running = true)
    (hexp : s.m_lostTimer.m_timeout ≤ s.m_lostTimer.m_timer + ms) :
    clockLost cfg s ms =
      { s with m_linkType := LINK_TYPE.LINK_NONE,
               m_inactivityTimer := s.m_inactivityTimer.stop,
               m_lostTimer := (s.m_lostTimer.clock ms).stop,
               m_ysfPollTimer := s.m_ysfPollTimer.stop,
               m_ysfNetwork := { m_destination := none },
               m_fcsNetwork := { m_destination := none },
               m_out := s.m_out ++ lostLinkCalls cfg } := by
  obtain ⟨link, ex, ti, ⟨lps, lto, lt, lr⟩, tp, ny, nf, out⟩ := s
  simp only at hrun hexp
  subst hrun
  cases hw : m_wiresX cfg <;>
    simp [clockLost, lostLinkCalls, hw, CTimer.clock, CTimer.isRunning, CTimer.hasExpired, hexp,
      CYSFGateway.fcsClearDestination, CYSFGateway.ysfClearDestination, CYSFGateway.emit,
      CTimer.stop]

theorem clock_idle (cfg : CConf) (s : CYSFGateway) (ms : Nat)
    (directory : List Char → Option CYSFReflector)
    (hi : s.m_inactivityTimer.m_running = false) (hl : s.m_lostTimer.m_running = false)
    (hp : s.m_ysfPollTimer.m_running = false) : clock cfg s ms directory = s := by
  obtain ⟨link, ex, ⟨ips, ito, it, ir⟩, ⟨lps, lto, lt, lr⟩, ⟨pps, pto, pt, pr⟩, ny, nf, out⟩ :=
    s
  simp only at hi hl hp
  subst hi hl hp
  simp [clock, clockInactivity, clockLost, clockPoll, CTimer.clock, CTimer.isRunning]

theorem clocks_idle (cfg : CConf) (ts : List (Nat × (List Char → Option CYSFReflector))) :
    ∀ s : CYSFGateway, s.m_inactivityTimer.m_running = false →
      s.m_lostTimer.m_running = false → s.m_ysfPollTimer.m_running = false →
      clocks cfg s ts = s := by
  induction ts with
  | nil => intro s _ _ _; rfl
  | cons t ts ih =>
    intro s hi hl hp
    simp only [clocks]
    rw [clock_idle cfg s t.1 t.2 hi hl hp]
    exact ih s hi hl hp

theorem clockLost_pending (cfg : CConf) (s : CYSFGateway) (ms : Nat)
    (hexp : s.m_lostTimer.m_timer + ms < s.m_lostTimer.m_timeout) :
    clockLost cfg s ms = { s with m_lostTimer := s.m_lostTimer.clock ms } := by
  obtain ⟨link, ex, ti, ⟨lps, lto, lt, lr⟩, tp, ny, nf, out⟩ := s
  simp only at hexp
  have hexp' : ¬ lto ≤ lt + ms := by omega
  cases lr <;> simp [clockLost, CTimer.clock, CTimer.isRunning, CTimer.hasExpired, hexp']

theorem clockLost_stopped (cfg : CConf) (s : CYSFGateway) (ms : Nat)
    (hrun : s.m_lostTimer.m_running = false) : clockLost cfg s ms = s := by
  obtain ⟨link, ex, ti, ⟨lps, lto, lt, lr⟩, tp, ny, nf, out⟩ := s
  simp only at hrun
  subst hrun
  simp [clockLost, CTimer.clock, CTimer.isRunning]

theorem clockPoll_stopped (s : CYSFGateway) (ms : Nat)
    (hrun : s.m_ysfPollTimer.m_running = false) : clockPoll s ms = s := by
  obtain ⟨link, ex, ti, tl, ⟨pps, pto, pt, pr⟩, ny, nf, out⟩ := s
  simp only at hrun
  subst hrun
  simp [clockPoll, CTimer.clock, CTimer.isRunning]

theorem clockPoll_fires (s : CYSFGateway) (ms : Nat)
    (hrun : s.m_ysfPollTimer.m_running = true)
    (hexp : s.m_ysfPollTimer.m_timeout ≤ s.m_ysfPollTimer.m_timer + ms) :
    clockPoll s ms =
      { s with m_ysfPollTimer := (s.m_ysfPollTimer.clock ms).start,
               m_out := s.m_out ++ [Event.ysfWritePoll] } := by
  obtain ⟨link, ex, ti, tl, ⟨pps, pto, pt, pr⟩, ny, nf, out⟩ := s
  simp only at hrun hexp
  subst hrun
  simp [clockPoll, CTimer.clock, CTimer.isRunning, CTimer.hasExpired, hexp,
    CYSFGateway.ysfWritePoll, CYSFGateway.emit]

theorem clockPoll_pending (s : CYSFGateway) (ms : Nat)
    (hexp : s.m_ysfPollTimer.m_timer + ms < s.m_ysfPollTimer.m_timeout) :
    clockPoll s ms = { s with m_ysfPollTimer := s.m_ysfPollTimer.clock ms } := by
  obtain ⟨link, ex, ti, tl, ⟨pps, pto, pt, pr⟩, ny, nf, out⟩ := s
  simp only at hexp
  have hexp' : ¬ pto ≤ pt + ms := by omega
  cases pr <;> simp [clockPoll, CTimer.clock, CTimer.isRunning, CTimer.hasExpired, hexp']

theorem clockInactivity_pending (cfg : CConf) (s : CYSFGateway) (ms : Nat)
    (directory : List Char → Option CYSFReflector)
    (hexp : s.m_inactivityTimer.m_running = true →
      s.m_inactivityTimer.m_timer + ms < s.m_inactivityTimer.m_timeout) :
    clockInactivity cfg s ms directory =
      { s with m_inactivityTimer := s.m_inactivityTimer.clock ms } := by
  obtain ⟨link, ex, ⟨ips, ito, it, ir⟩, tl, tp, ny, nf, out⟩ := s
  simp only at hexp
  cases ir
  · simp [clockInactivity, CTimer.clock, CTimer.isRunning]
  · have hexp' : ¬ ito ≤ it + ms := by have := hexp rfl; omega
    simp [clockInactivity, CTimer.clock, CTimer.isRunning, CTimer.hasExpired, hexp']

theorem clockInactivity_not_ysf (cfg : CConf) (s : CYSFGateway) (ms : Nat)
    (directory : List Char → Option CYSFReflector)
    (hlink : s.m_linkType ≠ LINK_TYPE.LINK_YSF) :
    clockInactivity cfg s ms directory =
      { s with m_inactivityTimer :=
        (clockInactivity cfg s ms directory).m_inactivityTimer } := by
  obtain ⟨link, ex, ⟨ips, ito, it, ir⟩, tl, tp, ny, nf, out⟩ := s
  simp only at hlink
  unfold clockInactivity
  simp only [hlink, if_false]
  split <;> rfl

theorem clockInactivity_expired_stops (cfg : CConf) (s : CYSFGateway) (ms : Nat)
    (directory : List Char → Option CYSFReflector)
    (hrun : s.m_inactivityTimer.m_running = true)
    (hexp : s.m_inactivityTimer.m_timeout ≤ s.m_inactivityTimer.m_timer + ms) :
    (clockInactivity cfg s ms directory).m_inactivityTimer =
      (s.m_inactivityTimer.clock ms).stop := by
  obtain ⟨link, ex, ⟨ips, ito, it, ir⟩, tl, tp, ny, nf, out⟩ := s
  simp only at hrun hexp
  subst hrun
  unfold clockInactivity
  simp only [CTimer.clock, CTimer.isRunning, CTimer.hasExpired, hexp, if_true, decide_True,
    and_self]
  split
  · split <;> cases m_wiresX cfg <;> rfl
  · rfl

theorem clock_fcs_fires (cfg : CConf) (s : CYSFGateway) (ms : Nat)
    (directory : List Char → Option CYSFReflector)
    (hlink : s.m_linkType = LINK_TYPE.LINK_FCS)
    (hrun : s.m_lostTimer.m_running = true)
    (hexp : s.m_lostTimer.m_timeout ≤ s.m_lostTimer.m_timer + ms) :
    (clock cfg s ms directory).m_linkType = LINK_TYPE.LINK_NONE ∧
    (clock cfg s ms directory).m_ysfNetwork.m_destination = none ∧
    (clock cfg s ms directory).m_fcsNetwork.m_destination = none ∧
    (clock cfg s ms directory).m_inactivityTimer.m_running = false ∧
    (clock cfg s ms directory).m_lostTimer.m_running = false ∧
    (clock cfg s ms directory).m_ysfPollTimer.m_running = false ∧
    (clock cfg s ms directory).m_out = s.m_out ++ lostLinkCalls cfg := by
  have hne : s.m_linkType ≠ LINK_TYPE.LINK_YSF := by rw [hlink]; decide
  have h1 := clockInactivity_not_ysf cfg s ms directory hne
  generalize (clockInactivity cfg s ms directory).m_inactivityTimer = T at h1
  have h2 := clockLost_fires cfg { s with m_inactivityTimer := T } ms hrun hexp
  rw [clock, h1, h2, clockPoll_stopped _ ms (by simp [CTimer.stop])]
  simp [CTimer.stop]

theorem clock_fcs_pending (cfg : CConf) (s : CYSFGateway) (ms : Nat)
    (directory : List Char → Option CYSFReflector)
    (hlink : s.m_linkType = LINK_TYPE.LINK_FCS)
    (hrun : s.m_lostTimer.m_running = true) (hp : s.m_ysfPollTimer.m_running = false)
    (hexp : s.m_lostTimer.m_timer + ms < s.m_lostTimer.m_timeout) :
    (clock cfg s ms directory).m_linkType = LINK_TYPE.LINK_FCS ∧
    (clock cfg s ms directory).m_lostTimer.m_running = true ∧
    (clock cfg s ms directory).m_lostTimer.m_timeout = s.m_lostTimer.m_timeout ∧
    (clock cfg s ms directory).m_lostTimer.m_timer = s.m_lostTimer.m_timer + ms ∧
    (clock cfg s ms directory).m_ysfPollTimer.m_running = false ∧
    (clock cfg s ms directory).m_out = s.m_out := by
  have hne : s.m_linkType ≠ LINK_TYPE.LINK_YSF := by rw [hlink]; decide
  have h1 := clockInactivity_not_ysf cfg s ms directory hne
  generalize (clockInactivity cfg s ms directory).m_inactivityTimer = T at h1
  have h2 := clockLost_pending cfg { s with m_inactivityTimer := T } ms hexp
  rw [clock, h1, h2, clockPoll_stopped _ ms (by simpa using hp)]
  simp [CTimer.clock, hrun, hlink, hp]

theorem clocks_fcs_lost (cfg : CConf) (ts : List (Nat × (List Char → Option CYSFReflector))) :
    ∀ s : CYSFGateway, ts ≠ [] → s.m_linkType = LINK_TYPE.LINK_FCS →
      s.m_lostTimer.m_running = true → s.m_ysfPollTimer.m_running = false →
      s.m_lostTimer.m_timeout ≤ s.m_lostTimer.m_timer + elapsed ts →
      (clocks cfg s ts).m_linkType = LINK_TYPE.LINK_NONE ∧
      (clocks cfg s ts).m_ysfNetwork.m_destination = none ∧
      (clocks cfg s ts).m_fcsNetwork.m_destination = none ∧
      (clocks cfg s ts).m_inactivityTimer.m_running = false ∧
      (clocks cfg s ts).m_lostTimer.m_running = false ∧
      (clocks cfg s ts).m_ysfPollTimer.m_running = false ∧
      (clocks cfg s ts).m_out = s.m_out ++ lostLinkCalls cfg := by
  induction ts with
  | nil => intro s h; exact absurd rfl h
  | cons t ts ih =>
    intro s _ hlink hrun hp hexp
    simp only [clocks]
    by_cases hc : s.m_lostTimer.m_timeout ≤ s.m_lostTimer.m_timer + t.1
    · have h1 := clock_fcs_fires cfg s t.1 t.2 hlink hrun hc
      rw [clocks_idle cfg ts _ h1.2.2.2.1 h1.2.2.2.2.1 h1.2.2.2.2.2.1]
      exact h1
    · have h1 := clock_fcs_pending cfg s t.1 t.2 hlink hrun hp (by omega)
      have hne : ts ≠ [] := by
        rintro rfl
        simp [elapsed] at hexp
        omega
      have h2 := ih (clock cfg s t.1 t.2) hne h1.1 h1.2.1 h1.2.2.2.2.1
        (by rw [h1.2.2.1, h1.2.2.2.1]; simp [elapsed] at hexp ⊢; omega)
      rw [h1.2.2.2.2.2] at h2
      exact h2

theorem exLinkedFCS_reachable : Reachable exConf exLinkedFCS :=
  ⟨exDirectory, [Input.rpt (exFrame WX_STATUS.WXS_CONNECT_FCS ['1', '2', '3'])], by decide⟩

/-- C4. In every state (a linked one in particular: the lost-link timer runs in no other),
when the running lost-link timer expires in a timer step, the lost-link transition
sends no unlink (it only informs the directory collaborator,
when present, and clears both destinations), clears the destination of both reflector
adapters, stops the inactivity, lost-link and poll-retry timers and sets the link type to
`LINK_NONE`. Scenario B: from a reachable state linked to FCS, timer steps without any
frame in between whose elapsed times bring the lost-link timer to 120 seconds end in
`LINK_NONE` with exactly the calls of the lost-link transition, hence no unlink. -/
theorem lost_link_timeout (cfg : CConf) (s : CYSFGateway) (ms : Nat)
    (ts : List (Nat × (List Char → Option CYSFReflector)))
    (hrun : s.m_lostTimer.isRunning = true)
    (hexp : (s.m_lostTimer.clock ms).hasExpired = true) :
    ((clockLost cfg s ms).m_out = s.m_out ++ lostLinkCalls cfg ∧
      unlinks (clockLost cfg s ms).m_out = unlinks s.m_out ∧
      (clockLost cfg s ms).m_ysfNetwork.m_destination = none ∧
      (clockLost cfg s ms).m_fcsNetwork.m_destination = none ∧
      (clockLost cfg s ms).m_inactivityTimer.isRunning = false ∧
      (clockLost cfg s ms).m_lostTimer.isRunning = false ∧
      (clockLost cfg s ms).m_ysfPollTimer.isRunning = false ∧
      (clockLost cfg s ms).m_linkType = LINK_TYPE.LINK_NONE) ∧
    (Reachable cfg s → s.m_linkType = LINK_TYPE.LINK_FCS → ts ≠ [] →
      120 * 1000 ≤ s.m_lostTimer.m_timer + elapsed ts →
      (clocks cfg s ts).m_out = s.m_out ++ lostLinkCalls cfg ∧
      unlinks (clocks cfg s ts).m_out = unlinks s.m_out ∧
      (clocks cfg s ts).m_ysfNetwork.m_destination = none ∧
      (clocks cfg s ts).m_fcsNetwork.m_destination = none ∧
      (clocks cfg s ts).m_inactivityTimer.isRunning = false ∧
      (clocks cfg s ts).m_lostTimer.isRunning = false ∧
      (clocks cfg s ts).m_ysfPollTimer.isRunning = false ∧
      (clocks cfg s ts).m_linkType = LINK_TYPE.LINK_NONE) := by
  have hu : ∀ out : List Event, unlinks (out ++ lostLinkCalls cfg) = unlinks out := by
    intro out
    cases hw : m_wiresX cfg <;>
      simp [unlinks, lostLinkCalls, hw, Event.isUnlink, List.filter_cons]
  have hrun' : s.m_lostTimer.m_running = true := hrun
  have hexp' : s.m_lostTimer.m_timeout ≤ s.m_lostTimer.m_timer + ms := by
    simpa [CTimer.hasExpired, CTimer.clock, hrun'] using hexp
  constructor
  · rw [clockLost_fires cfg s ms hrun' hexp']
    exact ⟨rfl, hu _, rfl, rfl, rfl, rfl, rfl, rfl⟩
  · intro hreach hfcs hne hsum
    have hi := inv_reachable cfg s hreach
    have hp : s.m_ysfPollTimer.m_running = false := by
      rw [hi.poll, hfcs]; decide
    rw [← (timeouts_reachable cfg s hreach).2.1] at hsum
    obtain ⟨h1, h2, h3, h4, h5, h6, h7⟩ := clocks_fcs_lost cfg ts s hne hfcs hrun' hp hsum
    refine ⟨h7, ?_, h2, h3, h4, h5, h6, h1⟩
    rw [h7]; exact hu _

/-- Witness for `lost_link_timeout`: linked to FCS with the lost-link timer at its
default 120 seconds, one step of 120 seconds, and two steps of 60 seconds. -/
theorem lost_link_timeout_witness :
    ((clockLost exConf exLinkedFCS 120000).m_out = exLinkedFCS.m_out ++ lostLinkCalls exConf ∧
      unlinks (clockLost exConf exLinkedFCS 120000).m_out = unlinks exLinkedFCS.m_out ∧
      (clockLost exConf exLinkedFCS 120000).m_ysfNetwork.m_destination = none ∧
      (clockLost exConf exLinkedFCS 120000).m_fcsNetwork.m_destination = none ∧
      (clockLost exConf exLinkedFCS 120000).m_inactivityTimer.isRunning = false ∧
      (clockLost exConf exLinkedFCS 120000).m_lostTimer.isRunning = false ∧
      (clockLost exConf exLinkedFCS 120000).m_ysfPollTimer.isRunning = false ∧
      (clockLost exConf exLinkedFCS 120000).m_linkType = LINK_TYPE.LINK_NONE) ∧
    ((clocks exConf exLinkedFCS [(60000, exDirectory), (60000, exDirectory)]).m_out =
        exLinkedFCS.m_out ++ lostLinkCalls exConf ∧
      unlinks (clocks exConf exLinkedFCS [(60000, exDirectory), (60000, exDirectory)]).m_out =
        unlinks exLinkedFCS.m_out ∧
      (clocks exConf exLinkedFCS
        [(60000, exDirectory), (60000, exDirectory)]).m_ysfNetwork.m_destination = none ∧
      (clocks exConf exLinkedFCS
        [(60000, exDirectory), (60000, exDirectory)]).m_fcsNetwork.m_destination = none ∧
      (clocks exConf exLinkedFCS
        [(60000, exDirectory), (60000, exDirectory)]).m_inactivityTimer.isRunning = false ∧
      (clocks exConf exLinkedFCS
        [(60000, exDirectory), (60000, exDirectory)]).m_lostTimer.isRunning = false ∧
      (clocks exConf exLinkedFCS
        [(60000, exDirectory), (60000, exDirectory)]).m_ysfPollTimer.isRunning = false ∧
      (clocks exConf exLinkedFCS
        [(60000, exDirectory), (60000, exDirectory)]).m_linkType = LINK_TYPE.LINK_NONE) :=
  have h := lost_link_timeout exConf exLinkedFCS 120000
    [(60000, exDirectory), (60000, exDirectory)] rfl (by decide)
  ⟨h.1, h.2 exLinkedFCS_reachable rfl (by simp) (by decide)⟩

/-! ## C5: the inactivity timeout without revert -/

theorem clockInactivity_disconnect (cfg : CConf) (s : CYSFGateway) (ms : Nat)
    (directory : List Char → Option CYSFReflector)
    (hlink : s.m_linkType = LINK_TYPE.LINK_YSF)
    (hrun : s.m_inactivityTimer.m_running = true)
    (hexp : s.m_inactivityTimer.m_timeout ≤ s.m_inactivityTimer.m_timer + ms)
    (hrev : cfg.revert = false) :
    clockInactivity cfg s ms directory =
      { s with m_linkType := LINK_TYPE.LINK_NONE,
               m_inactivityTimer := (s.m_inactivityTimer.clock ms).stop,
               m_lostTimer := s.m_lostTimer.stop,
               m_ysfPollTimer := s.m_ysfPollTimer.stop,
               m_ysfNetwork := { m_destination := none },
               m_out := s.m_out ++ inactivityDisconnectCalls cfg } := by
  obtain ⟨link, ex, ⟨ips, ito, it, ir⟩, tl, tp, ny, nf, out⟩ := s
  simp only at hlink hrun hexp
  subst hlink hrun
  cases hw : m_wiresX cfg <;>
    simp [clockInactivity, inactivityDisconnectCalls, hw, hrev, CTimer.clock,
      CTimer.isRunning, CTimer.hasExpired, hexp, CYSFGateway.ysfWriteUnlink,
      CYSFGateway.ysfClearDestination, CYSFGateway.emit, CTimer.stop]

theorem unlinks_poll (out : List Event) : unlinks (out ++ [Event.ysfWritePoll]) = unlinks out := by
  simp [unlinks, Event.isUnlink, List.filter_cons]

theorem unlinks_lostLinkCalls (cfg : CConf) (out : List Event) :
    unlinks (out ++ lostLinkCalls cfg) = unlinks out := by
  cases hw : m_wiresX cfg <;>
    simp [unlinks, lostLinkCalls, hw, Event.isUnlink, List.filter_cons]

theorem unlinks_inactivityDisconnectCalls (cfg : CConf) (out : List Event) :
    unlinks (out ++ inactivityDisconnectCalls cfg) =
      unlinks out ++ [Event.ysfWriteUnlink, Event.ysfWriteUnlink, Event.ysfWriteUnlink] := by
  cases hw : m_wiresX cfg <;>
    simp [unlinks, inactivityDisconnectCalls, hw, Event.isUnlink, List.filter_cons]

/-- One timer step in a state linked to the wide network, revert disabled, inactivity
timer running. -/
theorem clock_wide_inactive (cfg : CConf) (s : CYSFGateway) (ms : Nat)
    (directory : List Char → Option CYSFReflector)
    (hlink : s.m_linkType = LINK_TYPE.LINK_YSF)
    (hfcs : s.m_fcsNetwork.m_destination = none)
    (hir : s.m_inactivityTimer.m_running = true)
    (hlr : s.m_lostTimer.m_running = true)
    (hpr : s.m_ysfPollTimer.m_running = true)
    (hrev : cfg.revert = false) :
    (s.m_inactivityTimer.m_timeout ≤ s.m_inactivityTimer.m_timer + ms →
      Unlinked (clock cfg s ms directory) ∧
      unlinks (clock cfg s ms directory).m_out =
        unlinks s.m_out ++ [Event.ysfWriteUnlink, Event.ysfWriteUnlink, Event.ysfWriteUnlink]) ∧
    (s.m_inactivityTimer.m_timer + ms < s.m_inactivityTimer.m_timeout →
      s.m_lostTimer.m_timeout ≤ s.m_lostTimer.m_timer + ms →
      Unlinked (clock cfg s ms directory) ∧
      unlinks (clock cfg s ms directory).m_out = unlinks s.m_out) ∧
    (s.m_inactivityTimer.m_timer + ms < s.m_inactivityTimer.m_timeout →
      s.m_lostTimer.m_timer + ms < s.m_lostTimer.m_timeout →
      (clock cfg s ms directory).m_linkType = LINK_TYPE.LINK_YSF ∧
      (clock cfg s ms directory).m_fcsNetwork.m_destination = none ∧
      (clock cfg s ms directory).m_inactivityTimer =
        { s.m_inactivityTimer with m_timer := s.m_inactivityTimer.m_timer + ms } ∧
      (clock cfg s ms directory).m_lostTimer =
        { s.m_lostTimer with m_timer := s.m_lostTimer.m_timer + ms } ∧
      (clock cfg s ms directory).m_ysfPollTimer.m_running = true ∧
      unlinks (clock cfg s ms directory).m_out = unlinks s.m_out) := by
  refine ⟨?_, ?_, ?_⟩
  · intro hexp
    rw [clock, clockInactivity_disconnect cfg s ms directory hlink hir hexp hrev,
      clockLost_stopped cfg _ ms (by simp [CTimer.stop]),
      clockPoll_stopped _ ms (by simp [CTimer.stop])]
    exact ⟨⟨rfl, rfl, hfcs, rfl, rfl, rfl⟩, unlinks_inactivityDisconnectCalls cfg _⟩
  · intro hi hl
    have h1 := clockInactivity_pending cfg s ms directory (fun _ => hi)
    have h2 := clockLost_fires cfg { s with m_inactivityTimer := s.m_inactivityTimer.clock ms }
      ms hlr hl
    rw [clock, h1, h2, clockPoll_stopped _ ms (by simp [CTimer.stop])]
    exact ⟨⟨rfl, rfl, rfl, rfl, rfl, rfl⟩, unlinks_lostLinkCalls cfg _⟩
  · intro hi hl
    have h1 := clockInactivity_pending cfg s ms directory (fun _ => hi)
    have h2 := clockLost_pending cfg { s with m_inactivityTimer := s.m_inactivityTimer.clock ms }
      ms hl
    rw [clock, h1, h2]
    by_cases hp : s.m_ysfPollTimer.m_timeout ≤ s.m_ysfPollTimer.m_timer + ms
    · rw [clockPoll_fires _ ms (by simpa using hpr) (by simpa using hp)]
      simp [CTimer.clock, CTimer.start, hir, hlr, hlink, hfcs, unlinks_poll]
    · rw [clockPoll_pending _ ms (by simpa using hp)]
      simp [CTimer.clock, hir, hlr, hpr, hlink, hfcs]

theorem exSilentWide_reachable : Reachable exConfStartup exSilentWide :=
  ⟨exDirectory,
    [Input.tick 59000 exDirectory, Input.rpt (exFrame WX_STATUS.WXS_NONE []),
     Input.tick 59000 exDirectory, Input.rpt (exFrame WX_STATUS.WXS_NONE []),
     Input.tick 1000 exDirectory, Input.rpt (exFrame WX_STATUS.WXS_NONE [])], by decide⟩

theorem processWiresX_trace (s : CYSFGateway) (status : WX_STATUS) (r : CYSFReflector) :
    s.m_out <+: (processWiresX s status r).m_out := by
  obtain ⟨link, ex, ti, tl, tp, ny, nf, out⟩ := s
  cases status <;> cases link <;>
    simp [processWiresX, CYSFGateway.ysfSetDestination, CYSFGateway.ysfWritePoll,
      CYSFGateway.ysfWriteUnlink, CYSFGateway.fcsWriteUnlink, CYSFGateway.fcsClearDestination,
      CYSFGateway.ysfClearDestination, CYSFGateway.emit]

theorem processDTMFStatus_trace (cfg : CConf) (s s' : CYSFGateway) (status : WX_STATUS)
    (id : List Char) (directory : List Char → Option CYSFReflector) (rodata : List Char)
    (h : processDTMFStatus cfg s status id directory rodata = some s') :
    s.m_out <+: s'.m_out := by
  obtain ⟨link, ex, ti, tl, tp, ny, nf, out⟩ := s
  cases status
  · simp [processDTMFStatus] at h
    subst h
    simp
  · cases hw : m_wiresX cfg <;> simp [processDTMFStatus, hw] at h
    cases hd : directory id <;> simp [hd] at h
    · subst h; simp
    · subst h
      cases link <;>
        simp [CYSFGateway.ysfSetDestination, CYSFGateway.ysfWritePoll,
          CYSFGateway.ysfWriteUnlink, CYSFGateway.fcsWriteUnlink,
          CYSFGateway.fcsClearDestination, CYSFGateway.emit]
  · cases hf : fcsReflector rodata id <;> simp [processDTMFStatus, hf] at h
    subst h
    cases link <;>
      simp [CYSFGateway.fcsWriteLink, CYSFGateway.ysfWriteUnlink, CYSFGateway.fcsWriteUnlink,
        CYSFGateway.ysfClearDestination, CYSFGateway.emit]
  · cases hw : m_wiresX cfg <;> cases link <;>
      simp [processDTMFStatus, hw, CYSFGateway.ysfWriteUnlink, CYSFGateway.fcsWriteUnlink,
        CYSFGateway.fcsClearDestination, CYSFGateway.ysfClearDestination,
        CYSFGateway.emit] at h <;> subst h <;> simp

theorem rptForward_trace (cfg : CConf) (s : CYSFGateway) (buffer : List Nat) :
    s.m_out <+: (rptForward cfg s buffer).m_out := by
  obtain ⟨link, ex, ti, tl, tp, ny, nf, out⟩ := s
  unfold rptForward
  cases cfg.ysfNetworkEnabled <;> cases cfg.fcsNetworkEnabled <;> cases link <;> cases ex <;>
    cases isYSFD buffer <;> cases isEOT buffer <;> simp [CYSFGateway.emit]

theorem rptRead_trace (cfg : CConf) (s s' : CYSFGateway) (f : RptFrame)
    (h : rptRead cfg s f = some s') : s.m_out <+: s'.m_out := by
  unfold rptRead at h
  cases hc : rptCommands cfg s f with
  | none => simp [hc] at h
  | some q =>
    simp [hc] at h
    subst h
    refine List.IsPrefix.trans ?_ (rptForward_trace cfg q f.buffer)
    unfold rptCommands at hc
    cases hf : f.fich with
    | none => simp [hf] at hc; subst hc; simp
    | some fich =>
      simp only [hf] at hc
      have h1 := processDTMFStatus_trace cfg _ _ _ _ _ _ hc
      refine List.IsPrefix.trans ?_ h1
      cases m_wiresX cfg
      · simp
      · simpa using processWiresX_trace { s with m_exclude := _ } f.wxProcess f.wxReflector

theorem ysfRead_trace (cfg : CConf) (s : CYSFGateway) (buffer : List Nat) :
    s.m_out <+: (ysfRead cfg s buffer).m_out := by
  unfold ysfRead
  split
  · cases isYSFD buffer <;> simp [CYSFGateway.emit]
  · simp

theorem fcsRead_trace (cfg : CConf) (s : CYSFGateway) (buffer : List Nat) :
    s.m_out <+: (fcsRead cfg s buffer).m_out := by
  unfold fcsRead
  split
  · simp [CYSFGateway.emit]
  · simp

theorem clockInactivity_trace (cfg : CConf) (s : CYSFGateway) (ms : Nat)
    (directory : List Char → Option CYSFReflector) :
    s.m_out <+: (clockInactivity cfg s ms directory).m_out := by
  obtain ⟨link, ex, ti, tl, tp, ny, nf, out⟩ := s
  unfold clockInactivity
  simp only
  split
  · cases link
    · simp
    · simp only [if_true]
      split <;> cases m_wiresX cfg <;>
        simp [CYSFGateway.ysfSetDestination, CYSFGateway.ysfWritePoll,
          CYSFGateway.ysfWriteUnlink, CYSFGateway.ysfClearDestination, CYSFGateway.emit]
    · simp
  · simp

theorem clockLost_trace (cfg : CConf) (s : CYSFGateway) (ms : Nat) :
    s.m_out <+: (clockLost cfg s ms).m_out := by
  unfold clockLost
  simp only
  split
  · cases m_wiresX cfg <;>
      simp [CYSFGateway.fcsClearDestination, CYSFGateway.ysfClearDestination, CYSFGateway.emit]
  · simp

theorem clockPoll_trace (s : CYSFGateway) (ms : Nat) :
    s.m_out <+: (clockPoll s ms).m_out := by
  unfold clockPoll
  simp only
  split
  · simp [CYSFGateway.ysfWritePoll, CYSFGateway.emit]
  · simp

theorem step_trace (cfg : CConf) (s s' : CYSFGateway) (i : Input)
    (h : step cfg s i = some s') : s.m_out <+: s'.m_out := by
  cases i with
  | rpt f => exact rptRead_trace cfg s s' f h
  | ysf b => simp [step] at h; subst h; exact ysfRead_trace cfg s b
  | fcs b => simp [step] at h; subst h; exact fcsRead_trace cfg s b
  | tick ms d =>
    simp [step] at h; subst h
    exact ((clockInactivity_trace cfg s ms d).trans (clockLost_trace cfg _ ms)).trans
      (clockPoll_trace _ ms)

theorem steps_trace (cfg : CConf) (inputs : List Input) :
    ∀ s s' : CYSFGateway, steps cfg s inputs = some s' → s.m_out <+: s'.m_out := by
  induction inputs with
  | nil => intro s s' h; simp [steps] at h; subst h; simp
  | cons i is ih =>
    intro s s' h
    simp only [steps] at h
    cases hs : step cfg s i with
    | none => simp [hs] at h
    | some q =>
      simp [hs] at h
      exact (step_trace cfg s q i hs).trans (ih q s' h)

theorem filter_between (p : Event → Bool) (a b c : List Event) (h1 : a <+: b) (h2 : b <+: c)
    (h : c.filter p = a.filter p) : b.filter p = a.filter p := by
  have h3 := h1.filter p
  have h4 := h2.filter p
  rw [h] at h4
  exact (h3.eq_of_length_le h4.length_le).symm

theorem ticked_pos_hasTick (inputs : List Input) (h : 0 < ticked inputs) :
    hasTick inputs = true := by
  induction inputs with
  | nil => simp [ticked] at h
  | cons i is ih =>
    cases i <;> simp [ticked, hasTick] at h ⊢ <;> exact ih h

/-- What the command part of a frame without connect command does to a state linked to
the wide network: nothing but the exclusion flag, or the disconnect. -/
theorem rptCommands_wide_quiet (cfg : CConf) (s : CYSFGateway) (f : RptFrame)
    (hw : m_wiresX cfg = true) (hlink : s.m_linkType = LINK_TYPE.LINK_YSF)
    (hq : connectCommand cfg f = false) :
    ∃ q, rptCommands cfg s f = some q ∧
      ((q = { s with m_exclude := q.m_exclude }) ∨
       (q.m_linkType = LINK_TYPE.LINK_NONE ∧ q.m_ysfNetwork.m_destination = none ∧
        q.m_fcsNetwork = s.m_fcsNetwork ∧
        q.m_inactivityTimer.m_running = false ∧ q.m_lostTimer.m_running = false ∧
        q.m_ysfPollTimer.m_running = false ∧
        reflectorWrites q.m_out = reflectorWrites s.m_out ∧
        unlinks q.m_out = unlinks s.m_out ++
          [Event.ysfWriteUnlink, Event.ysfWriteUnlink, Event.ysfWriteUnlink])) := by
  obtain ⟨link, ex, ti, tl, tp, ny, nf, out⟩ := s
  simp only at hlink
  subst hlink
  unfold connectCommand at hq
  unfold rptCommands
  cases hf : f.fich with
  | none => exact ⟨_, rfl, Or.inl rfl⟩
  | some fich =>
    simp only [hf, hw, Bool.true_and, Bool.or_eq_false_iff, Bool.and_eq_false_iff] at hq
    obtain ⟨hq1, hq2⟩ := hq
    simp only [hw, if_true, processDTMF]
    by_cases hdt : fich.dt = YSF_DT_VD_MODE2
    · simp only [hdt, decide_True, Bool.true_and, if_true] at hq2 ⊢
      cases hx : f.wxProcess <;> cases hd : f.decodeVDMode2 <;>
        simp_all [processWiresX, processDTMFStatus, CYSFGateway.ysfWriteUnlink,
          CYSFGateway.ysfClearDestination, CYSFGateway.emit, CTimer.stop, unlinks,
          reflectorWrites, Event.isUnlink, Event.isReflectorWrite, List.filter_cons]
    · simp only [hdt, if_false]
      cases hx : f.wxProcess <;>
        simp_all [processWiresX, processDTMFStatus, CYSFGateway.ysfWriteUnlink,
          CYSFGateway.ysfClearDestination, CYSFGateway.emit, CTimer.stop, unlinks,
          reflectorWrites, Event.isUnlink, Event.isReflectorWrite, List.filter_cons]

/-- Forwarding changes neither the link type, nor a destination, nor the lost-link and
poll-retry timers, nor the unlinks sent; and when it writes no frame to a reflector
adapter it leaves the inactivity timer alone too. -/
theorem rptForward_fields (cfg : CConf) (s : CYSFGateway) (buffer : List Nat) :
    (rptForward cfg s buffer).m_linkType = s.m_linkType ∧
    (rptForward cfg s buffer).m_ysfNetwork = s.m_ysfNetwork ∧
    (rptForward cfg s buffer).m_fcsNetwork = s.m_fcsNetwork ∧
    (rptForward cfg s buffer).m_lostTimer = s.m_lostTimer ∧
    (rptForward cfg s buffer).m_ysfPollTimer = s.m_ysfPollTimer ∧
    unlinks (rptForward cfg s buffer).m_out = unlinks s.m_out ∧
    (reflectorWrites (rptForward cfg s buffer).m_out = reflectorWrites s.m_out →
      (rptForward cfg s buffer).m_inactivityTimer = s.m_inactivityTimer) := by
  obtain ⟨link, ex, ti, tl, tp, ny, nf, out⟩ := s
  unfold rptForward
  cases cfg.ysfNetworkEnabled <;> cases cfg.fcsNetworkEnabled <;> cases link <;> cases ex <;>
    cases isYSFD buffer <;> cases isEOT buffer <;>
    simp [CYSFGateway.emit, unlinks, reflectorWrites, Event.isUnlink, Event.isReflectorWrite,
      List.filter_cons]

theorem processDTMFStatus_isSome (cfg : CConf) (s : CYSFGateway) (status : WX_STATUS)
    (id : List Char) (directory : List Char → Option CYSFReflector) (rodata : List Char)
    (hw : m_wiresX cfg = true) (h : status ≠ WX_STATUS.WXS_CONNECT_FCS) :
    ∃ s', processDTMFStatus cfg s status id directory rodata = some s' := by
  cases status with
  | WXS_NONE => exact ⟨_, rfl⟩
  | WXS_CONNECT_YSF =>
    simp only [processDTMFStatus, hw, if_true]
    cases directory id <;> exact ⟨_, rfl⟩
  | WXS_CONNECT_FCS => exact absurd rfl h
  | WXS_DISCONNECT =>
    simp only [processDTMFStatus]
    split
    · exact ⟨_, rfl⟩
    · split <;> exact ⟨_, rfl⟩

/-- A frame without connect command never ends the program when the menu-command
collaborator exists. -/
theorem rptRead_quiet_isSome (cfg : CConf) (s : CYSFGateway) (f : RptFrame)
    (hw : m_wiresX cfg = true) (hq : connectCommand cfg f = false) :
    ∃ s', rptRead cfg s f = some s' := by
  unfold connectCommand at hq
  unfold rptRead rptCommands
  cases hf : f.fich with
  | none => exact ⟨_, rfl⟩
  | some fich =>
    simp only [hf, hw, Bool.true_and, Bool.or_eq_false_iff, Bool.and_eq_false_iff] at hq
    obtain ⟨-, hq2⟩ := hq
    have hst : (if fich.dt = YSF_DT_VD_MODE2 then f.decodeVDMode2 else WX_STATUS.WXS_NONE) ≠
        WX_STATUS.WXS_CONNECT_FCS := by
      by_cases hdt : fich.dt = YSF_DT_VD_MODE2
      · simp only [hdt, if_true]
        intro hc
        simp [hdt, hc] at hq2
      · simp [hdt]
    obtain ⟨q, hq⟩ := processDTMFStatus_isSome cfg
      (if m_wiresX cfg = true then
        processWiresX { s with m_exclude := decide (fich.dt = YSF_DT_DATA_FR_MODE) }
          f.wxProcess f.wxReflector
       else { s with m_exclude := decide (fich.dt = YSF_DT_DATA_FR_MODE) })
      _ f.dtmfReflector f.directory f.rodata hw hst
    exact ⟨rptForward cfg q f.buffer, by simp only [processDTMF]; rw [hq]; rfl⟩

/-- In a state without link a frame without connect command changes nothing but the
exclusion flag and the trace, and sends no unlink. -/
theorem rptRead_unlinked_quiet (cfg : CConf) (s : CYSFGateway) (f : RptFrame)
    (hw : m_wiresX cfg = true) (hu : Unlinked s) (hq : connectCommand cfg f = false) :
    ∃ s', rptRead cfg s f = some s' ∧ Unlinked s' ∧ unlinks s'.m_out = unlinks s.m_out := by
  have hc : rptCommands cfg s f = some { s with m_exclude := excludeFor s f } := by
    obtain ⟨link, ex, ti, tl, tp, ny, nf, out⟩ := s
    obtain ⟨hlink, -⟩ := hu
    simp only at hlink
    subst hlink
    unfold connectCommand at hq
    unfold rptCommands excludeFor
    cases hf : f.fich with
    | none => rfl
    | some fich =>
      simp only [hf, hw, Bool.true_and, Bool.or_eq_false_iff, Bool.and_eq_false_iff] at hq
      obtain ⟨hq1, hq2⟩ := hq
      simp only [hw, if_true, processDTMF]
      by_cases hdt : fich.dt = YSF_DT_VD_MODE2
      · simp only [hdt, decide_True, Bool.true_and, if_true] at hq2 ⊢
        cases hx : f.wxProcess <;> cases hd : f.decodeVDMode2 <;>
          simp_all [processWiresX, processDTMFStatus]
      · simp only [hdt, if_false]
        cases hx : f.wxProcess <;> simp_all [processWiresX, processDTMFStatus]
  refine ⟨_, by rw [rptRead, hc]; rfl, ?_, ?_⟩
  · obtain ⟨h1, h2, h3, h4, h5, h6, h7⟩ :=
      rptForward_fields cfg { s with m_exclude := excludeFor s f } f.buffer
    obtain ⟨u1, u2, u3, u4, u5, u6⟩ := hu
    have hi : (rptForward cfg { s with m_exclude := excludeFor s f }
        f.buffer).m_inactivityTimer = s.m_inactivityTimer := by
      obtain ⟨link, ex, ti, tl, tp, ny, nf, out⟩ := s
      simp only at u1
      subst u1
      unfold rptForward
      cases cfg.ysfNetworkEnabled <;> cases cfg.fcsNetworkEnabled <;>
        cases excludeFor _ f <;> cases isEOT f.buffer <;> simp [CYSFGateway.emit]
    refine ⟨by rw [h1]; exact u1, by rw [h2]; exact u2, by rw [h3]; exact u3, ?_, ?_, ?_⟩
    · simp only [CTimer.isRunning] at u4 ⊢; rw [hi]; exact u4
    · simp only [CTimer.isRunning] at u5 ⊢; rw [h4]; exact u5
    · simp only [CTimer.isRunning] at u6 ⊢; rw [h5]; exact u6
  · exact (rptForward_fields cfg { s with m_exclude := excludeFor s f } f.buffer).2.2.2.2.2.1

theorem steps_quiet_isSome (cfg : CConf) (hw : m_wiresX cfg = true) (inputs : List Input) :
    ∀ s : CYSFGateway, noConnectCommand cfg inputs = true →
      ∃ s', steps cfg s inputs = some s' := by
  induction inputs with
  | nil => intro s _; exact ⟨s, rfl⟩
  | cons i is ih =>
    intro s hq
    cases i with
    | rpt f =>
      simp only [noConnectCommand, Bool.and_eq_true, Bool.not_eq_true'] at hq
      obtain ⟨q, hq1⟩ := rptRead_quiet_isSome cfg s f hw hq.1
      obtain ⟨s', hs⟩ := ih q hq.2
      exact ⟨s', by simp only [steps, step, hq1]; exact hs⟩
    | ysf b =>
      obtain ⟨s', hs⟩ := ih (ysfRead cfg s b) hq
      exact ⟨s', by simp only [steps, step]; exact hs⟩
    | fcs b =>
      obtain ⟨s', hs⟩ := ih (fcsRead cfg s b) hq
      exact ⟨s', by simp only [steps, step]; exact hs⟩
    | tick ms d =>
      obtain ⟨s', hs⟩ := ih (clock cfg s ms d) hq
      exact ⟨s', by simp only [steps, step]; exact hs⟩

theorem steps_unlinked_quiet (cfg : CConf) (hw : m_wiresX cfg = true) (inputs : List Input) :
    ∀ s : CYSFGateway, noConnectCommand cfg inputs = true → Unlinked s →
      ∃ s', steps cfg s inputs = some s' ∧ Unlinked s' ∧
        unlinks s'.m_out = unlinks s.m_out := by
  induction inputs with
  | nil => intro s _ hu; exact ⟨s, rfl, hu, rfl⟩
  | cons i is ih =>
    intro s hq hu
    cases i with
    | rpt f =>
      simp only [noConnectCommand, Bool.and_eq_true, Bool.not_eq_true'] at hq
      obtain ⟨q, hq1, hq2, hq3⟩ := rptRead_unlinked_quiet cfg s f hw hu hq.1
      obtain ⟨s', hs, hs2, hs3⟩ := ih q hq.2 hq2
      exact ⟨s', by simp only [steps, step, hq1]; exact hs, hs2, by rw [hs3, hq3]⟩
    | ysf b =>
      have h1 : ysfRead cfg s b = s := by simp [ysfRead, hu.1]
      obtain ⟨s', hs, hs2, hs3⟩ := ih s hq hu
      exact ⟨s', by simp only [steps, step, h1]; exact hs, hs2, hs3⟩
    | fcs b =>
      have h1 : fcsRead cfg s b = s := by simp [fcsRead, hu.1]
      obtain ⟨s', hs, hs2, hs3⟩ := ih s hq hu
      exact ⟨s', by simp only [steps, step, h1]; exact hs, hs2, hs3⟩
    | tick ms d =>
      have h1 : clock cfg s ms d = s := clock_idle cfg s ms d hu.2.2.2.1 hu.2.2.2.2.1 hu.2.2.2.2.2
      obtain ⟨s', hs, hs2, hs3⟩ := ih s hq hu
      exact ⟨s', by simp only [steps, step, h1]; exact hs, hs2, hs3⟩

/-- A frame without connect command met while linked to the wide network: unless it is
forwarded, it either disconnects (three unlinks) or leaves link, FCS destination, timers
and unlinks as they are. -/
theorem rptRead_wide_quiet (cfg : CConf) (s : CYSFGateway) (f : RptFrame)
    (hw : m_wiresX cfg = true) (hlink : s.m_linkType = LINK_TYPE.LINK_YSF)
    (hfcs : s.m_fcsNetwork.m_destination = none)
    (hq : connectCommand cfg f = false) :
    ∃ s1, rptRead cfg s f = some s1 ∧
      (reflectorWrites s1.m_out = reflectorWrites s.m_out →
        (Unlinked s1 ∧ unlinks s1.m_out = unlinks s.m_out ++
          [Event.ysfWriteUnlink, Event.ysfWriteUnlink, Event.ysfWriteUnlink]) ∨
        (s1.m_linkType = LINK_TYPE.LINK_YSF ∧ s1.m_fcsNetwork = s.m_fcsNetwork ∧
          s1.m_inactivityTimer = s.m_inactivityTimer ∧ s1.m_lostTimer = s.m_lostTimer ∧
          s1.m_ysfPollTimer = s.m_ysfPollTimer ∧ unlinks s1.m_out = unlinks s.m_out)) := by
  obtain ⟨q, hq1, hq2⟩ := rptCommands_wide_quiet cfg s f hw hlink hq
  refine ⟨rptForward cfg q f.buffer, by rw [rptRead, hq1]; rfl, fun hr => ?_⟩
  obtain ⟨h1, h2, h3, h4, h5, h6, h7⟩ := rptForward_fields cfg q f.buffer
  rcases hq2 with hq2 | ⟨a1, a2, a3, a4, a5, a6, a7, a8⟩
  · have e1 : q.m_out = s.m_out := by rw [hq2]
    have e2 : q.m_linkType = s.m_linkType := by rw [hq2]
    have e3 : q.m_fcsNetwork = s.m_fcsNetwork := by rw [hq2]
    have e4 : q.m_inactivityTimer = s.m_inactivityTimer := by rw [hq2]
    have e5 : q.m_lostTimer = s.m_lostTimer := by rw [hq2]
    have e6 : q.m_ysfPollTimer = s.m_ysfPollTimer := by rw [hq2]
    right
    refine ⟨by rw [h1, e2, hlink], by rw [h3, e3], ?_, by rw [h4, e5], by rw [h5, e6],
      by rw [h6, e1]⟩
    rw [h7 (by rw [hr, e1]), e4]
  · left
    have hi := h7 (by rw [hr, a7])
    refine ⟨⟨by rw [h1, a1], by rw [h2, a2], by rw [h3, a3, hfcs], ?_, ?_, ?_⟩, by rw [h6, a8]⟩
    · simp only [CTimer.isRunning]; rw [hi, a4]
    · simp only [CTimer.isRunning]; rw [h4, a5]
    · simp only [CTimer.isRunning]; rw [h5, a6]

/-- A frame from the wide network met while linked to it restarts the lost-link timer
and changes nothing else but the trace, to which it adds no unlink and no frame written
to a reflector. -/
theorem ysfRead_wide (cfg : CConf) (s : CYSFGateway) (buffer : List Nat)
    (hw : m_wiresX cfg = true) (hlink : s.m_linkType = LINK_TYPE.LINK_YSF) :
    (ysfRead cfg s buffer).m_linkType = LINK_TYPE.LINK_YSF ∧
    (ysfRead cfg s buffer).m_fcsNetwork = s.m_fcsNetwork ∧
    (ysfRead cfg s buffer).m_inactivityTimer = s.m_inactivityTimer ∧
    (ysfRead cfg s buffer).m_lostTimer = s.m_lostTimer.start ∧
    (ysfRead cfg s buffer).m_ysfPollTimer = s.m_ysfPollTimer ∧
    unlinks (ysfRead cfg s buffer).m_out = unlinks s.m_out ∧
    reflectorWrites (ysfRead cfg s buffer).m_out = reflectorWrites s.m_out := by
  have hw2 : cfg.ysfNetworkEnabled = true := hw
  cases hy : isYSFD buffer <;>
    simp [ysfRead, hw2, hlink, hy, CYSFGateway.emit, unlinks, reflectorWrites, Event.isUnlink,
      Event.isReflectorWrite, List.filter_cons]

theorem steps_wide_inactive (cfg : CConf) (hw : m_wiresX cfg = true)
    (hrev : cfg.revert = false) (inputs : List Input) :
    ∀ s : CYSFGateway, noConnectCommand cfg inputs = true → hasTick inputs = true →
      s.m_linkType = LINK_TYPE.LINK_YSF → s.m_fcsNetwork.m_destination = none →
      s.m_inactivityTimer.m_running = true → s.m_lostTimer.m_running = true →
      s.m_ysfPollTimer.m_running = true →
      s.m_inactivityTimer.m_timeout ≤ s.m_inactivityTimer.m_timer + ticked inputs →
      ∃ s', steps cfg s inputs = some s' ∧
        (reflectorWrites s'.m_out = reflectorWrites s.m_out →
          Unlinked s' ∧
          (s.m_inactivityTimer.m_timeout + s.m_lostTimer.m_timer ≤
              s.m_lostTimer.m_timeout + s.m_inactivityTimer.m_timer →
            unlinks s'.m_out = unlinks s.m_out ++
              [Event.ysfWriteUnlink, Event.ysfWriteUnlink, Event.ysfWriteUnlink])) := by
  induction inputs with
  | nil => intro s _ ht; simp [hasTick] at ht
  | cons i is ih =>
    intro s hq ht hlink hfcs hir hlr hpr hsum
    cases i with
    | rpt f =>
      simp only [noConnectCommand, Bool.and_eq_true, Bool.not_eq_true'] at hq
      simp only [hasTick] at ht
      simp only [ticked] at hsum
      obtain ⟨s1, h1, h2⟩ := rptRead_wide_quiet cfg s f hw hlink hfcs hq.1
      have hp1 := step_trace cfg s s1 (Input.rpt f) h1
      by_cases hr : reflectorWrites s1.m_out = reflectorWrites s.m_out
      · rcases h2 hr with ⟨hu, hun⟩ | ⟨b1, b2, b3, b4, b5, b6⟩
        · obtain ⟨s', hs, hs2, hs3⟩ := steps_unlinked_quiet cfg hw is s1 hq.2 hu
          exact ⟨s', by simp only [steps, step, h1]; exact hs,
            fun _ => ⟨hs2, fun _ => by rw [hs3, hun]⟩⟩
        · obtain ⟨s', hs, hs2⟩ := ih s1 hq.2 ht b1 (by rw [b2]; exact hfcs)
            (by rw [b3]; exact hir) (by rw [b4]; exact hlr) (by rw [b5]; exact hpr)
            (by rw [b3]; exact hsum)
          refine ⟨s', by simp only [steps, step, h1]; exact hs, fun hr2 => ?_⟩
          obtain ⟨c1, c2⟩ := hs2 (by rw [hr2, hr])
          exact ⟨c1, fun hc => by rw [c2 (by rw [b3, b4]; exact hc), b6]⟩
      · obtain ⟨s', hs⟩ := steps_quiet_isSome cfg hw is s1 hq.2
        refine ⟨s', by simp only [steps, step, h1]; exact hs, fun hr2 => ?_⟩
        exact absurd (filter_between _ _ _ _ hp1 (steps_trace cfg is s1 s' hs) hr2) hr
    | ysf b =>
      simp only [noConnectCommand] at hq
      simp only [hasTick] at ht
      simp only [ticked] at hsum
      obtain ⟨b1, b2, b3, b4, b5, b6, b7⟩ := ysfRead_wide cfg s b hw hlink
      obtain ⟨s', hs, hs2⟩ := ih (ysfRead cfg s b) hq ht b1 (by rw [b2]; exact hfcs)
        (by rw [b3]; exact hir) (by rw [b4]; rfl) (by rw [b5]; exact hpr)
        (by rw [b3]; exact hsum)
      refine ⟨s', by simp only [steps, step]; exact hs, fun hr2 => ?_⟩
      obtain ⟨c1, c2⟩ := hs2 (by rw [hr2, b7])
      exact ⟨c1, fun hc => by
        rw [c2 (by rw [b3, b4]; simp only [CTimer.start]; omega), b6]⟩
    | fcs b =>
      simp only [noConnectCommand] at hq
      simp only [hasTick] at ht
      simp only [ticked] at hsum
      have e : fcsRead cfg s b = s := by simp [fcsRead, hlink]
      obtain ⟨s', hs, hs2⟩ := ih s hq ht hlink hfcs hir hlr hpr hsum
      exact ⟨s', by simp only [steps, step, e]; exact hs, hs2⟩
    | tick ms d =>
      simp only [noConnectCommand] at hq
      simp only [ticked] at hsum
      obtain ⟨hA, hB, hC⟩ := clock_wide_inactive cfg s ms d hlink hfcs hir hlr hpr hrev
      by_cases hi : s.m_inactivityTimer.m_timeout ≤ s.m_inactivityTimer.m_timer + ms
      · obtain ⟨hu, hun⟩ := hA hi
        obtain ⟨s', hs, hs2, hs3⟩ := steps_unlinked_quiet cfg hw is _ hq hu
        exact ⟨s', by simp only [steps, step]; exact hs,
          fun _ => ⟨hs2, fun _ => by rw [hs3, hun]⟩⟩
      · have hi2 : s.m_inactivityTimer.m_timer + ms < s.m_inactivityTimer.m_timeout := by omega
        by_cases hl : s.m_lostTimer.m_timeout ≤ s.m_lostTimer.m_timer + ms
        · obtain ⟨hu, _⟩ := hB hi2 hl
          obtain ⟨s', hs, hs2, hs3⟩ := steps_unlinked_quiet cfg hw is _ hq hu
          exact ⟨s', by simp only [steps, step]; exact hs,
            fun _ => ⟨hs2, fun hc => by omega⟩⟩
        · obtain ⟨b1, b2, b3, b4, b5, b6⟩ := hC hi2 (by omega)
          have ht2 : hasTick is = true := ticked_pos_hasTick is (by omega)
          obtain ⟨s', hs, hs2⟩ := ih (clock cfg s ms d) hq ht2 b1 b2
            (by rw [b3]; exact hir) (by rw [b4]; exact hlr) b5
            (by rw [b3]; simp only; omega)
          have hp1 : s.m_out <+: (clock cfg s ms d).m_out :=
            step_trace cfg s _ (Input.tick ms d) rfl
          refine ⟨s', by simp only [steps, step]; exact hs, fun hr2 => ?_⟩
          have hr : reflectorWrites (clock cfg s ms d).m_out = reflectorWrites s.m_out :=
            filter_between _ _ _ _ hp1 (steps_trace cfg is _ s' hs) hr2
          obtain ⟨c1, c2⟩ := hs2 (by rw [hr2, hr])
          exact ⟨c1, fun hc => by rw [c2 (by rw [b3, b4]; simp only; omega), b6]⟩

/-- C5, counterexamples. With automatic connection, revert disabled and an inactivity
timeout of 60 seconds:
(1) the reachable state `exSilentWide` is linked to the wide network with the inactivity
timer running; two timer steps totalling 60 seconds with no frame in between end in
`LINK_NONE`, yet no unlink was sent: the lost-link timer expired in the first step,
before the inactivity timer;
(2) from the state right after the automatic connection, timer steps of 30 and 30
seconds with one repeater frame in between, a data-frame-mode frame carrying a menu
connect, which is not forwarded: no frame is written to a reflector, yet the link type is
`LINK_YSF` after every one of the three inputs and the inactivity timer still runs at the
end, the connect having restarted it. -/
theorem inactivity_scenario_counterexamples :
    (Reachable exConfStartup exSilentWide ∧ exConfStartup.revert = false ∧
      exSilentWide.m_linkType = LINK_TYPE.LINK_YSF ∧
      exSilentWide.m_inactivityTimer.isRunning = true ∧
      exSilentWide.m_inactivityTimer.m_timeout = 60 * 1000 ∧
      ticked [Input.tick 1000 exDirectory, Input.tick 59000 exDirectory] = 60 * 1000 ∧
      (steps exConfStartup exSilentWide
        [Input.tick 1000 exDirectory, Input.tick 59000 exDirectory]).map
          CYSFGateway.m_linkType = some LINK_TYPE.LINK_NONE ∧
      (steps exConfStartup exSilentWide
        [Input.tick 1000 exDirectory, Input.tick 59000 exDirectory]).map
          (fun q => unlinks q.m_out) = some (unlinks exSilentWide.m_out) ∧
      unlinks exSilentWide.m_out = []) ∧
    (Reachable exConfStartup (runStartup exConfStartup exDirectory) ∧
      (runStartup exConfStartup exDirectory).m_linkType = LINK_TYPE.LINK_YSF ∧
      (runStartup exConfStartup exDirectory).m_inactivityTimer.isRunning = true ∧
      (runStartup exConfStartup exDirectory).m_inactivityTimer.m_timeout = 60 * 1000 ∧
      ticked [Input.tick 30000 exDirectory, Input.rpt exConnectDataFrame,
        Input.tick 30000 exDirectory] = 60 * 1000 ∧
      (steps exConfStartup (runStartup exConfStartup exDirectory)
        [Input.tick 30000 exDirectory, Input.rpt exConnectDataFrame,
          Input.tick 30000 exDirectory]).map (fun q => reflectorWrites q.m_out) =
        some (reflectorWrites (runStartup exConfStartup exDirectory).m_out) ∧
      (steps exConfStartup (runStartup exConfStartup exDirectory)
        [Input.tick 30000 exDirectory]).map CYSFGateway.m_linkType =
        some LINK_TYPE.LINK_YSF ∧
      (steps exConfStartup (runStartup exConfStartup exDirectory)
        [Input.tick 30000 exDirectory, Input.rpt exConnectDataFrame]).map
          CYSFGateway.m_linkType = some LINK_TYPE.LINK_YSF ∧
      (steps exConfStartup (runStartup exConfStartup exDirectory)
        [Input.tick 30000 exDirectory, Input.rpt exConnectDataFrame,
          Input.tick 30000 exDirectory]).map CYSFGateway.m_linkType =
        some LINK_TYPE.LINK_YSF ∧
      (steps exConfStartup (runStartup exConfStartup exDirectory)
        [Input.tick 30000 exDirectory, Input.rpt exConnectDataFrame,
          Input.tick 30000 exDirectory]).map (fun q => q.m_inactivityTimer.isRunning) =
        some true) :=
  ⟨⟨exSilentWide_reachable, rfl, rfl, rfl, rfl, by decide, by decide, by decide, by decide⟩,
    ⟨⟨exDirectory, [], rfl⟩, by decide, by decide, by decide, by decide, by decide, by decide,
      by decide, by decide, by decide⟩⟩

/-- C5, amended. From a reachable state linked to the wide network with revert disabled
and the inactivity timer running, let the main loop meet any inputs (timer steps, frames
from the repeater, from the wide network and from FCS) among which there is a timer
step, whose timer steps together bring the inactivity timer to its timeout, and none of
whose repeater frames carries a connect command the gateway acts on. Then the loop runs
through them and, if it has written no repeater frame to a reflector meanwhile, ends in
`LINK_NONE` with both outbound destinations cleared and the three timers stopped; and
when the lost-link timer had at least as much time left as the inactivity timer, exactly
three unlinks were sent to the wide network meanwhile. -/
theorem inactivity_scenario (cfg : CConf) (s : CYSFGateway) (inputs : List Input)
    (hreach : Reachable cfg s) (hlink : s.m_linkType = LINK_TYPE.LINK_YSF)
    (hrev : cfg.revert = false) (hrun : s.m_inactivityTimer.isRunning = true)
    (hquiet : noConnectCommand cfg inputs = true) (htick : hasTick inputs = true)
    (hsum : s.m_inactivityTimer.m_timeout ≤ s.m_inactivityTimer.m_timer + ticked inputs) :
    ∃ s', steps cfg s inputs = some s' ∧
      (reflectorWrites s'.m_out = reflectorWrites s.m_out →
        (s'.m_linkType = LINK_TYPE.LINK_NONE ∧
          s'.m_ysfNetwork.m_destination = none ∧
          s'.m_fcsNetwork.m_destination = none ∧
          s'.m_inactivityTimer.isRunning = false ∧
          s'.m_lostTimer.isRunning = false ∧
          s'.m_ysfPollTimer.isRunning = false) ∧
        (s.m_inactivityTimer.m_timeout + s.m_lostTimer.m_timer ≤
            s.m_lostTimer.m_timeout + s.m_inactivityTimer.m_timer →
          unlinks s'.m_out =
            unlinks s.m_out ++
              [Event.ysfWriteUnlink, Event.ysfWriteUnlink, Event.ysfWriteUnlink])) := by
  have hi := inv_reachable cfg s hreach
  have hw := wide_reachable cfg s hreach hlink
  have hl : s.m_lostTimer.m_running = true := by rw [hi.lost, hlink]; decide
  have hp : s.m_ysfPollTimer.m_running = true := by rw [hi.poll, hlink]; decide
  exact steps_wide_inactive cfg hw hrev inputs s hquiet htick hlink
    (inv_fcs_cleared s hi (by rw [hlink]; decide)) hrun hl hp hsum

/-- Witness for `inactivity_scenario`: right after the automatic connection at startup
(inactivity timeout 60 seconds, lost-link timeout 120 seconds), the inputs of
`exQuietMinute`: two timer steps of 30 seconds with a frame from the wide network and a
repeater frame that is not forwarded in between. -/
theorem inactivity_scenario_witness :
    ∃ s', steps exConfStartup (runStartup exConfStartup exDirectory) exQuietMinute = some s' ∧
      (s'.m_linkType = LINK_TYPE.LINK_NONE ∧
        s'.m_ysfNetwork.m_destination = none ∧
        s'.m_fcsNetwork.m_destination = none ∧
        s'.m_inactivityTimer.isRunning = false ∧
        s'.m_lostTimer.isRunning = false ∧
        s'.m_ysfPollTimer.isRunning = false) ∧
      unlinks s'.m_out =
        unlinks (runStartup exConfStartup exDirectory).m_out ++
          [Event.ysfWriteUnlink, Event.ysfWriteUnlink, Event.ysfWriteUnlink] :=
  match inactivity_scenario exConfStartup (runStartup exConfStartup exDirectory)
    exQuietMinute ⟨exDirectory, [], rfl⟩ rfl rfl rfl rfl rfl (by decide) with
  | ⟨s', h1, h2⟩ =>
    have h3 : (steps exConfStartup (runStartup exConfStartup exDirectory) exQuietMinute).map
        (fun q => reflectorWrites q.m_out) =
        some (reflectorWrites (runStartup exConfStartup exDirectory).m_out) := by decide
    have hr : reflectorWrites s'.m_out =
        reflectorWrites (runStartup exConfStartup exDirectory).m_out := by
      rw [h1] at h3
      exact Option.some.inj h3
    ⟨s', h1, (h2 hr).1, (h2 hr).2 (by decide)⟩

/-! ## C6: the poll-retry heartbeat -/

theorem polls_lostLinkCalls (cfg : CConf) (out : List Event) :
    polls (out ++ lostLinkCalls cfg) = polls out := by
  cases hw : m_wiresX cfg <;>
    simp [polls, lostLinkCalls, hw, Event.isPoll, List.filter_cons]

theorem clock_not_wide_polls (cfg : CConf) (s : CYSFGateway) (ms : Nat)
    (directory : List Char → Option CYSFReflector) (hi : Inv s)
    (hlink : s.m_linkType ≠ LINK_TYPE.LINK_YSF) :
    polls (clock cfg s ms directory).m_out = polls s.m_out := by
  have hp : s.m_ysfPollTimer.m_running = false := by
    rw [hi.poll]; simpa using hlink
  have h1 := clockInactivity_not_ysf cfg s ms directory hlink
  generalize (clockInactivity cfg s ms directory).m_inactivityTimer = T at h1
  rw [clock, h1]
  by_cases hr : s.m_lostTimer.m_running = true
  · by_cases he : s.m_lostTimer.m_timeout ≤ s.m_lostTimer.m_timer + ms
    · have h2 := clockLost_fires cfg { s with m_inactivityTimer := T } ms hr he
      rw [h2, clockPoll_stopped _ ms (by simp [CTimer.stop])]
      exact polls_lostLinkCalls cfg _
    · have h2 := clockLost_pending cfg { s with m_inactivityTimer := T } ms
        (by simpa using he)
      rw [h2, clockPoll_stopped _ ms (by simpa using hp)]
  · have h2 := clockLost_stopped cfg { s with m_inactivityTimer := T } ms (by simpa using hr)
    rw [h2, clockPoll_stopped _ ms (by simpa using hp)]

/-- C6. In every reachable state the poll-retry timer has a timeout of 5 seconds and runs
exactly while linked to the wide network. In a timer step taken while linked to the wide
network in which neither the inactivity nor the lost-link timer expires, the state
stays linked (and reachable, so this repeats); when the time accumulated on the
poll-retry timer reaches 5 seconds exactly one poll is sent and the timer restarts from
zero, otherwise nothing is sent and the time accumulates. Whatever the state, the
poll-retry block sends exactly one poll and restarts the timer when it finds the running
timer expired. In any other link state a timer step sends no poll. -/
theorem poll_retry (cfg : CConf) (s : CYSFGateway) (ms : Nat)
    (directory : List Char → Option CYSFReflector) (hreach : Reachable cfg s) :
    (s.m_ysfPollTimer.m_timeout = 5 * 1000 ∧
      (s.m_ysfPollTimer.isRunning = true ↔ s.m_linkType = LINK_TYPE.LINK_YSF)) ∧
    (s.m_linkType = LINK_TYPE.LINK_YSF →
      (s.m_inactivityTimer.isRunning = true →
        s.m_inactivityTimer.m_timer + ms < s.m_inactivityTimer.m_timeout) →
      s.m_lostTimer.m_timer + ms < s.m_lostTimer.m_timeout →
      (clock cfg s ms directory).m_linkType = LINK_TYPE.LINK_YSF ∧
      Reachable cfg (clock cfg s ms directory) ∧
      (5 * 1000 ≤ s.m_ysfPollTimer.m_timer + ms →
        (clock cfg s ms directory).m_out = s.m_out ++ [Event.ysfWritePoll] ∧
        (clock cfg s ms directory).m_ysfPollTimer.isRunning = true ∧
        (clock cfg s ms directory).m_ysfPollTimer.m_timer = 0) ∧
      (s.m_ysfPollTimer.m_timer + ms < 5 * 1000 →
        (clock cfg s ms directory).m_out = s.m_out ∧
        (clock cfg s ms directory).m_ysfPollTimer.isRunning = true ∧
        (clock cfg s ms directory).m_ysfPollTimer.m_timer = s.m_ysfPollTimer.m_timer + ms)) ∧
    (∀ q : CYSFGateway, q.m_ysfPollTimer.isRunning = true →
      (q.m_ysfPollTimer.clock ms).hasExpired = true →
      clockPoll q ms =
        { q with m_ysfPollTimer := { q.m_ysfPollTimer with m_timer := 0, m_running := true },
                 m_out := q.m_out ++ [Event.ysfWritePoll] }) ∧
    (s.m_linkType ≠ LINK_TYPE.LINK_YSF →
      polls (clock cfg s ms directory).m_out = polls s.m_out) := by
  have hi := inv_reachable cfg s hreach
  have ht := timeouts_reachable cfg s hreach
  refine ⟨⟨ht.2.2, ?_⟩, ?_, ?_, clock_not_wide_polls cfg s ms directory hi⟩
  · show s.m_ysfPollTimer.m_running = true ↔ _
    rw [hi.poll]; simp
  · intro hlink hin hl
    have hpr : s.m_ysfPollTimer.m_running = true := by rw [hi.poll, hlink]; decide
    have hlr : s.m_lostTimer.m_running = true := by rw [hi.lost, hlink]; decide
    have h1 := clockInactivity_pending cfg s ms directory hin
    have h2 := clockLost_pending cfg { s with m_inactivityTimer := s.m_inactivityTimer.clock ms }
      ms hl
    have hr : Reachable cfg (clock cfg s ms directory) :=
      reachable_step cfg s _ (Input.tick ms directory) hreach rfl
    refine ⟨?_, hr, ?_, ?_⟩
    · rw [clock, h1, h2]
      by_cases hp : s.m_ysfPollTimer.m_timeout ≤ s.m_ysfPollTimer.m_timer + ms
      · rw [clockPoll_fires _ ms (by simpa using hpr) (by simpa using hp)]
        exact hlink
      · rw [clockPoll_pending _ ms (by simpa using hp)]
        exact hlink
    · intro hp
      rw [← ht.2.2] at hp
      rw [clock, h1, h2, clockPoll_fires _ ms (by simpa using hpr) (by simpa using hp)]
      simp [CTimer.start, CTimer.isRunning]
    · intro hp
      rw [← ht.2.2] at hp
      rw [clock, h1, h2, clockPoll_pending _ ms (by simpa using hp)]
      simp [CTimer.clock, CTimer.isRunning, hpr]
  · intro q hq1 hq2
    have hq1' : q.m_ysfPollTimer.m_running = true := hq1
    have hq2' : q.m_ysfPollTimer.m_timeout ≤ q.m_ysfPollTimer.m_timer + ms := by
      simpa [CTimer.hasExpired, CTimer.clock, hq1'] using hq2
    rw [clockPoll_fires q ms hq1' hq2']
    simp [CTimer.start, CTimer.clock, hq1']

/-- Witness for `poll_retry`: right after the automatic connection at startup, a timer
step of five seconds sends one poll and a step of one second none; a state linked to FCS
sends none. -/
theorem poll_retry_witness :
    ((clock exConfStartup (runStartup exConfStartup exDirectory) 5000 exDirectory).m_out =
        (runStartup exConfStartup exDirectory).m_out ++ [Event.ysfWritePoll] ∧
      (clock exConfStartup (runStartup exConfStartup exDirectory) 5000
        exDirectory).m_ysfPollTimer.isRunning = true ∧
      (clock exConfStartup (runStartup exConfStartup exDirectory) 5000
        exDirectory).m_ysfPollTimer.m_timer = 0) ∧
    polls (clock exConf exLinkedFCS 5000 exDirectory).m_out = polls exLinkedFCS.m_out :=
  ⟨((poll_retry exConfStartup (runStartup exConfStartup exDirectory) 5000 exDirectory
      ⟨exDirectory, [], rfl⟩).2.1 rfl (by decide) (by decide)).2.2.1 (by decide),
   (poll_retry exConf exLinkedFCS 5000 exDirectory exLinkedFCS_reachable).2.2.2 (by decide)⟩

/-! ## C7: disconnect while not linked -/

/-- C7. With link type `LINK_NONE`, a disconnect decision of the menu-command decoder
(`processWiresX`) and a disconnect decision of the tone-sequence decoder
(`processDTMF`) both leave the gateway exactly as it was: nothing is added to the trace,
no destination, timer or link type changes. -/
theorem disconnect_when_unlinked (cfg : CConf) (s : CYSFGateway) (f : RptFrame)
    (hlink : s.m_linkType = LINK_TYPE.LINK_NONE)
    (hw : f.wxProcess = WX_STATUS.WXS_DISCONNECT)
    (hd : f.decodeVDMode2 = WX_STATUS.WXS_DISCONNECT) :
    processWiresX s f.wxProcess f.wxReflector = s ∧
    processDTMF cfg s f YSF_DT_VD_MODE2 = some s := by
  obtain ⟨link, ex, ti, tl, tp, ny, nf, out⟩ := s
  simp only at hlink
  subst hlink
  simp [processWiresX, processDTMF, processDTMFStatus, hw, hd]

/-- Witness for `disconnect_when_unlinked`: the initial state without startup reflector
and a frame for which both decoders answer disconnect. -/
theorem disconnect_when_unlinked_witness :
    processWiresX (runStartup exConf exDirectory) WX_STATUS.WXS_DISCONNECT exReflector =
      runStartup exConf exDirectory ∧
    processDTMF exConf (runStartup exConf exDirectory)
      { exFrame WX_STATUS.WXS_DISCONNECT [] with wxProcess := WX_STATUS.WXS_DISCONNECT }
      YSF_DT_VD_MODE2 = some (runStartup exConf exDirectory) :=
  disconnect_when_unlinked exConf (runStartup exConf exDirectory)
    { exFrame WX_STATUS.WXS_DISCONNECT [] with wxProcess := WX_STATUS.WXS_DISCONNECT }
    rfl rfl rfl

/-! ## C8 and C9: the FCS identifier -/

theorem fcsReflector_two (rodata : List Char) (d0 d1 : Char) :
    fcsReflector rodata [d0, d1] =
      some (cString (fcsImage rodata) d0.toNat ++ ['0', d1]) := by
  simp [fcsReflector]

theorem fcsReflector_three (rodata : List Char) (d0 d1 d2 : Char) :
    fcsReflector rodata [d0, d1, d2] =
      some (cString (fcsImage rodata) (d0.toNat + d1.toNat + d2.toNat)) := by
  simp [fcsReflector]

theorem cString_succ (image : List Char) (n : Nat) (c : Char) (rest : List Char)
    (h : cString image n = c :: rest) : cString image (n + 1) = rest := by
  unfold cString at h ⊢
  cases hd : image.drop n with
  | nil => rw [hd] at h; simp at h
  | cons x xs =>
    rw [hd] at h
    have hx : List.drop (n + 1) image = xs := by
      have := congrArg List.tail hd
      simpa [List.tail_drop] using this
    rw [hx]
    by_cases hx0 : (x != Char.ofNat 0) = true
    · simp only [List.takeWhile_cons, hx0, if_true] at h
      exact (List.cons.inj h).2
    · simp only [List.takeWhile_cons, hx0] at h
      cases h

/-- C8, counterexample. With nothing readable after the literal, the identifier built
from the digits `73` is `03`; and whatever follows the literal in memory, that identifier
ends in `03`, so it is neither `FCS0073` nor the eight-character `FCS00073`. -/
theorem fcs_identifier_73_not_zero_padded :
    fcsReflector [] ['7', '3'] = some ['0', '3'] ∧
    fcsReflector [] ['1', '2', '3'] = some [] ∧
    (∀ rodata : List Char,
      fcsReflector rodata ['7', '3'] ≠ some ['F', 'C', 'S', '0', '0', '7', '3'] ∧
      fcsReflector rodata ['7', '3'] ≠ some ['F', 'C', 'S', '0', '0', '0', '7', '3']) := by
  refine ⟨by decide, by decide, fun rodata => ⟨?_, ?_⟩⟩ <;>
  · rw [fcsReflector_two]
    intro h
    have h2 := congrArg List.reverse (Option.some.inj h)
    simp at h2

/-- C8, amended. The identifier built from the digits `73` ends in `03` (the branch
appends `0` and then the second digit to what the first operand yields), and the
identifier built, for `73` as for `123`, is the one carried by each of the three link
sends, which follow the unlinks of the previous link. -/
theorem fcs_identifier_passed_to_link (cfg : CConf) (s : CYSFGateway)
    (directory : List Char → Option CYSFReflector) (rodata : List Char) :
    (∃ pre, fcsReflector rodata ['7', '3'] = some (pre ++ ['0', '3'])) ∧
    (∃ fid s', fcsReflector rodata ['7', '3'] = some fid ∧
      processDTMFStatus cfg s WX_STATUS.WXS_CONNECT_FCS ['7', '3'] directory rodata = some s' ∧
      s'.m_out = s.m_out ++ unlinkBeforeFCS s.m_linkType ++
        [Event.fcsWriteLink fid, Event.fcsWriteLink fid, Event.fcsWriteLink fid]) ∧
    (∃ fid s', fcsReflector rodata ['1', '2', '3'] = some fid ∧
      processDTMFStatus cfg s WX_STATUS.WXS_CONNECT_FCS ['1', '2', '3'] directory rodata =
        some s' ∧
      s'.m_out = s.m_out ++ unlinkBeforeFCS s.m_linkType ++
        [Event.fcsWriteLink fid, Event.fcsWriteLink fid, Event.fcsWriteLink fid]) := by
  have key : ∀ code fid, fcsReflector rodata code = some fid →
      ∃ s', processDTMFStatus cfg s WX_STATUS.WXS_CONNECT_FCS code directory rodata = some s' ∧
        s'.m_out = s.m_out ++ unlinkBeforeFCS s.m_linkType ++
          [Event.fcsWriteLink fid, Event.fcsWriteLink fid, Event.fcsWriteLink fid] := by
    intro code fid hf
    obtain ⟨link, ex, ti, tl, tp, ny, nf, out⟩ := s
    cases link <;>
      simp [processDTMFStatus, hf, unlinkBeforeFCS, CYSFGateway.fcsWriteLink,
        CYSFGateway.ysfWriteUnlink, CYSFGateway.fcsWriteUnlink,
        CYSFGateway.ysfClearDestination, CYSFGateway.emit]
  refine ⟨⟨_, fcsReflector_two rodata '7' '3'⟩, ?_, ?_⟩
  · obtain ⟨s', h1, h2⟩ := key _ _ (fcsReflector_two rodata '7' '3')
    exact ⟨_, s', fcsReflector_two rodata '7' '3', h1, h2⟩
  · obtain ⟨s', h1, h2⟩ := key _ _ (fcsReflector_three rodata '1' '2' '3')
    exact ⟨_, s', fcsReflector_three rodata '1' '2' '3', h1, h2⟩

/-- C9. What the FCS connect branch computes. For two digits the identifier is the C
string found `d0` bytes after the start of the literal `"FCS00"`, followed by `0` and
`d1`; for three digits it is the C string found `d0 + d1 + d2` bytes after the start of
the literal. So: with nothing readable after the literal the identifiers for `73` and
`123` have 2 and 0 characters; the digits `123` and `321` give the same identifier
whatever the memory holds; and whatever the memory holds, the identifiers for `03` and
`13` cannot both have 8 characters. -/
theorem fcs_identifier_pointer_arithmetic :
    (∀ (rodata : List Char) (d0 d1 : Char), fcsReflector rodata [d0, d1] =
      some (cString (fcsImage rodata) d0.toNat ++ ['0', d1])) ∧
    (∀ (rodata : List Char) (d0 d1 d2 : Char), fcsReflector rodata [d0, d1, d2] =
      some (cString (fcsImage rodata) (d0.toNat + d1.toNat + d2.toNat))) ∧
    (fcsReflector [] ['7', '3']).map List.length = some 2 ∧
    (fcsReflector [] ['1', '2', '3']).map List.length = some 0 ∧
    (∀ rodata : List Char,
      fcsReflector rodata ['1', '2', '3'] = fcsReflector rodata ['3', '2', '1']) ∧
    (∀ rodata : List Char,
      ¬ ((fcsReflector rodata ['0', '3']).map List.length = some 8 ∧
         (fcsReflector rodata ['1', '3']).map List.length = some 8)) := by
  refine ⟨fcsReflector_two, fcsReflector_three, by decide, by decide, ?_, ?_⟩
  · intro rodata
    rw [fcsReflector_three, fcsReflector_three]
    rfl
  · intro rodata
    rw [fcsReflector_two, fcsReflector_two]
    simp only [Option.map_some', Option.some.injEq, List.length_append, List.length_cons,
      List.length_nil]
    rintro ⟨h0, h1⟩
    cases hc : cString (fcsImage rodata) ('0' : Char).toNat with
    | nil => rw [hc] at h0; simp at h0
    | cons c rest =>
      have hs := cString_succ (fcsImage rodata) ('0' : Char).toNat c rest hc
      have h48 : ('1' : Char).toNat = ('0' : Char).toNat + 1 := by decide
      rw [h48, hs] at h1
      rw [hc] at h0
      simp at h0 h1
      omega

/-! ## C10: connect requests the directory cannot resolve -/

/-- C10. A connect request naming an identifier the directory does not know. At startup
the gateway ends in the same state as with no startup reflector configured. For a
tone-sequence connect to the wide network: when the directory collaborator exists the
gateway state is returned unchanged (nothing sent, no timer, destination or link type
changed); when it does not exist (wide network disabled) the lookup dereferences the
null `m_wiresX` and the program ends instead of ignoring the request. -/
theorem unresolved_connect (cfg : CConf) (s : CYSFGateway) (id rodata : List Char)
    (directory : List Char → Option CYSFReflector)
    (hid : directory id = none) (hstartup : directory cfg.startup = none) :
    runStartup cfg directory = runStartup { cfg with startup := [] } directory ∧
    (m_wiresX cfg = true →
      processDTMFStatus cfg s WX_STATUS.WXS_CONNECT_YSF id directory rodata = some s) ∧
    (m_wiresX cfg = false →
      processDTMFStatus cfg s WX_STATUS.WXS_CONNECT_YSF id directory rodata = none) := by
  refine ⟨?_, ?_, ?_⟩
  · unfold runStartup
    cases hE : cfg.ysfNetworkEnabled <;> simp [hstartup]
  · intro hw
    simp [processDTMFStatus, hw, hid]
  · intro hw
    simp [processDTMFStatus, hw]

/-- Witness for `unresolved_connect`: the digits `99999`, unknown to the example
directory, keyed in while the wide network is disabled, and the same with it enabled. -/
theorem unresolved_connect_witness :
    steps exConfFcsOnly (runStartup exConfFcsOnly exDirectory)
      [Input.rpt (exFrame WX_STATUS.WXS_CONNECT_FCS ['1', '2', '3'])] = some exLinkedFCS ∧
    processDTMFStatus exConfFcsOnly exLinkedFCS WX_STATUS.WXS_CONNECT_YSF
      ['9', '9', '9', '9', '9'] exDirectory [] = none ∧
    rptRead exConfFcsOnly exLinkedFCS
      (exFrame WX_STATUS.WXS_CONNECT_YSF ['9', '9', '9', '9', '9']) = none ∧
    processDTMFStatus exConf exLinkedFCS WX_STATUS.WXS_CONNECT_YSF
      ['9', '9', '9', '9', '9'] exDirectory [] = some exLinkedFCS :=
  ⟨by decide,
   (unresolved_connect exConfFcsOnly exLinkedFCS ['9', '9', '9', '9', '9'] [] exDirectory
      (by decide) (by decide)).2.2 rfl,
   by decide,
   (unresolved_connect exConf exLinkedFCS ['9', '9', '9', '9', '9'] [] exDirectory
      (by decide) (by decide)).2.1 rfl⟩

/-! ## C11: the state after a tone-sequence FCS connect -/

theorem fcsReflector_isSome (rodata id : List Char) (h : 2 ≤ id.length) :
    ∃ fid, fcsReflector rodata id = some fid := by
  match id, h with
  | [a, b], _ => exact ⟨_, fcsReflector_two rodata a b⟩
  | a :: b :: c :: rest, _ =>
    refine ⟨cString (fcsImage rodata) (a.toNat + b.toNat + c.toNat), ?_⟩
    simp [fcsReflector]

theorem processDTMFStatus_fcs (cfg : CConf) (s : CYSFGateway) (id fid rodata : List Char)
    (directory : List Char → Option CYSFReflector) (hi : Inv s)
    (hf : fcsReflector rodata id = some fid) :
    ∃ s', processDTMFStatus cfg s WX_STATUS.WXS_CONNECT_FCS id directory rodata = some s' ∧
      s'.m_linkType = LINK_TYPE.LINK_FCS ∧
      s'.m_inactivityTimer.isRunning = true ∧ s'.m_inactivityTimer.m_timer = 0 ∧
      s'.m_lostTimer.isRunning = true ∧ s'.m_lostTimer.m_timer = 0 ∧
      s'.m_ysfPollTimer.isRunning = false ∧
      s'.m_ysfNetwork.m_destination = none ∧
      s'.m_exclude = s.m_exclude := by
  rw [Inv_iff] at hi
  obtain ⟨link, ex, ti, tl, tp, ⟨ny⟩, nf, out⟩ := s
  cases link <;>
    simp_all [processDTMFStatus, CYSFGateway.fcsWriteLink, CYSFGateway.ysfWriteUnlink,
      CYSFGateway.fcsWriteUnlink, CYSFGateway.ysfClearDestination, CYSFGateway.emit,
      CTimer.start, CTimer.stop, CTimer.isRunning]

/-- C11. From every reachable state (whatever its link type), handling a tone-sequence
FCS connect decision for a decoded code of at least two digits succeeds and leaves: link
type `LINK_FCS`, the inactivity and lost-link timers running with elapsed time zero, the
poll-retry timer not running, and the wide-network destination cleared. The same holds
after the whole frame that carried the decision has been processed, whatever the
menu-command decoder answered for it. -/
theorem fcs_connect_state (cfg : CConf) (s : CYSFGateway) (f : RptFrame) (fich : CYSFFICH)
    (hreach : Reachable cfg s) (hlen : 2 ≤ f.dtmfReflector.length)
    (hfich : f.fich = some fich) (hdt : fich.dt = YSF_DT_VD_MODE2)
    (hd : f.decodeVDMode2 = WX_STATUS.WXS_CONNECT_FCS) :
    (∃ s', processDTMF cfg s f fich.dt = some s' ∧
      s'.m_linkType = LINK_TYPE.LINK_FCS ∧
      s'.m_inactivityTimer.isRunning = true ∧ s'.m_inactivityTimer.m_timer = 0 ∧
      s'.m_lostTimer.isRunning = true ∧ s'.m_lostTimer.m_timer = 0 ∧
      s'.m_ysfPollTimer.isRunning = false ∧
      s'.m_ysfNetwork.m_destination = none) ∧
    (∃ s', rptRead cfg s f = some s' ∧
      s'.m_linkType = LINK_TYPE.LINK_FCS ∧
      s'.m_inactivityTimer.isRunning = true ∧ s'.m_inactivityTimer.m_timer = 0 ∧
      s'.m_lostTimer.isRunning = true ∧ s'.m_lostTimer.m_timer = 0 ∧
      s'.m_ysfPollTimer.isRunning = false ∧
      s'.m_ysfNetwork.m_destination = none) := by
  have hi := inv_reachable cfg s hreach
  obtain ⟨fid, hf⟩ := fcsReflector_isSome f.rodata f.dtmfReflector hlen
  constructor
  · obtain ⟨s', h1, h2⟩ := processDTMFStatus_fcs cfg s _ fid f.rodata f.directory hi hf
    refine ⟨s', ?_, h2.1, h2.2.1, h2.2.2.1, h2.2.2.2.1, h2.2.2.2.2.1, h2.2.2.2.2.2.1,
      h2.2.2.2.2.2.2.1⟩
    simpa [processDTMF, hdt, hd] using h1
  · have h1 : Inv { s with m_exclude := decide (fich.dt = YSF_DT_DATA_FR_MODE) } := by
      rw [Inv_iff] at hi ⊢; exact hi
    have h2 : Inv (if m_wiresX cfg = true then
        processWiresX { s with m_exclude := decide (fich.dt = YSF_DT_DATA_FR_MODE) }
          f.wxProcess f.wxReflector
        else { s with m_exclude := decide (fich.dt = YSF_DT_DATA_FR_MODE) }) := by
      split
      · exact inv_processWiresX _ _ _ h1
      · exact h1
    obtain ⟨q, hq, hq2⟩ := processDTMFStatus_fcs cfg _ _ fid f.rodata f.directory h2 hf
    have hc : rptCommands cfg s f = some q := by
      simpa [rptCommands, hfich, processDTMF, hdt, hd] using hq
    refine ⟨rptForward cfg q f.buffer, by simp [rptRead, hc], ?_⟩
    obtain ⟨link, ex, ⟨ips, ito, it, ir⟩, tl, tp, ny, nf, out⟩ := q
    obtain ⟨e1, e2, e3, e4, e5, e6, e7, _⟩ := hq2
    simp only [CTimer.isRunning] at e1 e2 e3 e4 e5 e6 e7
    subst e1 e2 e3
    unfold rptForward
    simp only [CTimer.isRunning]
    split_ifs <;> simp_all [CYSFGateway.emit, CTimer.start]

/-- Witness for `fcs_connect_state`: the digits `123` keyed in while linked to the wide
network after the automatic connection at startup. -/
theorem fcs_connect_state_witness :
    ∃ s', rptRead exConfStartup (runStartup exConfStartup exDirectory)
        (exFrame WX_STATUS.WXS_CONNECT_FCS ['1', '2', '3']) = some s' ∧
      s'.m_linkType = LINK_TYPE.LINK_FCS ∧
      s'.m_inactivityTimer.isRunning = true ∧ s'.m_inactivityTimer.m_timer = 0 ∧
      s'.m_lostTimer.isRunning = true ∧ s'.m_lostTimer.m_timer = 0 ∧
      s'.m_ysfPollTimer.isRunning = false ∧
      s'.m_ysfNetwork.m_destination = none :=
  (fcs_connect_state exConfStartup (runStartup exConfStartup exDirectory)
    (exFrame WX_STATUS.WXS_CONNECT_FCS ['1', '2', '3']) { fi := 1, dt := 2, fn := 0, ft := 0 }
    ⟨exDirectory, [], rfl⟩ (by decide) rfl rfl rfl).2

/-! ## C12: the inactivity revert -/

theorem clockInactivity_revert (cfg : CConf) (s : CYSFGateway) (ms : Nat)
    (directory : List Char → Option CYSFReflector) (r : CYSFReflector)
    (hlink : s.m_linkType = LINK_TYPE.LINK_YSF)
    (hrun : s.m_inactivityTimer.m_running = true)
    (hexp : s.m_inactivityTimer.m_timeout ≤ s.m_inactivityTimer.m_timer + ms)
    (hrev : cfg.revert = true) (hs : cfg.startup ≠ []) (hw : m_wiresX cfg = true)
    (hd : directory cfg.startup = some r) :
    clockInactivity cfg s ms directory =
      { s with m_inactivityTimer := (s.m_inactivityTimer.clock ms).stop,
               m_lostTimer := s.m_lostTimer.start,
               m_ysfPollTimer := s.m_ysfPollTimer.start,
               m_ysfNetwork := { m_destination := some (r.m_address, r.m_port) },
               m_out := s.m_out ++ revertCalls r } := by
  obtain ⟨link, ex, ⟨ips, ito, it, ir⟩, tl, tp, ny, nf, out⟩ := s
  simp only at hlink hrun hexp
  subst hlink hrun
  simp [clockInactivity, revertCalls, hw, hrev, hs, hd, CTimer.clock, CTimer.isRunning,
    CTimer.hasExpired, hexp, CYSFGateway.ysfWriteUnlink, CYSFGateway.ysfSetDestination,
    CYSFGateway.ysfWritePoll, CYSFGateway.emit, CTimer.stop, CTimer.start]

theorem runStartup_connected (cfg : CConf) (directory : List Char → Option CYSFReflector)
    (r : CYSFReflector) (hrev : cfg.revert = true) (hs : cfg.startup ≠ [])
    (hw : m_wiresX cfg = true) (hd : directory cfg.startup = some r) :
    runStartup cfg directory =
      { m_linkType := LINK_TYPE.LINK_YSF,
        m_exclude := false,
        m_inactivityTimer :=
          { m_ticksPerSec := 1000, m_timeout := cfg.inactivityTimeout * 60 % 2 ^ 32 * 1000,
            m_timer := 0, m_running := false },
        m_lostTimer :=
          { m_ticksPerSec := 1000, m_timeout := 120 * 1000, m_timer := 0, m_running := true },
        m_ysfPollTimer :=
          { m_ticksPerSec := 1000, m_timeout := 5 * 1000, m_timer := 0, m_running := true },
        m_ysfNetwork := { m_destination := some (r.m_address, r.m_port) },
        m_fcsNetwork := { m_destination := none },
        m_out := pollsAfterDestination r } := by
  have hw' : cfg.ysfNetworkEnabled = true := hw
  simp [runStartup, hw', hs, hd, hrev, pollsAfterDestination, CYSFGateway.new, CTimer.new,
    CTimer.setTimeout, CTimer.start, CYSFGateway.ysfSetDestination, CYSFGateway.ysfWritePoll,
    CYSFGateway.emit]

/-- C12. In a reachable state linked to the wide network, when the running inactivity
timer expires in a timer step while revert is enabled and the configured startup
identifier resolves in the directory, the inactivity block informs the directory
collaborator, sends three unlinks, sets the wide destination to the startup reflector
and sends three polls (in this order), restarts the lost-link and poll-retry timers,
leaves the inactivity timer stopped and the link type `LINK_YSF`. Link type, both
destinations, and running flag, elapsed time and timeout of the lost-link and poll-retry
timers are then equal to those of the state produced by the automatic connection at
startup with revert enabled, and the inactivity timer is stopped with the same timeout
in both. -/
theorem inactivity_revert (cfg : CConf) (s : CYSFGateway) (ms : Nat)
    (directory : List Char → Option CYSFReflector) (r : CYSFReflector)
    (hreach : Reachable cfg s) (hlink : s.m_linkType = LINK_TYPE.LINK_YSF)
    (hrun : s.m_inactivityTimer.isRunning = true)
    (hexp : (s.m_inactivityTimer.clock ms).hasExpired = true)
    (hrev : cfg.revert = true) (hs : cfg.startup ≠ [])
    (hd : directory cfg.startup = some r) :
    (clockInactivity cfg s ms directory).m_out = s.m_out ++ revertCalls r ∧
    (clockInactivity cfg s ms directory).m_ysfNetwork.m_destination =
      some (r.m_address, r.m_port) ∧
    (clockInactivity cfg s ms directory).m_lostTimer.isRunning = true ∧
    (clockInactivity cfg s ms directory).m_lostTimer.m_timer = 0 ∧
    (clockInactivity cfg s ms directory).m_ysfPollTimer.isRunning = true ∧
    (clockInactivity cfg s ms directory).m_ysfPollTimer.m_timer = 0 ∧
    (clockInactivity cfg s ms directory).m_inactivityTimer.isRunning = false ∧
    (clockInactivity cfg s ms directory).m_linkType = LINK_TYPE.LINK_YSF ∧
    ((clockInactivity cfg s ms directory).m_linkType = (runStartup cfg directory).m_linkType ∧
      (clockInactivity cfg s ms directory).m_ysfNetwork =
        (runStartup cfg directory).m_ysfNetwork ∧
      (clockInactivity cfg s ms directory).m_fcsNetwork =
        (runStartup cfg directory).m_fcsNetwork ∧
      (clockInactivity cfg s ms directory).m_lostTimer.isRunning =
        (runStartup cfg directory).m_lostTimer.isRunning ∧
      (clockInactivity cfg s ms directory).m_lostTimer.m_timer =
        (runStartup cfg directory).m_lostTimer.m_timer ∧
      (clockInactivity cfg s ms directory).m_lostTimer.m_timeout =
        (runStartup cfg directory).m_lostTimer.m_timeout ∧
      (clockInactivity cfg s ms directory).m_ysfPollTimer.isRunning =
        (runStartup cfg directory).m_ysfPollTimer.isRunning ∧
      (clockInactivity cfg s ms directory).m_ysfPollTimer.m_timer =
        (runStartup cfg directory).m_ysfPollTimer.m_timer ∧
      (clockInactivity cfg s ms directory).m_ysfPollTimer.m_timeout =
        (runStartup cfg directory).m_ysfPollTimer.m_timeout ∧
      (clockInactivity cfg s ms directory).m_inactivityTimer.isRunning =
        (runStartup cfg directory).m_inactivityTimer.isRunning ∧
      (clockInactivity cfg s ms directory).m_inactivityTimer.m_timeout =
        (runStartup cfg directory).m_inactivityTimer.m_timeout) := by
  have hi := inv_reachable cfg s hreach
  have hf := inv_fcs_cleared s hi (by rw [hlink]; decide)
  have ht := timeouts_reachable cfg s hreach
  have hw := wide_reachable cfg s hreach hlink
  have hrun' : s.m_inactivityTimer.m_running = true := hrun
  have hexp' : s.m_inactivityTimer.m_timeout ≤ s.m_inactivityTimer.m_timer + ms := by
    simpa [CTimer.hasExpired, CTimer.clock, hrun'] using hexp
  rw [clockInactivity_revert cfg s ms directory r hlink hrun' hexp' hrev hs hw hd,
    runStartup_connected cfg directory r hrev hs hw hd]
  obtain ⟨link, ex, ⟨ips, ito, it, ir⟩, ⟨lps, lto, lt, lr⟩, ⟨pps, pto, pt, pr⟩, ny, ⟨nf⟩, out⟩ :=
    s
  obtain ⟨t1, t2, t3⟩ := ht
  simp only at t1 t2 t3 hf hlink
  subst t1 t2 t3 hf hlink
  simp [CTimer.start, CTimer.stop, CTimer.clock, CTimer.isRunning]
  split <;> rfl

theorem exRevertLinked_reachable : Reachable exConfRevert exRevertLinked :=
  ⟨exDirectory,
    [Input.rpt { exFrame WX_STATUS.WXS_NONE [] with
      wxProcess := WX_STATUS.WXS_CONNECT_YSF, wxReflector := exReflector2 }],
    by decide⟩

/-- Witness for `inactivity_revert`: with revert enabled, a menu-command connect to a
second reflector starts the inactivity timer; sixty seconds later the gateway reverts to
the startup reflector. -/
theorem inactivity_revert_witness :
    (clockInactivity exConfRevert exRevertLinked 60000 exDirectory).m_out =
      exRevertLinked.m_out ++ revertCalls exReflector ∧
    (clockInactivity exConfRevert exRevertLinked 60000 exDirectory).m_ysfNetwork =
      (runStartup exConfRevert exDirectory).m_ysfNetwork ∧
    (clockInactivity exConfRevert exRevertLinked 60000 exDirectory).m_linkType =
      LINK_TYPE.LINK_YSF :=
  have h := inactivity_revert exConfRevert exRevertLinked 60000 exDirectory exReflector
    exRevertLinked_reachable rfl rfl (by decide) rfl (by decide) rfl
  ⟨h.1, h.2.2.2.2.2.2.2.2.2.1, h.2.2.2.2.2.2.2.1⟩

/-! ## C13: the forwarding rule for repeater frames -/

/-- C13, counterexample. (a) With the FCS network disabled in the configuration, a
tone-sequence FCS connect still links to FCS; the next live voice frame (marker `YSFD`,
not excluded) is then not relayed to the FCS adapter. (b) With the FCS network enabled
and linked to FCS, a frame without the marker is not relayed and does not restart the
inactivity timer, whereas the same frame met while linked to the wide network is
relayed to the wide-network adapter. -/
theorem fcs_relay_needs_enabled_and_marker :
    (∃ s q, steps exConfWideOnly (runStartup exConfWideOnly exDirectory)
        [Input.rpt (exFrame WX_STATUS.WXS_CONNECT_FCS ['1', '2', '3'])] = some s ∧
      rptCommands exConfWideOnly s (exFrame WX_STATUS.WXS_NONE []) = some q ∧
      q.m_linkType = LINK_TYPE.LINK_FCS ∧ q.m_exclude = false ∧
      isYSFD (exFrame WX_STATUS.WXS_NONE []).buffer = true ∧
      (rptForward exConfWideOnly q (exFrame WX_STATUS.WXS_NONE []).buffer).m_out = q.m_out) ∧
    (rptCommands exConf exLinkedFCS exUnmarkedFrame = some exLinkedFCS ∧
      exLinkedFCS.m_linkType = LINK_TYPE.LINK_FCS ∧ exLinkedFCS.m_exclude = false ∧
      rptForward exConf exLinkedFCS exUnmarkedFrame.buffer = exLinkedFCS ∧
      (rptForward exConfStartup (runStartup exConfStartup exDirectory)
        exUnmarkedFrame.buffer).m_out =
        (runStartup exConfStartup exDirectory).m_out ++
          [Event.ysfWrite exUnmarkedFrame.buffer]) :=
  ⟨⟨_, _, rfl, rfl, by decide⟩, by decide⟩

/-- C13, amended. For the state `q` in force after the command processing of a repeater
frame (in a reachable state): the frame is written to the wide-network adapter if and
only if the link is `LINK_YSF` and the exclusion flag is false, marker or not; it is
written to the FCS adapter if and only if the FCS network is enabled, the link is
`LINK_FCS`, the exclusion flag is false and the frame starts with `YSFD`; the inactivity
timer is restarted exactly when a frame written to an adapter starts with `YSFD`, and is
otherwise left as it is; the only other call is the reset of the tone-sequence decoder
at the end of a transmission. -/
theorem forwarding_rule (cfg : CConf) (s q : CYSFGateway) (f : RptFrame)
    (hreach : Reachable cfg s) (hq : rptCommands cfg s f = some q) :
    (rptForward cfg q f.buffer).m_out =
      q.m_out ++
        (if q.m_linkType = LINK_TYPE.LINK_YSF ∧ q.m_exclude = false then
          [Event.ysfWrite f.buffer] else []) ++
        (if cfg.fcsNetworkEnabled = true ∧ q.m_linkType = LINK_TYPE.LINK_FCS ∧
            q.m_exclude = false ∧ isYSFD f.buffer = true then
          [Event.fcsWrite f.buffer] else []) ++
        (if isEOT f.buffer = true then [Event.dtmfReset] else []) ∧
    (rptForward cfg q f.buffer).m_inactivityTimer =
      (if (q.m_linkType = LINK_TYPE.LINK_YSF ∨
            (cfg.fcsNetworkEnabled = true ∧ q.m_linkType = LINK_TYPE.LINK_FCS)) ∧
          q.m_exclude = false ∧ isYSFD f.buffer = true then
        q.m_inactivityTimer.start else q.m_inactivityTimer) := by
  have hw := wide_rptCommands cfg s q f (wide_reachable cfg s hreach) hq
  unfold WideEnabled m_wiresX at hw
  obtain ⟨link, ex, ti, tl, tp, ny, nf, out⟩ := q
  simp only at hw
  unfold rptForward
  cases link <;> cases ex <;> cases hF : cfg.fcsNetworkEnabled <;>
    cases hM : isYSFD f.buffer <;> cases hE : isEOT f.buffer <;>
    simp_all [CYSFGateway.emit, CTimer.start]

/-- Witness for `forwarding_rule`: a live voice frame met while linked to the wide
network after the automatic connection at startup. -/
theorem forwarding_rule_witness :
    (rptForward exConfStartup (runStartup exConfStartup exDirectory)
        (exFrame WX_STATUS.WXS_NONE []).buffer).m_out =
      (runStartup exConfStartup exDirectory).m_out ++
        [Event.ysfWrite (exFrame WX_STATUS.WXS_NONE []).buffer] ∧
    (rptForward exConfStartup (runStartup exConfStartup exDirectory)
        (exFrame WX_STATUS.WXS_NONE []).buffer).m_inactivityTimer =
      (runStartup exConfStartup exDirectory).m_inactivityTimer.start :=
  have h := forwarding_rule exConfStartup (runStartup exConfStartup exDirectory)
    (runStartup exConfStartup exDirectory) (exFrame WX_STATUS.WXS_NONE [])
    ⟨exDirectory, [], rfl⟩ (by decide)
  ⟨by simpa [exFrame, isEOT, isYSFD] using h.1, by simpa [exFrame, isYSFD] using h.2⟩

/-! ## C14: frames received from the reflector networks -/

/-- C14, counterexample. With the FCS network disabled in the configuration, a
tone-sequence FCS connect still links to FCS (lost-link timer running); a frame then
received from the FCS adapter is not relayed to the repeater and does not restart the
lost-link timer: the gateway is left exactly as it was. -/
theorem fcs_frame_ignored_when_disabled :
    ∃ s, steps exConfWideOnly (runStartup exConfWideOnly exDirectory)
        [Input.rpt (exFrame WX_STATUS.WXS_CONNECT_FCS ['1', '2', '3']),
         Input.tick 1000 exDirectory] = some s ∧
      s.m_linkType = LINK_TYPE.LINK_FCS ∧ s.m_lostTimer.isRunning = true ∧
      s.m_lostTimer.m_timer = 1000 ∧
      fcsRead exConfWideOnly s [0x59, 0x53, 0x46, 0x44] = s :=
  ⟨_, rfl, by decide⟩

/-- C14, amended. In a reachable state: a frame from the wide network restarts the
lost-link timer if and only if the link is `LINK_YSF`, and is then relayed to the
repeater if and only if it starts with `YSFD`; a frame from the FCS network is relayed to
the repeater and restarts the lost-link timer if and only if the FCS network is enabled
and the link is `LINK_FCS`; in every other case the gateway is left exactly as it was. -/
theorem reflector_frame_rule (cfg : CConf) (s : CYSFGateway) (buffer : List Nat)
    (hreach : Reachable cfg s) :
    ysfRead cfg s buffer =
      (if s.m_linkType = LINK_TYPE.LINK_YSF then
        { s with m_lostTimer := s.m_lostTimer.start,
                 m_out := s.m_out ++
                   (if isYSFD buffer = true then [Event.rptWrite buffer] else []) }
      else s) ∧
    fcsRead cfg s buffer =
      (if cfg.fcsNetworkEnabled = true ∧ s.m_linkType = LINK_TYPE.LINK_FCS then
        { s with m_lostTimer := s.m_lostTimer.start,
                 m_out := s.m_out ++ [Event.rptWrite buffer] }
      else s) := by
  have hw := wide_reachable cfg s hreach
  unfold WideEnabled m_wiresX at hw
  obtain ⟨link, ex, ti, tl, tp, ny, nf, out⟩ := s
  simp only at hw
  unfold ysfRead fcsRead
  cases link <;> cases hF : cfg.fcsNetworkEnabled <;> cases hM : isYSFD buffer <;>
    simp_all [CYSFGateway.emit]

/-- Witness for `reflector_frame_rule`: a `YSFD` frame received from the FCS network
while linked to FCS is relayed to the repeater and restarts the lost-link timer; the same
frame received from the wide network changes nothing. -/
theorem reflector_frame_rule_witness :
    ysfRead exConf exLinkedFCS [0x59, 0x53, 0x46, 0x44] = exLinkedFCS ∧
    fcsRead exConf exLinkedFCS [0x59, 0x53, 0x46, 0x44] =
      { exLinkedFCS with
        m_lostTimer := exLinkedFCS.m_lostTimer.start,
        m_out := exLinkedFCS.m_out ++ [Event.rptWrite [0x59, 0x53, 0x46, 0x44]] } :=
  have h := reflector_frame_rule exConf exLinkedFCS [0x59, 0x53, 0x46, 0x44]
    exLinkedFCS_reachable
  ⟨by simpa [exLinkedFCS] using h.1, by simpa [exLinkedFCS, exConf] using h.2⟩

/-! ## C15: order of the timer blocks within one step -/

theorem polls_inactivityDisconnectCalls (cfg : CConf) (out : List Event) :
    polls (out ++ inactivityDisconnectCalls cfg) = polls out := by
  cases hw : m_wiresX cfg <;>
    simp [polls, inactivityDisconnectCalls, hw, Event.isPoll, List.filter_cons]

theorem polls_revertCalls (r : CYSFReflector) (out : List Event) :
    polls (out ++ revertCalls r) =
      polls out ++ [Event.ysfWritePoll, Event.ysfWritePoll, Event.ysfWritePoll] := by
  simp [polls, revertCalls, Event.isPoll, List.filter_cons]

theorem clockInactivity_no_target (cfg : CConf) (s : CYSFGateway) (ms : Nat)
    (directory : List Char → Option CYSFReflector)
    (hlink : s.m_linkType = LINK_TYPE.LINK_YSF)
    (hrun : s.m_inactivityTimer.m_running = true)
    (hexp : s.m_inactivityTimer.m_timeout ≤ s.m_inactivityTimer.m_timer + ms)
    (hnone : (if cfg.revert = true ∧ cfg.startup ≠ [] ∧ m_wiresX cfg = true then
        directory cfg.startup else none) = none) :
    clockInactivity cfg s ms directory =
      { s with m_linkType := LINK_TYPE.LINK_NONE,
               m_inactivityTimer := (s.m_inactivityTimer.clock ms).stop,
               m_lostTimer := s.m_lostTimer.stop,
               m_ysfPollTimer := s.m_ysfPollTimer.stop,
               m_ysfNetwork := { m_destination := none },
               m_out := s.m_out ++ inactivityDisconnectCalls cfg } := by
  obtain ⟨link, ex, ⟨ips, ito, it, ir⟩, tl, tp, ny, nf, out⟩ := s
  simp only at hlink hrun hexp
  subst hlink hrun
  unfold clockInactivity
  simp only [CTimer.clock, CTimer.isRunning, CTimer.hasExpired, hexp, if_true, decide_True,
    and_self, hnone]
  cases hw : m_wiresX cfg <;>
    simp [inactivityDisconnectCalls, hw, CYSFGateway.ysfWriteUnlink,
      CYSFGateway.ysfClearDestination, CYSFGateway.emit, CTimer.stop]

/-- The three outcomes of the inactivity block: only the inactivity timer changes; or
the inactivity disconnect; or the revert to the startup reflector. -/
theorem clockInactivity_cases (cfg : CConf) (s : CYSFGateway) (ms : Nat)
    (directory : List Char → Option CYSFReflector) :
    (clockInactivity cfg s ms directory =
      { s with m_inactivityTimer := (clockInactivity cfg s ms directory).m_inactivityTimer }) ∨
    (s.m_linkType = LINK_TYPE.LINK_YSF ∧
      clockInactivity cfg s ms directory =
        { s with m_linkType := LINK_TYPE.LINK_NONE,
                 m_inactivityTimer := (s.m_inactivityTimer.clock ms).stop,
                 m_lostTimer := s.m_lostTimer.stop,
                 m_ysfPollTimer := s.m_ysfPollTimer.stop,
                 m_ysfNetwork := { m_destination := none },
                 m_out := s.m_out ++ inactivityDisconnectCalls cfg }) ∨
    (∃ r, s.m_linkType = LINK_TYPE.LINK_YSF ∧
      clockInactivity cfg s ms directory =
        { s with m_inactivityTimer := (s.m_inactivityTimer.clock ms).stop,
                 m_lostTimer := s.m_lostTimer.start,
                 m_ysfPollTimer := s.m_ysfPollTimer.start,
                 m_ysfNetwork := { m_destination := some (r.m_address, r.m_port) },
                 m_out := s.m_out ++ revertCalls r }) := by
  by_cases hf : s.m_inactivityTimer.m_running = true ∧
      s.m_inactivityTimer.m_timeout ≤ s.m_inactivityTimer.m_timer + ms
  · obtain ⟨hrun, hexp⟩ := hf
    by_cases hlink : s.m_linkType = LINK_TYPE.LINK_YSF
    · by_cases hc : cfg.revert = true ∧ cfg.startup ≠ [] ∧ m_wiresX cfg = true
      · cases hd : directory cfg.startup with
        | some r =>
          exact Or.inr (Or.inr ⟨r, hlink,
            clockInactivity_revert cfg s ms directory r hlink hrun hexp hc.1 hc.2.1 hc.2.2 hd⟩)
        | none =>
          exact Or.inr (Or.inl ⟨hlink,
            clockInactivity_no_target cfg s ms directory hlink hrun hexp (by rw [if_pos hc, hd])⟩)
      · exact Or.inr (Or.inl ⟨hlink,
          clockInactivity_no_target cfg s ms directory hlink hrun hexp (if_neg hc)⟩)
    · exact Or.inl (clockInactivity_not_ysf cfg s ms directory hlink)
  · left
    have hp : s.m_inactivityTimer.m_running = true →
        s.m_inactivityTimer.m_timer + ms < s.m_inactivityTimer.m_timeout := by
      intro hr
      by_contra hn
      exact hf ⟨hr, by omega⟩
    rw [clockInactivity_pending cfg s ms directory hp]

/-- C15, counterexample. With revert enabled, in the reachable state `exRevertLinked` a
timer step of 120 seconds first reverts to the startup reflector (three polls), then
finds the freshly restarted lost-link timer expired: the lost-link timer fires in that
step and three polls were sent in it. -/
theorem polls_in_step_with_lost_link :
    Reachable exConfRevert exRevertLinked ∧
    (clockInactivity exConfRevert exRevertLinked 120000 exDirectory).m_lostTimer.isRunning =
      true ∧
    ((clockInactivity exConfRevert exRevertLinked 120000 exDirectory).m_lostTimer.clock
      120000).hasExpired = true ∧
    (clock exConfRevert exRevertLinked 120000 exDirectory).m_linkType = LINK_TYPE.LINK_NONE ∧
    polls (clock exConfRevert exRevertLinked 120000 exDirectory).m_out =
      polls exRevertLinked.m_out ++
        [Event.ysfWritePoll, Event.ysfWritePoll, Event.ysfWritePoll] :=
  ⟨exRevertLinked_reachable, by decide, by decide, by decide, by decide⟩

/-- C15, amended. The timer step runs the inactivity, lost-link and poll-retry blocks in
this order. In every state and for every elapsed time: when the lost-link timer fires in
the step (it runs and has expired when its block is reached), the step ends with the
calls of the lost-link transition, so neither that block nor the poll-retry block sends a
poll, whatever time the poll-retry timer has accumulated; the step as a whole then sends
no poll when the elapsed time is below the lost-link timeout (otherwise an inactivity
revert may have sent its three polls earlier in the same step). When the inactivity
timer fires and disconnects, the step sends exactly the calls of the inactivity
disconnect, hence no poll. -/
theorem timer_block_order (cfg : CConf) (s : CYSFGateway) (ms : Nat)
    (directory : List Char → Option CYSFReflector) :
    clock cfg s ms directory =
      clockPoll (clockLost cfg (clockInactivity cfg s ms directory) ms) ms ∧
    ((clockInactivity cfg s ms directory).m_lostTimer.isRunning = true →
      ((clockInactivity cfg s ms directory).m_lostTimer.clock ms).hasExpired = true →
      (clock cfg s ms directory).m_out =
        (clockInactivity cfg s ms directory).m_out ++ lostLinkCalls cfg ∧
      polls (clock cfg s ms directory).m_out =
        polls (clockInactivity cfg s ms directory).m_out ∧
      (ms < s.m_lostTimer.m_timeout →
        polls (clock cfg s ms directory).m_out = polls s.m_out)) ∧
    (s.m_inactivityTimer.isRunning = true →
      (s.m_inactivityTimer.clock ms).hasExpired = true →
      (clockInactivity cfg s ms directory).m_linkType = LINK_TYPE.LINK_NONE →
      s.m_linkType = LINK_TYPE.LINK_YSF →
      (clock cfg s ms directory).m_out = s.m_out ++ inactivityDisconnectCalls cfg ∧
      polls (clock cfg s ms directory).m_out = polls s.m_out) := by
  refine ⟨rfl, ?_, ?_⟩
  · intro hrun hexp
    have hrun' : (clockInactivity cfg s ms directory).m_lostTimer.m_running = true := hrun
    have hexp' : (clockInactivity cfg s ms directory).m_lostTimer.m_timeout ≤
        (clockInactivity cfg s ms directory).m_lostTimer.m_timer + ms := by
      simpa [CTimer.hasExpired, CTimer.clock, hrun'] using hexp
    have h1 : (clock cfg s ms directory).m_out =
        (clockInactivity cfg s ms directory).m_out ++ lostLinkCalls cfg := by
      rw [clock, clockLost_fires cfg _ ms hrun' hexp',
        clockPoll_stopped _ ms (by simp [CTimer.stop])]
    refine ⟨h1, ?_, ?_⟩
    · rw [h1]; exact polls_lostLinkCalls cfg _
    · intro hms
      rw [h1, polls_lostLinkCalls]
      rcases clockInactivity_cases cfg s ms directory with h | ⟨_, h⟩ | ⟨r, _, h⟩
      · rw [h]
      · rw [h] at hrun'
        simp [CTimer.stop] at hrun'
      · rw [h] at hexp'
        simp only [CTimer.start] at hexp'
        omega
  · intro hrun hexp hnone hlink
    rcases clockInactivity_cases cfg s ms directory with h | ⟨_, h⟩ | ⟨r, _, h⟩
    · rw [h] at hnone
      simp only at hnone
      rw [hlink] at hnone
      cases hnone
    · have h1 : (clock cfg s ms directory).m_out = s.m_out ++ inactivityDisconnectCalls cfg := by
        rw [clock, h, clockLost_stopped cfg _ ms (by simp [CTimer.stop]),
          clockPoll_stopped _ ms (by simp [CTimer.stop])]
      exact ⟨h1, by rw [h1]; exact polls_inactivityDisconnectCalls cfg _⟩
    · rw [h] at hnone
      simp only at hnone
      rw [hlink] at hnone
      cases hnone

/-- Witness for `timer_block_order`: in `exSilentWide` (lost-link timer at 119 of 120
seconds, poll-retry timer at 1 of 5 seconds) a step of five seconds makes the lost-link
timer fire and no poll is sent although the poll-retry timer has reached its timeout; in
the state after the automatic connection a step of sixty seconds makes the inactivity
timer disconnect and no poll is sent either. -/
theorem timer_block_order_witness :
    (exSilentWide.m_ysfPollTimer.clock 5000).hasExpired = true ∧
    polls (clock exConfStartup exSilentWide 5000 exDirectory).m_out =
      polls exSilentWide.m_out ∧
    ((runStartup exConfStartup exDirectory).m_ysfPollTimer.clock 60000).hasExpired = true ∧
    polls (clock exConfStartup (runStartup exConfStartup exDirectory) 60000
      exDirectory).m_out = polls (runStartup exConfStartup exDirectory).m_out :=
  ⟨by decide,
   ((timer_block_order exConfStartup exSilentWide 5000 exDirectory).2.1
      (by decide) (by decide)).2.2 (by decide),
   by decide,
   ((timer_block_order exConfStartup (runStartup exConfStartup exDirectory) 60000
      exDirectory).2.2 (by decide) (by decide) (by decide) (by decide)).2⟩

/-! ## C16: tone-sequence disconnect and menu-command disconnect -/

/-- C16. In every reachable state, handling a disconnect decision of the tone-sequence
decoder succeeds and gives the same link type, the same destinations and the same three
timers as handling a disconnect decision of the menu-command decoder; both send the same
unlinks, three to the linked network and none when not linked; afterwards the link type
is `LINK_NONE` and the three timers are stopped. (The traces differ only by the
notification of the directory collaborator made by the tone-sequence handler.) -/
theorem disconnect_mirror (cfg : CConf) (s : CYSFGateway) (r : CYSFReflector)
    (id rodata : List Char) (directory : List Char → Option CYSFReflector)
    (hreach : Reachable cfg s) :
    ∃ s', processDTMFStatus cfg s WX_STATUS.WXS_DISCONNECT id directory rodata = some s' ∧
      s'.m_linkType = (processWiresX s WX_STATUS.WXS_DISCONNECT r).m_linkType ∧
      s'.m_ysfNetwork = (processWiresX s WX_STATUS.WXS_DISCONNECT r).m_ysfNetwork ∧
      s'.m_fcsNetwork = (processWiresX s WX_STATUS.WXS_DISCONNECT r).m_fcsNetwork ∧
      s'.m_inactivityTimer = (processWiresX s WX_STATUS.WXS_DISCONNECT r).m_inactivityTimer ∧
      s'.m_lostTimer = (processWiresX s WX_STATUS.WXS_DISCONNECT r).m_lostTimer ∧
      s'.m_ysfPollTimer = (processWiresX s WX_STATUS.WXS_DISCONNECT r).m_ysfPollTimer ∧
      unlinks s'.m_out = unlinks s.m_out ++ unlinkActive s.m_linkType ∧
      unlinks (processWiresX s WX_STATUS.WXS_DISCONNECT r).m_out =
        unlinks s.m_out ++ unlinkActive s.m_linkType ∧
      s'.m_linkType = LINK_TYPE.LINK_NONE ∧
      s'.m_inactivityTimer.isRunning = false ∧ s'.m_lostTimer.isRunning = false ∧
      s'.m_ysfPollTimer.isRunning = false := by
  have hi := (Inv_iff s).1 (inv_reachable cfg s hreach)
  obtain ⟨link, ex, ti, tl, tp, ny, nf, out⟩ := s
  cases hw : m_wiresX cfg <;> cases link <;>
    simp_all [processDTMFStatus, processWiresX, unlinks, unlinkActive, Event.isUnlink,
      CYSFGateway.ysfWriteUnlink, CYSFGateway.fcsWriteUnlink,
      CYSFGateway.ysfClearDestination, CYSFGateway.fcsClearDestination, CYSFGateway.emit,
      CTimer.stop, CTimer.isRunning, List.filter_cons]

/-- Witness for `disconnect_mirror`: the disconnect of a link to FCS. -/
theorem disconnect_mirror_witness :
    ∃ s', processDTMFStatus exConf exLinkedFCS WX_STATUS.WXS_DISCONNECT [] exDirectory [] =
        some s' ∧
      s'.m_linkType = LINK_TYPE.LINK_NONE ∧
      s'.m_ysfPollTimer = (processWiresX exLinkedFCS WX_STATUS.WXS_DISCONNECT
        exReflector).m_ysfPollTimer ∧
      unlinks s'.m_out = unlinks exLinkedFCS.m_out ++
        [Event.fcsWriteUnlink, Event.fcsWriteUnlink, Event.fcsWriteUnlink] :=
  have ⟨s', h⟩ := disconnect_mirror exConf exLinkedFCS exReflector [] [] exDirectory
    exLinkedFCS_reachable
  ⟨s', h.1, h.2.2.2.2.2.2.2.2.2.1, h.2.2.2.2.2.2.1, h.2.2.2.2.2.2.2.1⟩

/-! ## C17: the exclusion flag from frame to frame -/

theorem processDTMFStatus_exclude (cfg : CConf) (s s' : CYSFGateway) (status : WX_STATUS)
    (id : List Char) (directory : List Char → Option CYSFReflector) (rodata : List Char)
    (hs : processDTMFStatus cfg s status id directory rodata = some s') :
    s'.m_exclude = s.m_exclude ∧ reflectorWrites s'.m_out = reflectorWrites s.m_out := by
  obtain ⟨link, ex, ti, tl, tp, ny, nf, out⟩ := s
  cases status
  · simp [processDTMFStatus] at hs; subst hs; exact ⟨rfl, rfl⟩
  · cases hw : m_wiresX cfg <;> simp [processDTMFStatus, hw] at hs
    cases hd : directory id <;> simp [hd] at hs
    · subst hs; exact ⟨rfl, rfl⟩
    · subst hs
      cases link <;>
        simp [reflectorWrites, Event.isReflectorWrite, CYSFGateway.ysfSetDestination,
          CYSFGateway.ysfWritePoll, CYSFGateway.ysfWriteUnlink, CYSFGateway.fcsWriteUnlink,
          CYSFGateway.fcsClearDestination, CYSFGateway.emit, List.filter_cons]
  · cases hf : fcsReflector rodata id <;> simp [processDTMFStatus, hf] at hs
    subst hs
    cases link <;>
      simp [reflectorWrites, Event.isReflectorWrite, CYSFGateway.fcsWriteLink,
        CYSFGateway.ysfWriteUnlink, CYSFGateway.fcsWriteUnlink,
        CYSFGateway.ysfClearDestination, CYSFGateway.emit, List.filter_cons]
  · cases hw : m_wiresX cfg <;> cases link <;>
      simp [processDTMFStatus, hw, CYSFGateway.ysfWriteUnlink,
        CYSFGateway.fcsWriteUnlink, CYSFGateway.ysfClearDestination,
        CYSFGateway.fcsClearDestination, CYSFGateway.emit, CTimer.stop] at hs <;>
      subst hs <;>
      simp [reflectorWrites, Event.isReflectorWrite, List.filter_cons]

theorem rptCommands_exclude (cfg : CConf) (s q : CYSFGateway) (f : RptFrame)
    (hq : rptCommands cfg s f = some q) :
    q.m_exclude = excludeFor s f ∧ reflectorWrites q.m_out = reflectorWrites s.m_out := by
  unfold rptCommands at hq
  unfold excludeFor
  cases hf : f.fich with
  | none => simp [hf] at hq; subst hq; exact ⟨rfl, rfl⟩
  | some fich =>
    simp only [hf] at hq
    have h1 := processWiresX_exclude
      { s with m_exclude := decide (fich.dt = YSF_DT_DATA_FR_MODE) } f.wxProcess f.wxReflector
    have h2 := processDTMFStatus_exclude cfg _ q _ _ _ _ hq
    split at h2
    · exact ⟨h2.1.trans h1.1, h2.2.trans h1.2⟩
    · exact h2

theorem rptForward_exclude (cfg : CConf) (q : CYSFGateway) (buffer : List Nat) :
    (rptForward cfg q buffer).m_exclude = (if isEOT buffer = true then false else q.m_exclude) ∧
    (q.m_exclude = true →
      reflectorWrites (rptForward cfg q buffer).m_out = reflectorWrites q.m_out) := by
  obtain ⟨link, ex, ti, tl, tp, ny, nf, out⟩ := q
  unfold rptForward
  cases link <;> cases ex <;> cases hY : cfg.ysfNetworkEnabled <;>
    cases hF : cfg.fcsNetworkEnabled <;> cases hM : isYSFD buffer <;>
    cases hE : isEOT buffer <;>
    simp [CYSFGateway.emit, reflectorWrites, Event.isReflectorWrite, List.filter_cons]

/-- C17, counterexample. Linked to the wide network, a data-frame-mode frame sets the
exclusion flag and is not forwarded; the next frame, a live voice frame whose header
decodes with another data type, finds no end-of-transmission frame in between, yet the
flag is recomputed to false and the frame is forwarded to the wide network. -/
theorem exclusion_flag_recomputed :
    isEOT exDataFrame.buffer = false ∧
    ∃ s1 s2, rptRead exConfStartup (runStartup exConfStartup exDirectory) exDataFrame =
        some s1 ∧
      s1.m_exclude = true ∧
      reflectorWrites s1.m_out = reflectorWrites (runStartup exConfStartup exDirectory).m_out ∧
      isEOT (exFrame WX_STATUS.WXS_NONE []).buffer = false ∧
      rptRead exConfStartup s1 (exFrame WX_STATUS.WXS_NONE []) = some s2 ∧
      s2.m_exclude = false ∧
      reflectorWrites s2.m_out =
        reflectorWrites s1.m_out ++ [Event.ysfWrite (exFrame WX_STATUS.WXS_NONE []).buffer] :=
  ⟨by decide, _, _, rfl, by decide, by decide, by decide, rfl, by decide, by decide⟩

/-- C17, amended. For every state and every repeater frame that is processed: the frame
is judged with the flag recomputed from its data type when its header decodes (true if
and only if the data type is `YSF_DT_DATA_FR_MODE`) and with the flag left by the
previous frame when it does not; when that flag is true the frame is forwarded to no
reflector; after the frame the flag is false if the frame has the end-of-transmission
bit and is that flag otherwise. So a flag set by a data-frame-mode frame stays true
through the following frames that are themselves data-frame-mode or do not decode, up
to the first frame with the end-of-transmission bit. -/
theorem exclusion_flag_rule (cfg : CConf) (s s' : CYSFGateway) (f : RptFrame)
    (hs : rptRead cfg s f = some s') :
    s'.m_exclude = (if isEOT f.buffer = true then false else excludeFor s f) ∧
    (excludeFor s f = true → reflectorWrites s'.m_out = reflectorWrites s.m_out) ∧
    (isEOT f.buffer = true → s'.m_exclude = false) ∧
    (s.m_exclude = true → isEOT f.buffer = false →
      (f.fich = none ∨ ∃ fich, f.fich = some fich ∧ fich.dt = YSF_DT_DATA_FR_MODE) →
      s'.m_exclude = true ∧ reflectorWrites s'.m_out = reflectorWrites s.m_out) := by
  simp only [rptRead, Option.map_eq_some'] at hs
  obtain ⟨q, hq, rfl⟩ := hs
  obtain ⟨h1, h2⟩ := rptCommands_exclude cfg s q f hq
  obtain ⟨h3, h4⟩ := rptForward_exclude cfg q f.buffer
  have hA : (rptForward cfg q f.buffer).m_exclude =
      (if isEOT f.buffer = true then false else excludeFor s f) := by rw [h3, h1]
  have hB : excludeFor s f = true →
      reflectorWrites (rptForward cfg q f.buffer).m_out = reflectorWrites s.m_out := by
    intro he
    rw [h4 (h1.trans he), h2]
  refine ⟨hA, hB, ?_, ?_⟩
  · intro he; rw [hA, if_pos he]
  · intro hx he hf
    have hex : excludeFor s f = true := by
      unfold excludeFor
      rcases hf with hf | ⟨fich, hf, hdt⟩
      · rw [hf]; exact hx
      · rw [hf]; simpa using hdt
    refine ⟨?_, hB hex⟩
    rw [hA, hex]
    simp [he]

/-- Witness for `exclusion_flag_rule`: two data-frame-mode frames in a row while linked
to the wide network; the second is processed with the flag set and is not forwarded. -/
theorem exclusion_flag_rule_witness :
    ∃ s1 s2, rptRead exConfStartup (runStartup exConfStartup exDirectory) exDataFrame =
        some s1 ∧ s1.m_exclude = true ∧
      rptRead exConfStartup s1 exDataFrame = some s2 ∧
      s2.m_exclude = true ∧ reflectorWrites s2.m_out = reflectorWrites s1.m_out :=
  have h1 : rptRead exConfStartup (runStartup exConfStartup exDirectory) exDataFrame =
      some { runStartup exConfStartup exDirectory with m_exclude := true } := by decide
  have h2 : rptRead exConfStartup
      { runStartup exConfStartup exDirectory with m_exclude := true } exDataFrame =
      some { runStartup exConfStartup exDirectory with m_exclude := true } := by decide
  ⟨_, _, h1, rfl, h2,
    (exclusion_flag_rule exConfStartup _ _ exDataFrame h2).2.2.2 rfl (by decide)
      (Or.inr ⟨_, rfl, rfl⟩)⟩

/-! ## C18: repeater frames whose header does not decode -/

/-- C18. For every state and every repeater frame whose header fails to decode: the
frame is processed without a crash and the result is that of the forwarding step alone,
applied to the state as it was; it does not depend on anything the menu-command
decoder, the tone-sequence decoder or the directory would answer; link type, both
destinations, lost-link timer and poll-retry timer are unchanged; the frame is written
to the wide-network adapter when that network is enabled, the link is `LINK_YSF` and the
flag left by the previous frame is false, to the FCS adapter when that network is
enabled, the link is `LINK_FCS`, that flag is false and the frame starts with `YSFD`;
and the flag is afterwards false if the frame has the end-of-transmission bit (the
tone-sequence decoder is then reset) and unchanged otherwise. -/
theorem undecodable_frame (cfg : CConf) (s : CYSFGateway) (f : RptFrame)
    (hf : f.fich = none) :
    rptRead cfg s f = some (rptForward cfg s f.buffer) ∧
    (∀ f' : RptFrame, f'.fich = none → f'.buffer = f.buffer →
      rptRead cfg s f' = rptRead cfg s f) ∧
    ((rptForward cfg s f.buffer).m_linkType = s.m_linkType ∧
      (rptForward cfg s f.buffer).m_ysfNetwork = s.m_ysfNetwork ∧
      (rptForward cfg s f.buffer).m_fcsNetwork = s.m_fcsNetwork ∧
      (rptForward cfg s f.buffer).m_lostTimer = s.m_lostTimer ∧
      (rptForward cfg s f.buffer).m_ysfPollTimer = s.m_ysfPollTimer) ∧
    (rptForward cfg s f.buffer).m_out =
      s.m_out ++
        (if cfg.ysfNetworkEnabled = true ∧ s.m_linkType = LINK_TYPE.LINK_YSF ∧
            s.m_exclude = false then
          [Event.ysfWrite f.buffer] else []) ++
        (if cfg.fcsNetworkEnabled = true ∧ s.m_linkType = LINK_TYPE.LINK_FCS ∧
            s.m_exclude = false ∧ isYSFD f.buffer = true then
          [Event.fcsWrite f.buffer] else []) ++
        (if isEOT f.buffer = true then [Event.dtmfReset] else []) ∧
    (rptForward cfg s f.buffer).m_exclude =
      (if isEOT f.buffer = true then false else s.m_exclude) := by
  have h0 : ∀ g : RptFrame, g.fich = none →
      rptRead cfg s g = some (rptForward cfg s g.buffer) := by
    intro g hg
    simp [rptRead, rptCommands, hg]
  refine ⟨h0 f hf, ?_, ?_, ?_, (rptForward_exclude cfg s f.buffer).1⟩
  · intro f' hf' hb
    rw [h0 f' hf', h0 f hf, hb]
  · obtain ⟨link, ex, ti, tl, tp, ny, nf, out⟩ := s
    unfold rptForward
    simp only
    split_ifs <;> simp [CYSFGateway.emit]
  · obtain ⟨link, ex, ti, tl, tp, ny, nf, out⟩ := s
    unfold rptForward
    cases link <;> cases ex <;> cases hY : cfg.ysfNetworkEnabled <;>
      cases hF : cfg.fcsNetworkEnabled <;> cases hM : isYSFD f.buffer <;>
      cases hE : isEOT f.buffer <;>
      simp [CYSFGateway.emit]

/-- Witness for `undecodable_frame`: a frame with the marker whose header does not
decode, met while linked to FCS. -/
theorem undecodable_frame_witness :
    rptRead exConf exLinkedFCS exUndecodableFrame =
      some (rptForward exConf exLinkedFCS exUndecodableFrame.buffer) ∧
    (rptForward exConf exLinkedFCS exUndecodableFrame.buffer).m_linkType =
      LINK_TYPE.LINK_FCS ∧
    (rptForward exConf exLinkedFCS exUndecodableFrame.buffer).m_out =
      exLinkedFCS.m_out ++ [Event.fcsWrite exUndecodableFrame.buffer] :=
  have h := undecodable_frame exConf exLinkedFCS exUndecodableFrame rfl
  ⟨h.1, h.2.2.1.1, by decide⟩

/-! ## C19: supervision of every link -/

/-- C19. In every reachable state: the lost-link timer is running if and only if the
link type is not `LINK_NONE`; the poll-retry timer is running if and only if the link
type is `LINK_YSF`; and the wide-network destination is set if and only if the link type
is `LINK_YSF`. -/
theorem link_supervision (cfg : CConf) (s : CYSFGateway) (hreach : Reachable cfg s) :
    (s.m_lostTimer.isRunning = true ↔ s.m_linkType ≠ LINK_TYPE.LINK_NONE) ∧
    (s.m_ysfPollTimer.isRunning = true ↔ s.m_linkType = LINK_TYPE.LINK_YSF) ∧
    (s.m_ysfNetwork.m_destination ≠ none ↔ s.m_linkType = LINK_TYPE.LINK_YSF) := by
  have hi := (Inv_iff s).1 (inv_reachable cfg s hreach)
  obtain ⟨link, ex, ti, tl, tp, ⟨ny⟩, ⟨nf⟩, out⟩ := s
  cases link <;> cases ny <;> simp_all [CTimer.isRunning]

/-- Witness for `link_supervision`: the reachable state `exSilentWide`. -/
theorem link_supervision_witness :
    (exSilentWide.m_lostTimer.isRunning = true ↔
      exSilentWide.m_linkType ≠ LINK_TYPE.LINK_NONE) ∧
    (exSilentWide.m_ysfPollTimer.isRunning = true ↔
      exSilentWide.m_linkType = LINK_TYPE.LINK_YSF) ∧
    (exSilentWide.m_ysfNetwork.m_destination ≠ none ↔
      exSilentWide.m_linkType = LINK_TYPE.LINK_YSF) :=
  link_supervision exConfStartup exSilentWide exSilentWide_reachable

/-! ## C20: tone-sequence decisions without the directory collaborator -/

/-- C20. With the menu-command/directory collaborator absent (`m_wiresX` null): a
connect-wide decision of the tone-sequence decoder makes `processDTMF` look the
identifier up through the null `m_wiresX`, and the program ends there, for the handler
as for the whole frame; the other decisions are handled without any call on the
collaborator (no decision: state unchanged; disconnect; FCS connect for a code of at
least two digits). -/
theorem absent_collaborator (cfg : CConf) (s : CYSFGateway) (f : RptFrame) (fich : CYSFFICH)
    (hw : m_wiresX cfg = false) (hfich : f.fich = some fich)
    (hdt : fich.dt = YSF_DT_VD_MODE2) :
    (f.decodeVDMode2 = WX_STATUS.WXS_CONNECT_YSF →
      processDTMF cfg s f fich.dt = none ∧ rptRead cfg s f = none) ∧
    (f.decodeVDMode2 = WX_STATUS.WXS_NONE → processDTMF cfg s f fich.dt = some s) ∧
    (f.decodeVDMode2 = WX_STATUS.WXS_DISCONNECT →
      ∃ s', processDTMF cfg s f fich.dt = some s' ∧
        wiresXCalls s'.m_out = wiresXCalls s.m_out) ∧
    (f.decodeVDMode2 = WX_STATUS.WXS_CONNECT_FCS → 2 ≤ f.dtmfReflector.length →
      ∃ s', processDTMF cfg s f fich.dt = some s' ∧
        wiresXCalls s'.m_out = wiresXCalls s.m_out) := by
  refine ⟨?_, ?_, ?_, ?_⟩
  · intro hd
    simp [rptRead, rptCommands, hfich, processDTMF, hdt, hd, processDTMFStatus, hw]
  · intro hd
    simp [processDTMF, hdt, hd, processDTMFStatus]
  · intro hd
    obtain ⟨link, ex, ti, tl, tp, ny, nf, out⟩ := s
    cases link <;>
      simp [processDTMF, hdt, hd, processDTMFStatus, hw, wiresXCalls, Event.isWiresX,
        CYSFGateway.ysfWriteUnlink, CYSFGateway.fcsWriteUnlink,
        CYSFGateway.ysfClearDestination, CYSFGateway.fcsClearDestination, CYSFGateway.emit,
        List.filter_cons]
  · intro hd hlen
    obtain ⟨fid, hf⟩ := fcsReflector_isSome f.rodata f.dtmfReflector hlen
    obtain ⟨link, ex, ti, tl, tp, ny, nf, out⟩ := s
    cases link <;>
      simp [processDTMF, hdt, hd, processDTMFStatus, hf, wiresXCalls, Event.isWiresX,
        CYSFGateway.fcsWriteLink, CYSFGateway.ysfWriteUnlink, CYSFGateway.fcsWriteUnlink,
        CYSFGateway.ysfClearDestination, CYSFGateway.emit, List.filter_cons]

/-- Witness for `absent_collaborator`: with the wide network disabled and the gateway
linked to FCS, a frame for which the tone-sequence decoder answers connect-wide. -/
theorem absent_collaborator_witness :
    steps exConfFcsOnly (runStartup exConfFcsOnly exDirectory)
      [Input.rpt (exFrame WX_STATUS.WXS_CONNECT_FCS ['1', '2', '3'])] = some exLinkedFCS ∧
    processDTMF exConfFcsOnly exLinkedFCS
      (exFrame WX_STATUS.WXS_CONNECT_YSF ['0', '0', '0', '0', '1']) 2 = none ∧
    rptRead exConfFcsOnly exLinkedFCS
      (exFrame WX_STATUS.WXS_CONNECT_YSF ['0', '0', '0', '0', '1']) = none :=
  have h := (absent_collaborator exConfFcsOnly exLinkedFCS
    (exFrame WX_STATUS.WXS_CONNECT_YSF ['0', '0', '0', '0', '1'])
    { fi := 1, dt := 2, fn := 0, ft := 0 } rfl rfl rfl).1 rfl
  ⟨by decide, h.1, h.2⟩

end YSFGateway
